import Mathlib

/-!
# rsp_snd: sample ring buffer, producer callback, software AGC loop and configuration

A shallow embedding of `ringbuffer.cpp`, of `Rsp::stream_callback`,
`Rsp::setIFGainReduction` (`rsp.cpp`), of `AgcGtw` (`agc_gtw.cpp`) and of
`get_config` with the functions it calls (`config.cpp`).

Conventions of the embedding.

* `size_t` values are natural numbers and every `size_t` operation is reduced
  modulo `2 ^ 64`; conversions between `int`, `unsigned int` and `size_t` are
  the modular ones.
* `int` counters and the gain value are integers.  The products computed from
  16-bit samples and from the configured thresholds, the increments and the
  decrement of the millisecond clock, the two gain steps and the count of the
  option `-v` are reduced to the `int` range (two's complement); the increment
  of the overload counter is taken below `INT_MAX` only, as in the source.
* A pointer into the ring buffer is the index of the element it points to
  (`data + i` is `i`); the null pointer is `none`.
* The store of the buffer is mapped twice back to back: element `i` of `data`
  (`i < 2 * size`) is slot `i % size`.
* Threads are not modelled: every function is one sequential call.  A blocking
  read that would suspend its caller returns `none`.
-/

namespace RspSnd

/-! ## Machine integers -/

/-- Number of values of `size_t`. -/
def SIZE_MOD : Nat := 18446744073709551616

/-- Largest `int`. -/
def INT_MAX : Int := 2147483647

/-- Smallest `int`. -/
def INT_MIN : Int := -2147483648

/-- Conversion of an integer to `int` (two's complement). -/
def toInt32 (x : Int) : Int := (x + 2147483648) % 4294967296 - 2147483648

/-- Conversion of an integer to `unsigned int`. -/
def toUInt32 (x : Int) : Nat := (x % 4294967296).toNat

/-- Conversion of an integer to `size_t`. -/
def toSizeT (x : Int) : Nat := (x % 18446744073709551616).toNat

/-- Addition of `size_t` values. -/
def szAdd (a b : Nat) : Nat := (a + b) % SIZE_MOD

/-- Subtraction of `size_t` values. -/
def szSub (a b : Nat) : Nat := (a + (SIZE_MOD - b % SIZE_MOD)) % SIZE_MOD

/-- Multiplication of `size_t` values. -/
def szMul (a b : Nat) : Nat := (a * b) % SIZE_MOD

/-- One sample: the pair `short[2]` of in-phase and quadrature values. -/
abbrev Sample := Int × Int

/-- Value of `sizeof(short[2])`. -/
def sizeof_T : Nat := 4

/-! ## ringbuffer.cpp -/

/-- The class `RingBuffer<short[2]>`.  `data p` is the content of slot `p`. -/
structure RingBuffer where
  data : Nat → Sample
  size : Nat
  write_idx : Nat
  verbose : Int
  stopped : Bool
  max_read_size : Nat

namespace RingBuffer

/-- The doubled store of the buffer, `2 * size` elements of `sizeof(T)` bytes
as mapped by the constructor, lies inside the 64-bit address space. -/
def Mapped (rb : RingBuffer) : Prop := 2 * (rb.size * sizeof_T) < SIZE_MOD

instance (rb : RingBuffer) : Decidable rb.Mapped := by
  unfold Mapped; infer_instance

/-- The constructor `RingBuffer(size, verbose)`.  `pagesize` is the value of
`getpagesize()`; `mmap_ok`, `mremap1_ok`, `mremap2_ok` and `same_addr` say
whether the three mapping calls succeed and whether the second copy is placed
at the requested address.  Anonymous memory is zero filled. -/
def ctor (size : Nat) (verbose : Int) (pagesize : Nat)
    (mmap_ok mremap1_ok mremap2_ok same_addr : Bool) : Except String RingBuffer :=
  let bytesize := szMul size sizeof_T
  if bytesize % pagesize ≠ 0 then
    Except.error "invalid ring buffer size (not a multiple of PAGE_SIZE)"
  else if !mmap_ok then Except.error "mmap() failed"
  else if !mremap1_ok then Except.error "mremap() first copy failed"
  else if !mremap2_ok then Except.error "mremap() second copy failed"
  else if !same_addr then
    Except.error "mremap() second copy returned different address than requested"
  else
    Except.ok
      { data := fun _ => (0, 0), size := size, write_idx := 0, verbose := verbose,
        stopped := false, max_read_size := 0 }

/-- Element `i` of `data` (the access `data[i]`, `i < 2 * size`). -/
def elem (rb : RingBuffer) (i : Nat) : Sample := rb.data (i % rb.size)

/-- The assignment `data[i] = s`. -/
def store (rb : RingBuffer) (i : Nat) (s : Sample) : RingBuffer :=
  { rb with data := fun p => if p = i % rb.size then s else rb.data p }

/-- The function `next_write_ptr(advance)`: the new state and the returned pointer. -/
def next_write_ptr (rb : RingBuffer) (advance : Nat) : RingBuffer × Nat :=
  let w := szAdd rb.write_idx advance % rb.size
  ({ rb with write_idx := w }, w)

/-- The function `next_write_max_size()`. -/
def next_write_max_size (rb : RingBuffer) : Nat := szSub rb.size 1

/-- The function `next_read_ptr(current_read_ptr, advance)`. -/
def next_read_ptr (rb : RingBuffer) (current_read_ptr : Option Nat) (advance : Nat) : Nat :=
  match current_read_ptr with
  | none => rb.write_idx
  | some read_idx => szAdd read_idx advance % rb.size

/-- The predicate the blocking read waits for. -/
def wait_done (rb : RingBuffer) (read_idx : Nat) : Bool :=
  rb.write_idx != read_idx || rb.stopped

/-- The value `read_size` computed by `next_read_max_size`. -/
def read_size (rb : RingBuffer) (read_idx : Nat) : Nat :=
  szSub (szAdd rb.size rb.write_idx) read_idx % rb.size

/-- The function `next_read_max_size(current_read_ptr, blocking)` for the pointer
`data + read_idx`: `none` when the caller is suspended, otherwise the new state
and the returned length. -/
def next_read_max_size (rb : RingBuffer) (read_idx : Nat) (blocking : Bool) :
    Option (RingBuffer × Nat) :=
  if blocking && !rb.wait_done read_idx then none
  else
    let n := rb.read_size read_idx
    some ({ rb with max_read_size := max rb.max_read_size n }, n)

/-- The function `stop()` (the diagnostic line printed when `verbose >= 1` is not part of
the state). -/
def stop (rb : RingBuffer) : RingBuffer := { rb with stopped := true }

end RingBuffer

/-! ## rsp.cpp -/

/-- Value of `MAX_WRITE_TRIES`. -/
def MAX_WRITE_TRIES : Nat := 3

/-- Value of `UpdateTimeout`. -/
def UpdateTimeout : Nat := 500

/-- The SDRplay service as `Rsp` sees it.  The two bounds are the constants of
the vendor header tested by `setIFGainReduction`.  `update_ok k` is whether the
`k`-th call of `sdrplay_api_Update` returns `sdrplay_api_Success`;
`gr_confirm k = some d` says that after that call the stream callback reports
the gain change so that the waiting loop sees `gain_reduction_changed != 0`
at its test number `d` (counted from 0) and from then on, `none` that it never
does. -/
structure SdrplayApi where
  sdrplay_api_NORMAL_MIN_GR : Int
  MAX_BB_GR : Int
  update_ok : Nat → Bool
  gr_confirm : Nat → Option Nat

/-- The members of `Rsp` read or written by the functions below: `gRdB` is
`rx_channel_params->tunerParams.gain.gRdB`, `agc_enable` is
`rx_channel_params->ctrlParams.agc.enable != sdrplay_api_AGC_DISABLE`, and
`updates` counts the calls of `sdrplay_api_Update` made so far. -/
structure Rsp where
  gRdB : Int
  agc_enable : Bool
  run : Bool
  total_samples : Nat
  gain_reduction_changed : Int
  updates : Nat

/-- Outcome of a setter of `Rsp`: the state left behind, the message of the
exception thrown (if any), the number of one-millisecond sleeps of the waiting
loop and whether the timeout line was printed. -/
structure SetResult where
  rsp : Rsp
  thrown : Option String
  polls : Nat
  timeout : Bool

namespace Rsp

/-- The getter `getIFGainReduction()`. -/
def getIFGainReduction (rsp : Rsp) : Int := rsp.gRdB

/-- The setter `setIFGainReduction(gRdB, wait)`.  When the service confirms the
change the flag `gain_reduction_changed` is set to 1 (the program only tests it
against 0). -/
def setIFGainReduction (api : SdrplayApi) (rsp : Rsp) (gRdB : Int) (wait : Bool) : SetResult :=
  if gRdB < api.sdrplay_api_NORMAL_MIN_GR ∨ gRdB > api.MAX_BB_GR then
    { rsp := rsp, thrown := some "invalid IF gain reduction", polls := 0, timeout := false }
  else
    let reason_agc := rsp.agc_enable
    let reason_gr := decide (gRdB ≠ rsp.gRdB)
    let rsp1 := { rsp with agc_enable := false, gRdB := gRdB }
    if rsp1.run && (reason_agc || reason_gr) then
      let rsp2 := { rsp1 with gain_reduction_changed := 0, updates := rsp1.updates + 1 }
      if !api.update_ok rsp1.updates then
        { rsp := rsp2, thrown := some "sdrplay_api_Update(Ctrl_Agc|Tuner_Gr) failed",
          polls := 0, timeout := false }
      else if wait && reason_gr then
        match api.gr_confirm rsp1.updates with
        | none => { rsp := rsp2, thrown := none, polls := UpdateTimeout, timeout := true }
        | some d =>
          { rsp := { rsp2 with gain_reduction_changed := if d ≤ UpdateTimeout then 1 else 0 },
            thrown := none, polls := min d UpdateTimeout, timeout := decide (UpdateTimeout < d) }
      else { rsp := rsp2, thrown := none, polls := 0, timeout := false }
    else { rsp := rsp1, thrown := none, polls := 0, timeout := false }

end Rsp

/-- The inner loop of `stream_callback`:
`write_ptr[k] = (xi[xidx + k], xq[xidx + k])` for `k = 0, ..., n - 1`. -/
def write_samples (rb : RingBuffer) (write_ptr : Nat) (xi xq : Nat → Int) (xidx : Int) :
    Nat → RingBuffer
  | 0 => rb
  | n + 1 =>
    (write_samples rb write_ptr xi xq xidx n).store (write_ptr + n)
      (xi (xidx + n).toNat, xq (xidx + n).toNat)

/-- The variables of the outer loop of `stream_callback`. -/
structure StreamState where
  rsp : Rsp
  rb : RingBuffer
  write_ptr : Nat
  xidx : Int

/-- Outcome of `stream_callback`; `dropped` is the count printed in the
"dropped" line when that line is printed. -/
structure StreamResult where
  rsp : Rsp
  rb : RingBuffer
  xidx : Int
  dropped : Option Nat

/-- One pass of the outer loop of `stream_callback`, up to the test
`xidx == numSamples`. -/
def stream_try (xi xq : Nat → Int) (numSamples : Nat) (st : StreamState) : StreamState :=
  let max_write_size := st.rb.next_write_max_size
  let samples := min (toInt32 max_write_size) (toInt32 (toInt32 numSamples - st.xidx))
  let rb1 := write_samples st.rb st.write_ptr xi xq st.xidx samples.toNat
  let w := rb1.next_write_ptr (toSizeT samples)
  { rsp := { st.rsp with total_samples := szAdd st.rsp.total_samples (toSizeT samples) },
    rb := w.1, write_ptr := w.2, xidx := st.xidx + samples.toNat }

/-- The outer loop of `stream_callback` with `tries` passes left, followed by
the "dropped" line. -/
def stream_tries (xi xq : Nat → Int) (numSamples : Nat) : Nat → StreamState → StreamResult
  | 0, st =>
    { rsp := st.rsp, rb := st.rb, xidx := st.xidx,
      dropped := some (toUInt32 (numSamples - st.xidx)) }
  | t + 1, st =>
    let st1 := stream_try xi xq numSamples st
    if toUInt32 st1.xidx = numSamples then
      { rsp := st1.rsp, rb := st1.rb, xidx := st1.xidx, dropped := none }
    else stream_tries xi xq numSamples t st1

/-- The callback `Rsp::stream_callback(xi, xq, params, numSamples, reset)`;
`grChanged` is `params->grChanged`. -/
def stream_callback (rsp : Rsp) (rb : RingBuffer) (xi xq : Nat → Int) (grChanged : Int)
    (numSamples : Nat) : StreamResult :=
  if !rsp.run then { rsp := rsp, rb := rb, xidx := 0, dropped := none }
  else
    let rsp1 := { rsp with gain_reduction_changed := Int.lor rsp.gain_reduction_changed grChanged }
    let w := rb.next_write_ptr 0
    stream_tries xi xq numSamples MAX_WRITE_TRIES
      { rsp := rsp1, rb := w.1, write_ptr := w.2, xidx := 0 }

/-! ## agc_gtw.cpp -/

/-- The class `AgcGtwConfig`. -/
structure AgcGtwConfig where
  agc1_increase_threshold : Int
  agc2_decrease_threshold : Int
  agc3_min_time_ms : Int
  min_gain_reduction : Int
  max_gain_reduction : Int
  gainstep_dec : Int
  gainstep_inc : Int
  agc4_a : Int
  agc5_b : Int
  agc6_c : Int

/-- The members of `AgcGtw`.  `iq2_increase_threshold`, `iq2_decrease_threshold`
and `max_iq2` are used by `agc_gtw.cpp` without a declaration in the header at
hand; they are `int`, the type `std::max(iq2, max_iq2)` forces. -/
structure AgcGtw where
  verbose : Int
  run : Bool
  gain_reduction : Int
  samples_per_millis : Int
  samples_left : Int
  millis_since_last_agc_check : Int
  millis_since_last_gain_change : Int
  millis_iq_above_threshold : Int
  iq2_increase_threshold : Int
  iq2_decrease_threshold : Int
  max_iq2 : Int
  agc1_increase_threshold : Int
  agc2_decrease_threshold : Int
  agc3_min_time_ms : Int
  min_gain_reduction : Int
  max_gain_reduction : Int
  gainstep_dec : Int
  gainstep_inc : Int
  agc4_a : Int
  agc5_b : Int
  agc6_c : Int

/-- One call `rsp->setIFGainReduction(gRdB, wait)` made by the AGC loop. -/
structure GainCall where
  gRdB : Int
  wait : Bool
deriving DecidableEq

/-- How the body of the sample loop ends: `next` goes on with the following
sample (by `continue` or by reaching the end of the body), `brk` is the
`break` after a gain change, `thrown` is an exception leaving the loop. -/
inductive Flow
  | next
  | brk
  | thrown
deriving DecidableEq

/-- Outcome of the body of the sample loop. -/
structure AgcStep where
  agc : AgcGtw
  rsp : Rsp
  flow : Flow
  calls : List GainCall

namespace AgcGtw

/-- The constructor `AgcGtw(config, verbose)`; `uninit` holds the values of the
members the constructor does not initialise. -/
def ctor (config : AgcGtwConfig) (verbose : Int) (uninit : AgcGtw) : AgcGtw :=
  { uninit with
    verbose := verbose
    run := false
    agc1_increase_threshold := config.agc1_increase_threshold
    agc2_decrease_threshold := config.agc2_decrease_threshold
    agc3_min_time_ms := config.agc3_min_time_ms
    min_gain_reduction := config.min_gain_reduction
    max_gain_reduction := config.max_gain_reduction
    gainstep_dec := config.gainstep_dec
    gainstep_inc := config.gainstep_inc
    agc4_a := config.agc4_a
    agc5_b := config.agc5_b
    agc6_c := config.agc6_c }

/-- The function `setup()`; `m` is the `int` value of `rsp->getSamplerate() / 1000`, a
floating point quotient. -/
def setup (a : AgcGtw) (rsp : Rsp) (m : Int) : AgcGtw :=
  { a with gain_reduction := rsp.getIFGainReduction, samples_per_millis := m }

/-- The function `start(buffer)`, up to the creation of the thread. -/
def start (a : AgcGtw) : AgcGtw :=
  { a with
    samples_left := a.samples_per_millis
    millis_since_last_agc_check := 0
    millis_since_last_gain_change := 0
    iq2_increase_threshold := toInt32 (a.agc1_increase_threshold * a.agc1_increase_threshold)
    iq2_decrease_threshold := toInt32 (a.agc2_decrease_threshold * a.agc2_decrease_threshold)
    max_iq2 := 0
    millis_iq_above_threshold := 0
    run := true }

/-- The millisecond clock at the head of the loop body (`--samples_left == 0`). -/
def clock (a : AgcGtw) : AgcGtw :=
  if toInt32 (a.samples_left - 1) = 0 then
    { a with
      millis_since_last_agc_check := toInt32 (a.millis_since_last_agc_check + 1)
      millis_since_last_gain_change := toInt32 (a.millis_since_last_gain_change + 1)
      samples_left := a.samples_per_millis }
  else { a with samples_left := toInt32 (a.samples_left - 1) }

/-- The value `iq2` computed for a sample. -/
def iq2 (s : Sample) : Int := toInt32 (s.1 * s.1 + s.2 * s.2)

/-- The high water mark and the count of samples above the threshold. -/
def accumulate (a : AgcGtw) (s : Sample) : AgcGtw :=
  let a1 := { a with max_iq2 := max (iq2 s) a.max_iq2 }
  if iq2 s > a1.iq2_increase_threshold then
    if a1.millis_iq_above_threshold < INT_MAX then
      { a1 with millis_iq_above_threshold := a1.millis_iq_above_threshold + 1 }
    else a1
  else a1

/-- The test that lets a decision through (the negation of the `continue`). -/
def decision_due (a : AgcGtw) : Prop := a.millis_since_last_agc_check > a.agc3_min_time_ms

instance (a : AgcGtw) : Decidable a.decision_due := by
  unfold decision_due; infer_instance

/-- The condition of the first branch of the decision. -/
def attack_cond (a : AgcGtw) : Prop :=
  a.millis_since_last_gain_change > a.agc5_b ∧ a.millis_iq_above_threshold > a.agc4_a

instance (a : AgcGtw) : Decidable a.attack_cond := by
  unfold attack_cond; infer_instance

/-- The condition of the second branch of the decision. -/
def decay_cond (a : AgcGtw) : Prop :=
  a.millis_since_last_gain_change > a.agc6_c ∧ a.max_iq2 < a.iq2_increase_threshold

instance (a : AgcGtw) : Decidable a.decay_cond := by
  unfold decay_cond; infer_instance

/-- The two branches of the decision. -/
def decide_gain (a : AgcGtw) : AgcGtw :=
  if a.attack_cond then
    { a with
      gain_reduction := min a.max_gain_reduction (toInt32 (a.gain_reduction + a.gainstep_inc)) }
  else if a.decay_cond then
    { a with
      gain_reduction := max a.min_gain_reduction (toInt32 (a.gain_reduction - a.gainstep_dec)) }
  else a

/-- The three resets that follow the decision. -/
def window_reset (a : AgcGtw) : AgcGtw :=
  { a with millis_since_last_agc_check := 0, max_iq2 := 0, millis_iq_above_threshold := 0 }

/-- The body of the sample loop of `agc_loop` for one sample. -/
def agc_sample (api : SdrplayApi) (a : AgcGtw) (rsp : Rsp) (s : Sample) : AgcStep :=
  let a1 := (a.clock).accumulate s
  if ¬ a1.decision_due then { agc := a1, rsp := rsp, flow := Flow.next, calls := [] }
  else
    let a2 := (a1.decide_gain).window_reset
    if a2.gain_reduction ≠ rsp.getIFGainReduction then
      let r := Rsp.setIFGainReduction api rsp a2.gain_reduction true
      match r.thrown with
      | some _ =>
        { agc := a2, rsp := r.rsp, flow := Flow.thrown, calls := [⟨a2.gain_reduction, true⟩] }
      | none =>
        { agc := { a2 with millis_since_last_gain_change := 0 }, rsp := r.rsp,
          flow := Flow.brk, calls := [⟨a2.gain_reduction, true⟩] }
    else { agc := a2, rsp := rsp, flow := Flow.next, calls := [] }

end AgcGtw

/-- Outcome of the sample loop of `agc_loop` over one span. -/
structure ForResult where
  agc : AgcGtw
  rsp : Rsp
  read_ptr : Nat
  calls : List GainCall
  thrown : Bool

/-- The sample loop `for (i = 0; i < max_read_size; ++i)` of `agc_loop` with
`n` passes left, the index being `i`. -/
def agc_for (api : SdrplayApi) (rb : RingBuffer) (read_ptr : Nat) :
    Nat → Nat → AgcGtw → Rsp → List GainCall → ForResult
  | 0, _, a, rsp, calls =>
    { agc := a, rsp := rsp, read_ptr := read_ptr, calls := calls, thrown := false }
  | n + 1, i, a, rsp, calls =>
    let r := a.agc_sample api rsp (rb.elem (read_ptr + i))
    match r.flow with
    | Flow.next => agc_for api rb read_ptr n (i + 1) r.agc r.rsp (calls ++ r.calls)
    | Flow.brk =>
      { agc := r.agc, rsp := r.rsp, read_ptr := rb.next_read_ptr none 0,
        calls := calls ++ r.calls, thrown := false }
    | Flow.thrown =>
      { agc := r.agc, rsp := r.rsp, read_ptr := read_ptr, calls := calls ++ r.calls,
        thrown := true }

/-- State after one pass of the loop `while (run)` of `agc_loop`. -/
structure IterResult where
  agc : AgcGtw
  rsp : Rsp
  rb : RingBuffer
  read_ptr : Nat
  calls : List GainCall
  thrown : Bool

/-- What one pass of the loop `while (run)` does. -/
inductive LoopStep
  | exited
  | suspended
  | done (r : IterResult)

/-- One pass of the loop `while (run)` of `agc_loop`, the producer being idle
meanwhile. -/
def agc_iteration (api : SdrplayApi) (a : AgcGtw) (rsp : Rsp) (rb : RingBuffer)
    (read_ptr : Nat) : LoopStep :=
  if !a.run then LoopStep.exited
  else
    match rb.next_read_max_size read_ptr true with
    | none => LoopStep.suspended
    | some (rb1, max_read_size) =>
      let r := agc_for api rb1 read_ptr max_read_size 0 a rsp []
      if r.thrown then
        LoopStep.done
          { agc := r.agc, rsp := r.rsp, rb := rb1, read_ptr := r.read_ptr, calls := r.calls,
            thrown := true }
      else
        LoopStep.done
          { agc := r.agc, rsp := r.rsp, rb := rb1,
            read_ptr := rb1.next_read_ptr (some r.read_ptr) max_read_size, calls := r.calls,
            thrown := false }

/-- State of the AGC after it has consumed some samples: the calls made so far
and whether an exception has ended the loop. -/
structure AgcRun where
  agc : AgcGtw
  rsp : Rsp
  calls : List GainCall
  thrown : Bool

/-- The loop body applied to the next sample the loop consumes. -/
def agc_consume (api : SdrplayApi) (st : AgcRun) (s : Sample) : AgcRun :=
  if st.thrown then st
  else
    let r := st.agc.agc_sample api st.rsp s
    { agc := r.agc, rsp := r.rsp, calls := st.calls ++ r.calls,
      thrown := decide (r.flow = Flow.thrown) }

/-- The loop body applied to the successive samples the loop consumes. -/
def agc_run (api : SdrplayApi) (st : AgcRun) (samples : List Sample) : AgcRun :=
  samples.foldl (agc_consume api) st

/-! ## Specification predicates and concrete states -/

/-- The producer has written the samples `S t`, `t < total`, one after the other
starting at slot `w0`: the write index is `total` slots past `w0` and each of
the last `size` samples written is in its slot. -/
def Recent (rb : RingBuffer) (w0 : Nat) (S : Nat → Sample) (total : Nat) : Prop :=
  rb.write_idx = (w0 + total) % rb.size ∧
    ∀ t, t < total → total ≤ t + rb.size → rb.data ((w0 + t) % rb.size) = S t

/-- The source delivers the stream `(X t, Y t)` from position `off` on in
successive calls of `stream_callback` with the sample counts `sizes`. -/
def deliver (X Y : Nat → Int) : Nat → Rsp → RingBuffer → List Nat → Rsp × RingBuffer
  | _, rsp, rb, [] => (rsp, rb)
  | off, rsp, rb, N :: sizes =>
    deliver X Y (off + N)
      (stream_callback rsp rb (fun n => X (off + n)) (fun n => Y (off + n)) 0 N).rsp
      (stream_callback rsp rb (fun n => X (off + n)) (fun n => Y (off + n)) 0 N).rb sizes

/-- A buffer of four slots, empty, as the constructor leaves it. -/
def small_buffer : RingBuffer :=
  { data := fun _ => (0, 0), size := 4, write_idx := 0, verbose := 0, stopped := false,
    max_read_size := 0 }

/-- A buffer of `2 ^ 31 + 1024` slots, as the constructor leaves it. -/
def large_buffer : RingBuffer :=
  { data := fun _ => (0, 0), size := 2147484672, write_idx := 0, verbose := 0, stopped := false,
    max_read_size := 0 }

/-- A source that is streaming, with gain reduction 50. -/
def running_rsp : Rsp :=
  { gRdB := 50, agc_enable := false, run := true, total_samples := 0,
    gain_reduction_changed := 0, updates := 0 }

/-- The configuration an `AgcGtw` object holds. -/
def AgcGtw.config (a : AgcGtw) : AgcGtwConfig :=
  { agc1_increase_threshold := a.agc1_increase_threshold
    agc2_decrease_threshold := a.agc2_decrease_threshold
    agc3_min_time_ms := a.agc3_min_time_ms
    min_gain_reduction := a.min_gain_reduction
    max_gain_reduction := a.max_gain_reduction
    gainstep_dec := a.gainstep_dec
    gainstep_inc := a.gainstep_inc
    agc4_a := a.agc4_a
    agc5_b := a.agc5_b
    agc6_c := a.agc6_c }

/-- The state a finished pass of the loop `while (run)` leaves, if the pass
was made. -/
def LoopStep.result (s : LoopStep) : Option IterResult :=
  match s with
  | LoopStep.done r => some r
  | _ => none

/-- A service that accepts gain reductions 20 to 59, whose updates succeed and
are confirmed at once. -/
def test_api : SdrplayApi :=
  { sdrplay_api_NORMAL_MIN_GR := 20, MAX_BB_GR := 59, update_ok := fun _ => true,
    gr_confirm := fun _ => some 0 }

/-- A service whose updates fail. -/
def failing_api : SdrplayApi :=
  { sdrplay_api_NORMAL_MIN_GR := 20, MAX_BB_GR := 59, update_ok := fun _ => false,
    gr_confirm := fun _ => none }

/-- A configuration that decides every millisecond, without cooldowns. -/
def fast_config : AgcGtwConfig :=
  { agc1_increase_threshold := 100, agc2_decrease_threshold := 50, agc3_min_time_ms := 0,
    min_gain_reduction := 30, max_gain_reduction := 59, gainstep_dec := 1, gainstep_inc := 1,
    agc4_a := 0, agc5_b := 0, agc6_c := 0 }

/-- The default configuration with the minimum gain reduction raised to 55. -/
def high_min_config : AgcGtwConfig :=
  { agc1_increase_threshold := 16384, agc2_decrease_threshold := 8192, agc3_min_time_ms := 500,
    min_gain_reduction := 55, max_gain_reduction := 59, gainstep_dec := 1, gainstep_inc := 1,
    agc4_a := 4096, agc5_b := 1000, agc6_c := 5000 }

/-- The configuration `fast_config` with the maximum gain reduction raised to 70. -/
def wide_config : AgcGtwConfig := { fast_config with max_gain_reduction := 70 }

/-- The configuration `fast_config` with a negative minimum check interval. -/
def early_config : AgcGtwConfig := { fast_config with agc3_min_time_ms := -1 }

/-- The configuration `fast_config` with a negative overload duration. -/
def tie_config : AgcGtwConfig := { fast_config with agc4_a := -1 }

/-- A source that is streaming, with gain reduction 59. -/
def ceiling_rsp : Rsp := { running_rsp with gRdB := 59 }

/-- A source that is streaming, with gain reduction 30. -/
def floor_rsp : Rsp := { running_rsp with gRdB := 30 }

/-- Memory of an `AgcGtw` object before its constructor runs. -/
def blank_agc : AgcGtw :=
  { verbose := 0, run := false, gain_reduction := 0, samples_per_millis := 0, samples_left := 0,
    millis_since_last_agc_check := 0, millis_since_last_gain_change := 0,
    millis_iq_above_threshold := 0, iq2_increase_threshold := 0, iq2_decrease_threshold := 0,
    max_iq2 := 0, agc1_increase_threshold := 0, agc2_decrease_threshold := 0,
    agc3_min_time_ms := 0, min_gain_reduction := 0, max_gain_reduction := 0, gainstep_dec := 0,
    gainstep_inc := 0, agc4_a := 0, agc5_b := 0, agc6_c := 0 }

/-- The AGC built from a configuration for a source delivering `m` samples per
millisecond, after `setup()` and `start()`. -/
def started_agc (config : AgcGtwConfig) (rsp : Rsp) (m : Int) : AgcGtw :=
  ((AgcGtw.ctor config 0 blank_agc).setup rsp m).start

/-- The AGC of `fast_config` on `running_rsp`, one sample per millisecond. -/
def fast_agc : AgcGtw := started_agc fast_config running_rsp 1

/-- A buffer of eight slots filled with strong samples, write index 5. -/
def loud_buffer : RingBuffer :=
  { data := fun _ => (1000, 1000), size := 8, write_idx := 5, verbose := 0, stopped := false,
    max_read_size := 0 }

/-- In-phase values `100, 101, ...`. -/
def ramp_i (n : Nat) : Int := 100 + n

/-- Quadrature values `200, 201, ...`. -/
def ramp_q (n : Nat) : Int := 200 + n

/-- The range of `short`. -/
def IsShort (x : Int) : Prop := -32768 ≤ x ∧ x ≤ 32767

instance (x : Int) : Decidable (IsShort x) := by
  unfold IsShort; infer_instance

/-- A buffer of 3072 slots (three pages of 4096 bytes) with write index 2047. -/
def three_page_buffer : RingBuffer :=
  { data := fun _ => (0, 0), size := 3072, write_idx := 2047, verbose := 0, stopped := false,
    max_read_size := 0 }

/-- The function `set_agc_gtw_config_defaults` of `config.cpp`: the
configuration it leaves (it assigns every field). -/
def set_agc_gtw_config_defaults : AgcGtwConfig :=
  { agc1_increase_threshold := 16384, agc2_decrease_threshold := 8192, agc3_min_time_ms := 500,
    min_gain_reduction := 30, max_gain_reduction := 59, gainstep_dec := 1, gainstep_inc := 1,
    agc4_a := 4096, agc5_b := 1000, agc6_c := 5000 }

/-- A service that accepts gain reductions 20 to 59, whose updates succeed and
are never confirmed. -/
def unconfirmed_api : SdrplayApi :=
  { sdrplay_api_NORMAL_MIN_GR := 20, MAX_BB_GR := 59, update_ok := fun _ => true,
    gr_confirm := fun _ => none }

/-- The configuration `fast_config` with the increase step of option
`-S 2147483647`. -/
def huge_inc_config : AgcGtwConfig := { fast_config with gainstep_inc := 2147483647 }

/-- The configuration `fast_config` with the increase step -100. -/
def negative_inc_config : AgcGtwConfig := { fast_config with gainstep_inc := -100 }

/-- The configuration `tie_config` with the increase step 2147483647. -/
def tie_huge_inc_config : AgcGtwConfig := { tie_config with gainstep_inc := 2147483647 }

/-- The default configuration with the minimum check interval 2147483647. -/
def patient_config : AgcGtwConfig :=
  { set_agc_gtw_config_defaults with agc3_min_time_ms := 2147483647 }

/-- The state of an `AgcGtw` object with other values of the members
`agc2_decrease_threshold` and `iq2_decrease_threshold`. -/
def AgcGtw.with_decrease (a : AgcGtw) (d d2 : Int) : AgcGtw :=
  { a with agc2_decrease_threshold := d, iq2_decrease_threshold := d2 }

/-- The invariant of the window: a positive count of samples above the
threshold comes with a high water mark above the threshold. -/
def AgcGtw.WindowInv (a : AgcGtw) : Prop :=
  a.millis_iq_above_threshold > 0 → a.max_iq2 > a.iq2_increase_threshold

instance (a : AgcGtw) : Decidable a.WindowInv := by
  unfold AgcGtw.WindowInv; infer_instance

/-- One call of a member function of the ring buffer. -/
inductive RbOp
  | next_write_ptr (advance : Nat)
  | next_read_ptr (current_read_ptr : Option Nat) (advance : Nat)
  | next_read_max_size (read_idx : Nat) (blocking : Bool)
  | stop

/-- A ring buffer together with the values `next_read_max_size` has returned
so far, in the order of the calls. -/
structure RbTrace where
  rb : RingBuffer
  returned : List Nat

/-- The effect of one call.  A blocking read that suspends its caller returns
nothing and leaves the state as it is. -/
def rb_step (t : RbTrace) : RbOp → RbTrace
  | RbOp.next_write_ptr advance => { t with rb := (t.rb.next_write_ptr advance).1 }
  | RbOp.next_read_ptr _ _ => t
  | RbOp.next_read_max_size read_idx blocking =>
    match t.rb.next_read_max_size read_idx blocking with
    | none => t
    | some (rb1, n) => { rb := rb1, returned := t.returned ++ [n] }
  | RbOp.stop => { t with rb := t.rb.stop }

/-- The effect of a sequence of calls. -/
def rb_run (t : RbTrace) (ops : List RbOp) : RbTrace := ops.foldl rb_step t

/-! ## config.cpp -/

/-- A value of type `double`, by its IEEE 754 bit pattern. -/
structure Double where
  bits : Nat
deriving DecidableEq

/-- The enumeration `AgcModel`. -/
inductive AgcModel
  | AGC_NONE
  | AGC_RSP
  | AGC_GTW
deriving DecidableEq

/-- The structure `GlobalConfig`. -/
structure GlobalConfig where
  verbose : Int
  isOutFile : Bool
  agcModel : AgcModel

/-- The class `RspConfig`. -/
structure RspConfig where
  serial : String
  frequency : Double
  sample_rate : Double
  bw_type : Int
  gRdB : Int
  lna_state : Int
  wide_band_signal : Bool
  antenna : String
  gain_file : String
deriving DecidableEq

/-- The class `SndConfig`. -/
structure SndConfig where
  name : String
  sample_rate : Double
  latency : Nat

/-- The class `FileConfig`. -/
structure FileConfig where
  name : String

/-- The class `AgcRspConfig`. -/
structure AgcRspConfig where
  mode : Int
  setPoint_dBfs : Int
  attack_ms : Int
  decay_ms : Int
  decay_delay_ms : Int
  decay_threshold_dB : Int

/-- The six objects `get_config` fills, with the lines written to `std::cerr`. -/
structure Config where
  global_config : GlobalConfig
  rsp_config : RspConfig
  snd_config : SndConfig
  file_config : FileConfig
  agc_rsp_config : AgcRspConfig
  agc_gtw_config : AgcGtwConfig
  cerr : List String

/-- What `config.cpp` takes from outside the program: the conversions of the C
library (`sscanf_lf s` and `sscanf_d s` are the value stored by
`sscanf(s, "%lf", &x)` and `sscanf(s, "%d", &x)` when they return 1), the
lines `getline` reads from a file (`none` if it cannot be opened) and four
constants of the vendor header. -/
structure Libc where
  strtod : String → Double
  strtol : String → Int
  strtoul : String → Nat
  sscanf_lf : String → Option Double
  sscanf_d : String → Option Int
  getlines : String → Option (List String)
  sdrplay_api_AGC_100HZ : Int
  sdrplay_api_AGC_50HZ : Int
  sdrplay_api_AGC_5HZ : Int
  sdrplay_api_AGC_CTRL_EN : Int

/-- The text `usage(progname)` writes to `std::cerr`, line by line. -/
def usage (progname : String) : List String :=
  [ "usage: " ++ progname ++ " [options...]",
    "options:",
    "    -a attack_ms   (AGC RSP model)",
    "    -a inc   (AGC GTW model) AGC \x22increase\x22 threshold, default 16384",
    "    -B bwType baseband low-pass filter type (200, 300, 600, 1536, 5000)",
    "    -b dec   (AGC GTW model) AGC \x22decrease\x22 threshold, default 8192",
    "    -c min   (AGC GTW model) AGC sample period (ms), default 500",
    "    -e gainfile  write gain values value to shared memory file",
    "    -f freq  set tuner frequency (in Hz)",
    "    -g agc_mode    (AGC RSP model)",
    "    -g gain  (AGC GTW model) set min gain reduction during AGC operation or fixed gain w/AGC disabled, default 30",
    "    -G gain  (AGC GTW model) set max gain reduction during AGC operation, default 59",
    "    -h       show usage",
    "    -i ser   specify input device (serial number)",
    "    -l val   set LNA state, default 3.  See SDRPlay API gain reduction tables for more info",
    "    -n agcmodel  AGC enable; AGC models: RSP, GTW - GTW uses parameters a,b,c,g,s,S,x,y,z",
    "    -o dev   specify output device",
    "    -r rate  set sampling rate (in Hz) [48000, 96000, 192000, 384000, 768000 recommended]",
    "    -S step_inc  (AGC GTW model) set gain AGC attenuation increase (gain reduction) step size in dB, default = 1 (1-10)",
    "    -s setPoint_dBfs   (AGC RSP model)",
    "    -s step_dec  (AGC GTW model) set gain AGC attenuation decrease (gain gain increase) step size in dB, default = 1 (1-10)",
    "    -v       enable verbose output",
    "    -W       enable wideband signal mode (e.g. half-band filtering). Warning: High CPU useage!",
    "    -x decay_ms   (AGC RSP model)",
    "    -x A     (AGC GTW model) num conversions for overload, default 4096",
    "    -y decay_delay_ms   (AGC RSP model)",
    "    -y B     (AGC GTW model) gain decrease event time (ms), default 100",
    "    -z decay_threshold_dB   (AGC RSP model)",
    "    -z C     (AGC GTW model) gain increase event time (ms), default 5000" ]

/-- The function `set_global_config_defaults`. -/
def set_global_config_defaults (_ : GlobalConfig) : GlobalConfig :=
  { verbose := 0, isOutFile := true, agcModel := AgcModel.AGC_NONE }

/-- The function `set_rsp_config_defaults`; `200e6` and `768e3` are
`0x41a7d78400000000` and `0x4127700000000000`. -/
def set_rsp_config_defaults (rsp_config : RspConfig) : RspConfig :=
  { rsp_config with
    frequency := ⟨4730986895511650304⟩
    sample_rate := ⟨4694844281859342336⟩
    bw_type := 1536
    gRdB := 50
    lna_state := 3
    wide_band_signal := false }

/-- The function `set_snd_config_defaults`. -/
def set_snd_config_defaults (_ : SndConfig) : SndConfig :=
  { name := "", sample_rate := ⟨4694844281859342336⟩, latency := 30000 }

/-- The function `set_file_config_defaults`. -/
def set_file_config_defaults (_ : FileConfig) : FileConfig := { name := "" }

/-- The function `set_agc_rsp_config_defaults`. -/
def set_agc_rsp_config_defaults (env : Libc) (_ : AgcRspConfig) : AgcRspConfig :=
  { mode := env.sdrplay_api_AGC_50HZ, setPoint_dBfs := -60, attack_ms := 0, decay_ms := 0,
    decay_delay_ms := 0, decay_threshold_dB := 0 }

/-- The function `std::isspace` in the "C" locale. -/
def isspace (c : Char) : Bool := c.toNat = 32 || (9 ≤ c.toNat && c.toNat ≤ 13)

/-- The function `trim`: the leading white space is erased, then the trailing. -/
def trim (s : String) : String :=
  String.mk ((s.data.dropWhile isspace).reverse.dropWhile isspace).reverse

/-- The call `s.find(c)`: `none` is `std::string::npos`. -/
def find (s : String) (c : Char) : Option Nat :=
  if c ∈ s.data then some (s.data.indexOf c) else none

/-- The call `s.substr(pos, n)`; `n = none` is the call `s.substr(pos)`. -/
def substr (s : String) (pos : Nat) (n : Option Nat) : String :=
  match n with
  | none => String.mk (s.data.drop pos)
  | some k => String.mk ((s.data.drop pos).take k)

/-- The call `std::transform(s.begin(), s.end(), s.begin(), ::tolower)`. -/
def tolower (s : String) : String := String.mk (s.data.map Char.toLower)

/-- A line written to `std::cerr`. -/
def Config.log (cfg : Config) (line : String) : Config :=
  { cfg with cerr := cfg.cerr ++ [line] }

/-- The function `set_unqualified_parameter`; `optarg` is the global variable
of `getopt`, printed in the line for an invalid AGC model. -/
def set_unqualified_parameter (env : Libc) (optarg parameter_name value : String)
    (cfg : Config) : Config :=
  if parameter_name = "sample_rate" then
    { cfg with
      rsp_config := { cfg.rsp_config with sample_rate := env.strtod value }
      snd_config := { cfg.snd_config with sample_rate := env.strtod value } }
  else if parameter_name = "agc_model" then
    if value = "RSp" ∨ value = "rsp" then
      { cfg with global_config := { cfg.global_config with agcModel := AgcModel.AGC_RSP } }
    else if value = "GTW" ∨ value = "gtw" then
      { cfg with global_config := { cfg.global_config with agcModel := AgcModel.AGC_GTW } }
    else cfg.log ("invalid AGC model: " ++ optarg)
  else cfg.log ("invalid unqualified parameter " ++ parameter_name)

/-- The function `set_rsp_parameter`: the configuration it leaves and the
lines it writes to `std::cerr`. -/
def set_rsp_parameter (env : Libc) (parameter_name value : String) (rsp_config : RspConfig) :
    RspConfig × List String :=
  if parameter_name = "serial" then ({ rsp_config with serial := value }, [])
  else if parameter_name = "frequency" then
    ({ rsp_config with frequency := env.strtod value }, [])
  else if parameter_name = "sample_rate" then
    ({ rsp_config with sample_rate := env.strtod value }, [])
  else if parameter_name = "bw_type" then
    ({ rsp_config with bw_type := toInt32 (env.strtol value) }, [])
  else if parameter_name = "gRdB" then
    ({ rsp_config with gRdB := toInt32 (env.strtol value) }, [])
  else if parameter_name = "lna_state" then
    ({ rsp_config with bw_type := toInt32 (env.strtol value) }, [])
  else if parameter_name = "wide_band_signal" then
    ({ rsp_config with wide_band_signal := decide (value = "true" ∨ value = "TRUE") }, [])
  else if parameter_name = "antenna" then ({ rsp_config with antenna := value }, [])
  else if parameter_name = "gain_file" then ({ rsp_config with gain_file := value }, [])
  else (rsp_config, ["invalid rsp parameter " ++ parameter_name])

/-- The function `set_snd_parameter`. -/
def set_snd_parameter (env : Libc) (parameter_name value : String) (snd_config : SndConfig) :
    SndConfig × List String :=
  if parameter_name = "name" then ({ snd_config with name := value }, [])
  else if parameter_name = "sample_rate" then
    ({ snd_config with sample_rate := env.strtod value }, [])
  else if parameter_name = "latency" then
    ({ snd_config with latency := toUInt32 (env.strtoul value) }, [])
  else (snd_config, ["invalid snd parameter " ++ parameter_name])

/-- The function `set_file_parameter`. -/
def set_file_parameter (parameter_name value : String) (file_config : FileConfig) :
    FileConfig × List String :=
  if parameter_name = "name" then ({ name := value }, [])
  else (file_config, ["invalid file parameter " ++ parameter_name])

/-- The function `set_agc_rsp_parameter`. -/
def set_agc_rsp_parameter (env : Libc) (parameter_name value : String)
    (agc_rsp_config : AgcRspConfig) : AgcRspConfig × List String :=
  if parameter_name = "mode" then
    if value.length = 1 then
      ({ agc_rsp_config with mode := toInt32 (env.strtol value) }, [])
    else if value = "100HZ" ∨ value = "100Hz" then
      ({ agc_rsp_config with mode := env.sdrplay_api_AGC_100HZ }, [])
    else if value = "50HZ" ∨ value = "50Hz" then
      ({ agc_rsp_config with mode := env.sdrplay_api_AGC_50HZ }, [])
    else if value = "5HZ" ∨ value = "5Hz" then
      ({ agc_rsp_config with mode := env.sdrplay_api_AGC_5HZ }, [])
    else if value = "CTRL_EN" ∨ value = "CTRL_EN" then
      ({ agc_rsp_config with mode := env.sdrplay_api_AGC_CTRL_EN }, [])
    else (agc_rsp_config, ["invalid agc rsp mode " ++ value])
  else if parameter_name = "setPoint_dBfs" then
    ({ agc_rsp_config with setPoint_dBfs := toInt32 (env.strtol value) }, [])
  else if parameter_name = "attack_ms" then
    ({ agc_rsp_config with attack_ms := toInt32 (env.strtol value) }, [])
  else if parameter_name = "decay_ms" then
    ({ agc_rsp_config with decay_ms := toInt32 (env.strtol value) }, [])
  else if parameter_name = "decay_delay_ms" then
    ({ agc_rsp_config with decay_delay_ms := toInt32 (env.strtol value) }, [])
  else if parameter_name = "decay_threshold_dB" then
    ({ agc_rsp_config with decay_threshold_dB := toInt32 (env.strtol value) }, [])
  else (agc_rsp_config, ["invalid agc rsp parameter " ++ parameter_name])

/-- The function `set_agc_gtw_parameter`. -/
def set_agc_gtw_parameter (env : Libc) (parameter_name value : String)
    (agc_gtw_config : AgcGtwConfig) : AgcGtwConfig × List String :=
  if parameter_name = "agc1_increase_threshold" then
    ({ agc_gtw_config with agc1_increase_threshold := toInt32 (env.strtol value) }, [])
  else if parameter_name = "agc2_decrease_threshold" then
    ({ agc_gtw_config with agc2_decrease_threshold := toInt32 (env.strtol value) }, [])
  else if parameter_name = "agc3_min_time_ms" then
    ({ agc_gtw_config with agc3_min_time_ms := toInt32 (env.strtol value) }, [])
  else if parameter_name = "min_gain_reduction" then
    ({ agc_gtw_config with min_gain_reduction := toInt32 (env.strtol value) }, [])
  else if parameter_name = "max_gain_reduction" then
    ({ agc_gtw_config with max_gain_reduction := toInt32 (env.strtol value) }, [])
  else if parameter_name = "gainstep_dec" then
    ({ agc_gtw_config with gainstep_dec := toInt32 (env.strtol value) }, [])
  else if parameter_name = "gainstep_inc" then
    ({ agc_gtw_config with gainstep_inc := toInt32 (env.strtol value) }, [])
  else if parameter_name = "agc4_a" then
    ({ agc_gtw_config with agc4_a := toInt32 (env.strtol value) }, [])
  else if parameter_name = "agc5_b" then
    ({ agc_gtw_config with agc5_b := toInt32 (env.strtol value) }, [])
  else if parameter_name = "agc6_c" then
    ({ agc_gtw_config with agc6_c := toInt32 (env.strtol value) }, [])
  else (agc_gtw_config, ["invalid agc gtw parameter " ++ parameter_name])

/-- The call of `set_rsp_parameter` on the objects of a `Config`. -/
def Config.set_rsp (cfg : Config) (r : RspConfig × List String) : Config :=
  { cfg with rsp_config := r.1, cerr := cfg.cerr ++ r.2 }

/-- The call of `set_snd_parameter` on the objects of a `Config`. -/
def Config.set_snd (cfg : Config) (r : SndConfig × List String) : Config :=
  { cfg with snd_config := r.1, cerr := cfg.cerr ++ r.2 }

/-- The call of `set_file_parameter` on the objects of a `Config`. -/
def Config.set_file (cfg : Config) (r : FileConfig × List String) : Config :=
  { cfg with file_config := r.1, cerr := cfg.cerr ++ r.2 }

/-- The call of `set_agc_rsp_parameter` on the objects of a `Config`. -/
def Config.set_agc_rsp (cfg : Config) (r : AgcRspConfig × List String) : Config :=
  { cfg with agc_rsp_config := r.1, cerr := cfg.cerr ++ r.2 }

/-- The call of `set_agc_gtw_parameter` on the objects of a `Config`. -/
def Config.set_agc_gtw (cfg : Config) (r : AgcGtwConfig × List String) : Config :=
  { cfg with agc_gtw_config := r.1, cerr := cfg.cerr ++ r.2 }

/-- The variables of the loop of `read_config_file`: the section prefix and the
objects being filled. -/
structure ReadState where
  pfx : String
  cfg : Config

/-- The body of the loop of `read_config_file` for one line. -/
def read_config_line (env : Libc) (optarg : String) (st : ReadState) (line0 : String) :
    ReadState :=
  if line0.data.head? = some '#' then st
  else
    let line := trim line0
    if line.data = [] then st
    else if line.data.head? = some '[' ∧ line.data.getLast? = some ']' then
      let p := substr line 1 (some (line.length - 2))
      { st with pfx := if p.data ≠ [] then p ++ "." else p }
    else
      match find line '=' with
      | none => { st with cfg := st.cfg.log ("invalid config line: " ++ line) }
      | some pos =>
        let key := trim (substr line 0 (some pos))
        let value := trim (substr line (pos + 1) none)
        let fullkey := tolower (st.pfx ++ key)
        match find fullkey '.' with
        | none => { st with cfg := set_unqualified_parameter env optarg fullkey value st.cfg }
        | some dot =>
          let component := substr fullkey 0 (some dot)
          let parameter_name := substr fullkey (dot + 1) none
          if component = "rsp" then
            { st with
              cfg := st.cfg.set_rsp (set_rsp_parameter env parameter_name value st.cfg.rsp_config) }
          else if component = "snd" then
            { st with
              cfg := st.cfg.set_snd (set_snd_parameter env parameter_name value st.cfg.snd_config) }
          else if component = "file" then
            { st with
              cfg := st.cfg.set_file (set_file_parameter parameter_name value st.cfg.file_config) }
          else if component = "agc_rsp" then
            { st with
              cfg := st.cfg.set_agc_rsp
                (set_agc_rsp_parameter env parameter_name value st.cfg.agc_rsp_config) }
          else if component = "agc_gtw" then
            { st with
              cfg := st.cfg.set_agc_gtw
                (set_agc_gtw_parameter env parameter_name value st.cfg.agc_gtw_config) }
          else { st with cfg := st.cfg.log ("unknown config parameter: " ++ fullkey) }

/-- The function `read_config_file`; `optarg` is the global variable of
`getopt`. -/
def read_config_file (env : Libc) (optarg filename : String) (cfg : Config) : Config :=
  match env.getlines filename with
  | none => cfg
  | some lines => (lines.foldl (read_config_line env optarg) { pfx := "", cfg := cfg }).cfg

/-- The variables of the option loop of `get_config`: the objects being filled
and the locals `out_name` and `bw_type`. -/
structure OptState where
  cfg : Config
  out_name : String
  bw_type : Int

/-- How `get_config` ends: it returns, it calls `exit(status)`, or an exception
leaves it. -/
inductive GetConfig
  | returned (cfg : Config)
  | exited (status : Int) (cfg : Config)
  | thrown (cfg : Config)

/-- How the option loop of `get_config` is left before its end: by a call of
`exit(status)`, or by the exception `std::logic_error` that the construction
of a `std::string` from a null pointer throws. -/
inductive OptStop
  | exit (status : Int)
  | logic_error

/-- The body of the option loop of `get_config` for one option `c` with its
argument `optarg`, as `getopt` delivers them: the next state, or the way the
loop is left with the state at that point.  The comparisons `optarg == "RSP"`,
... of case `n` compare the address of the argument with that of a literal and
are false.  The tests `global_config.agcModel = AGC_RSP` and
`global_config.agcModel = AGC_GTW` are assignments of a value that is not 0.
The options `v`, `W`, `s` and `h` have no colon in the option string, so
`getopt` returns them with `optarg` null and the string `optarg` is not used
for them; case `s` assigns `AGC_RSP` and then builds the `std::string`
argument of `set_agc_rsp_parameter` from that null pointer, which throws. -/
def get_config_option (env : Libc) (progname : String) (st : OptState) (c : Char)
    (optarg : String) : Except (OptStop × OptState) OptState :=
  let cfg := st.cfg
  let as_rsp : Config :=
    { cfg with global_config := { cfg.global_config with agcModel := AgcModel.AGC_RSP } }
  let as_gtw (k : Config) : Config :=
    { k with global_config := { k.global_config with agcModel := AgcModel.AGC_GTW } }
  let both (rsp_name gtw_name : String) : Config :=
    (as_gtw (as_rsp.set_agc_rsp
      (set_agc_rsp_parameter env rsp_name optarg as_rsp.agc_rsp_config))).set_agc_gtw
      (set_agc_gtw_parameter env gtw_name optarg cfg.agc_gtw_config)
  let gtw_only (gtw_name : String) : Config :=
    (as_gtw cfg).set_agc_gtw (set_agc_gtw_parameter env gtw_name optarg cfg.agc_gtw_config)
  if c = 'C' then Except.ok { st with cfg := read_config_file env optarg optarg cfg }
  else if c = 'v' then
    Except.ok
      { st with
        cfg := { cfg with
          global_config :=
            { cfg.global_config with verbose := toInt32 (cfg.global_config.verbose + 1) } } }
  else if c = 'i' then
    Except.ok { st with cfg := { cfg with rsp_config := { cfg.rsp_config with serial := optarg } } }
  else if c = 'f' then
    match env.sscanf_lf optarg with
    | some x =>
      Except.ok { st with cfg := { cfg with rsp_config := { cfg.rsp_config with frequency := x } } }
    | none =>
      Except.error (OptStop.exit 1, { st with cfg := cfg.log ("invalid frequency: " ++ optarg) })
  else if c = 'r' then
    match env.sscanf_lf optarg with
    | some x =>
      Except.ok
        { st with
          cfg := { cfg with
            rsp_config := { cfg.rsp_config with sample_rate := x }
            snd_config := { cfg.snd_config with sample_rate := x } } }
    | none =>
      Except.error
        (OptStop.exit 1, { st with cfg := cfg.log ("invalid sample rate: " ++ optarg) })
  else if c = 'B' then
    let scanned := env.sscanf_d optarg
    let bw_type := match scanned with
      | some x => x
      | none => st.bw_type
    if scanned = none ∧
        ¬ (bw_type = 200 ∨ bw_type = 300 ∨ bw_type = 600 ∨ bw_type = 1536 ∨ bw_type = 5000) then
      Except.error (OptStop.exit 1, { st with cfg := cfg.log ("invalid bandwidth: " ++ optarg) })
    else
      Except.ok
        { st with
          cfg := { cfg with rsp_config := { cfg.rsp_config with bw_type := bw_type } }
          bw_type := bw_type }
  else if c = 'l' then
    match env.sscanf_d optarg with
    | some x =>
      Except.ok { st with cfg := { cfg with rsp_config := { cfg.rsp_config with lna_state := x } } }
    | none =>
      Except.error (OptStop.exit 1, { st with cfg := cfg.log ("invalid LNA state: " ++ optarg) })
  else if c = 'W' then
    Except.ok
      { st with cfg := { cfg with rsp_config := { cfg.rsp_config with wide_band_signal := true } } }
  else if c = 'e' then
    Except.ok
      { st with cfg := { cfg with rsp_config := { cfg.rsp_config with gain_file := optarg } } }
  else if c = 'o' then Except.ok { st with out_name := optarg }
  else if c = 'n' then Except.ok { st with cfg := cfg.log ("invalid AGC model: " ++ optarg) }
  else if c = 'a' then Except.ok { st with cfg := both "attack_ms" "agc2_increase_threshold" }
  else if c = 'b' then Except.ok { st with cfg := gtw_only "agc2_decrease_threshold" }
  else if c = 'c' then Except.ok { st with cfg := gtw_only "agc3_min_time_ms" }
  else if c = 'g' then Except.ok { st with cfg := both "mode" "min_gain_reduction" }
  else if c = 'G' then Except.ok { st with cfg := gtw_only "max_gain_reduction" }
  else if c = 's' then Except.error (OptStop.logic_error, { st with cfg := as_rsp })
  else if c = 'S' then Except.ok { st with cfg := gtw_only "gainstep_inc" }
  else if c = 'x' then Except.ok { st with cfg := both "decay_ms" "agc4_a" }
  else if c = 'y' then Except.ok { st with cfg := both "decay_delay_ms" "agc5_b" }
  else if c = 'z' then Except.ok { st with cfg := both "decay_threshold_dB" "agc6_c" }
  else if c = 'h' then
    Except.error
      (OptStop.exit 0, { st with cfg := { cfg with cerr := cfg.cerr ++ usage progname } })
  else
    Except.error
      (OptStop.exit 1, { st with cfg := { cfg with cerr := cfg.cerr ++ usage progname } })

/-- The option loop of `get_config`. -/
def get_config_loop (env : Libc) (progname : String) :
    OptState → List (Char × String) → Except (OptStop × OptState) OptState
  | st, [] => Except.ok st
  | st, (c, optarg) :: rest =>
    match get_config_option env progname st c optarg with
    | Except.ok st1 => get_config_loop env progname st1 rest
    | Except.error e => Except.error e

/-- The function `get_config`.  `opts` are the options `getopt` finds in
`argv`, each with the argument it leaves in `optarg` (none for `v`, `W`, `s`
and `h`, whose string is not used), `cfg0` holds the six objects of the caller
and `bw_type0` is the value of the local `bw_type`, which has no initialiser. -/
def get_config (env : Libc) (progname : String) (opts : List (Char × String)) (cfg0 : Config)
    (bw_type0 : Int) : GetConfig :=
  let cfg : Config :=
    { global_config := set_global_config_defaults cfg0.global_config
      rsp_config := set_rsp_config_defaults cfg0.rsp_config
      snd_config := set_snd_config_defaults cfg0.snd_config
      file_config := set_file_config_defaults cfg0.file_config
      agc_rsp_config := set_agc_rsp_config_defaults env cfg0.agc_rsp_config
      agc_gtw_config := set_agc_gtw_config_defaults
      cerr := cfg0.cerr }
  match get_config_loop env progname { cfg := cfg, out_name := "", bw_type := bw_type0 } opts with
  | Except.error (OptStop.exit status, st) => GetConfig.exited status st.cfg
  | Except.error (OptStop.logic_error, st) => GetConfig.thrown st.cfg
  | Except.ok st =>
    let isOutFile : Bool :=
      decide (st.out_name.data = [] ∨ st.out_name = "-" ∨ '/' ∈ st.out_name.data)
    let cfg1 : Config :=
      { st.cfg with global_config := { st.cfg.global_config with isOutFile := isOutFile } }
    if isOutFile then
      GetConfig.returned { cfg1 with file_config := { cfg1.file_config with name := st.out_name } }
    else
      GetConfig.returned { cfg1 with snd_config := { cfg1.snd_config with name := st.out_name } }

/-- The value of the decimal digits at the head of a list of characters. -/
def decimal_value : List Char → Nat → Nat
  | [], acc => acc
  | c :: cs, acc => if c.isDigit then decimal_value cs (acc * 10 + (c.toNat - 48)) else acc

/-- The decimal integer at the head of a string, after white space and a sign
(0 if there is none), as `strtol` reads it in base 10. -/
def decimal_integer (s : String) : Int :=
  match s.data.dropWhile isspace with
  | '-' :: cs => - (decimal_value cs 0 : Int)
  | '+' :: cs => (decimal_value cs 0 : Int)
  | cs => (decimal_value cs 0 : Int)

/-- Whether a string starts, after white space and a sign, with a digit. -/
def starts_with_integer (s : String) : Bool :=
  match s.data.dropWhile isspace with
  | '-' :: c :: _ => c.isDigit
  | '+' :: c :: _ => c.isDigit
  | c :: _ => c.isDigit
  | [] => false

/-- The value of `strtol(s, nullptr, 10)` with a `long` of 64 bits: the decimal
integer at the head of the string, or `LONG_MAX` or `LONG_MIN` when that
integer is out of range. -/
def strtol_10 (s : String) : Int :=
  max (-9223372036854775808) (min 9223372036854775807 (decimal_integer s))

/-- The value of `strtoul(s, nullptr, 10)` with an `unsigned long` of 64 bits:
`ULONG_MAX` when the magnitude of the decimal integer at the head of the
string is out of range, else that integer, negated in `unsigned long` after a
minus sign. -/
def strtoul_10 (s : String) : Nat :=
  if (decimal_integer s).natAbs > 18446744073709551615 then 18446744073709551615
  else toSizeT (decimal_integer s)

/-- A C library reading decimal integers as the GNU C library does, with a
file system where every file holds the given lines; its floating point
conversions are not used.  The conversion `%d` of `sscanf` reads a `long` as
`strtol` does and stores it converted to `int`. -/
def test_libc (lines : List String) : Libc :=
  { strtod := fun _ => ⟨0⟩
    strtol := strtol_10
    strtoul := strtoul_10
    sscanf_lf := fun _ => none
    sscanf_d := fun s => if starts_with_integer s then some (toInt32 (strtol_10 s)) else none
    getlines := fun _ => some lines
    sdrplay_api_AGC_100HZ := 1
    sdrplay_api_AGC_50HZ := 2
    sdrplay_api_AGC_5HZ := 3
    sdrplay_api_AGC_CTRL_EN := 4 }

/-- The six objects of `main` before `get_config` fills them. -/
def blank_config : Config :=
  { global_config := { verbose := 0, isOutFile := false, agcModel := AgcModel.AGC_NONE }
    rsp_config :=
      { serial := "", frequency := ⟨0⟩, sample_rate := ⟨0⟩, bw_type := 0, gRdB := 0,
        lna_state := 0, wide_band_signal := false, antenna := "", gain_file := "" }
    snd_config := { name := "", sample_rate := ⟨0⟩, latency := 0 }
    file_config := { name := "" }
    agc_rsp_config :=
      { mode := 0, setPoint_dBfs := 0, attack_ms := 0, decay_ms := 0, decay_delay_ms := 0,
        decay_threshold_dB := 0 }
    agc_gtw_config := blank_agc.config
    cerr := [] }

/-- What `get_config` leaves when it returns. -/
def GetConfig.result (g : GetConfig) : Option Config :=
  match g with
  | GetConfig.returned cfg => some cfg
  | GetConfig.exited _ _ => none
  | GetConfig.thrown _ => none

/-! ## Properties of the ring buffer -/

theorem szAdd_of_lt {a b : Nat} (h : a + b < SIZE_MOD) : szAdd a b = a + b := by
  unfold szAdd; exact Nat.mod_eq_of_lt h

theorem szSub_of_le {a b : Nat} (hb : b ≤ a) (ha : a < SIZE_MOD) : szSub a b = a - b := by
  unfold szSub
  have hb2 : b < SIZE_MOD := lt_of_le_of_lt hb ha
  rw [Nat.mod_eq_of_lt hb2]
  have : a + (SIZE_MOD - b) = (a - b) + SIZE_MOD := by omega
  rw [this, Nat.add_mod_right]
  exact Nat.mod_eq_of_lt (by omega)

theorem read_size_eq (rb : RingBuffer) (r : Nat) (hmap : rb.Mapped)
    (hw : rb.write_idx < rb.size) (hr : r < rb.size) :
    rb.read_size r = (rb.size + rb.write_idx - r) % rb.size := by
  unfold RingBuffer.Mapped sizeof_T at hmap
  unfold RingBuffer.read_size
  have h1 : rb.size + rb.write_idx < SIZE_MOD := by omega
  rw [szAdd_of_lt h1, szSub_of_le (by omega) h1]

theorem toInt32_of_range {x : Int} (h1 : -2147483648 ≤ x) (h2 : x ≤ 2147483647) :
    toInt32 x = x := by
  unfold toInt32; omega

theorem toInt32_bounds (x : Int) : -2147483648 ≤ toInt32 x ∧ toInt32 x ≤ 2147483647 := by
  unfold toInt32; omega

theorem toInt32_succ (x : Int) : toInt32 (toInt32 x + 1) = toInt32 (x + 1) := by
  unfold toInt32; omega

theorem toInt32_natCast_succ {q : Nat} (h : q < 2147483647) :
    toInt32 ((q : Int) + 1) = (q : Int) + 1 :=
  toInt32_of_range (by omega) (by omega)

theorem toSizeT_natCast {n : Nat} (h : n < 18446744073709551616) : toSizeT (n : Int) = n := by
  unfold toSizeT; omega

theorem toUInt32_natCast {n : Nat} (h : n < 4294967296) : toUInt32 (n : Int) = n := by
  unfold toUInt32; omega

theorem write_samples_size (rb : RingBuffer) (wp : Nat) (xi xq : Nat → Int) (x : Int) (n : Nat) :
    (write_samples rb wp xi xq x n).size = rb.size := by
  induction n with
  | zero => rfl
  | succ n ih => simpa [write_samples, RingBuffer.store] using ih

theorem write_samples_write_idx (rb : RingBuffer) (wp : Nat) (xi xq : Nat → Int) (x : Int)
    (n : Nat) : (write_samples rb wp xi xq x n).write_idx = rb.write_idx := by
  induction n with
  | zero => rfl
  | succ n ih => simpa [write_samples, RingBuffer.store] using ih

theorem stream_try_eq (xi xq : Nat → Int) (N : Nat) (st : StreamState) (x : Nat)
    (hx : st.xidx = (x : Int)) (hxN : x ≤ N) (hN : N ≤ 2147483647)
    (hC2 : 2 ≤ st.rb.size) (hC : st.rb.size ≤ 2147483648) (hw : st.rb.write_idx < st.rb.size) :
    stream_try xi xq N st =
      { rsp := { st.rsp with
          total_samples := (st.rsp.total_samples + min (st.rb.size - 1) (N - x)) % SIZE_MOD },
        rb := { write_samples st.rb st.write_ptr xi xq x (min (st.rb.size - 1) (N - x)) with
          write_idx := (st.rb.write_idx + min (st.rb.size - 1) (N - x)) % st.rb.size },
        write_ptr := (st.rb.write_idx + min (st.rb.size - 1) (N - x)) % st.rb.size,
        xidx := ((x + min (st.rb.size - 1) (N - x) : Nat) : Int) } := by
  have hmax : st.rb.next_write_max_size = st.rb.size - 1 := by
    unfold RingBuffer.next_write_max_size
    exact szSub_of_le (by omega) (by unfold SIZE_MOD; omega)
  have h1 : toInt32 ((st.rb.size - 1 : Nat) : Int) = ((st.rb.size - 1 : Nat) : Int) :=
    toInt32_of_range (by omega) (by omega)
  have h2 : toInt32 (N : Int) = (N : Int) := toInt32_of_range (by omega) (by omega)
  have h3 : toInt32 ((N : Int) - (x : Int)) = ((N - x : Nat) : Int) := by
    rw [toInt32_of_range (by omega) (by omega)]; omega
  have hs : min (((st.rb.size - 1 : Nat) : Int)) (((N - x : Nat) : Int))
      = ((min (st.rb.size - 1) (N - x) : Nat) : Int) := by omega
  have hw2 : szAdd st.rb.write_idx (min (st.rb.size - 1) (N - x))
      = st.rb.write_idx + min (st.rb.size - 1) (N - x) :=
    szAdd_of_lt (by unfold SIZE_MOD; omega)
  unfold stream_try
  simp only [hmax, h1, h2, hx, h3, hs, Int.toNat_ofNat]
  rw [toSizeT_natCast (by omega)]
  simp only [RingBuffer.next_write_ptr, write_samples_size, write_samples_write_idx, hw2]
  rfl

theorem add_mod_ne_self {a d c : Nat} (hd : 0 < d) (hdc : d < c) : (a + d) % c ≠ a % c := by
  intro h
  have h1 : c ∣ (a + d) - a := (Nat.modEq_iff_dvd' (Nat.le_add_right a d)).1 h.symm
  have h2 : a + d - a = d := by omega
  rw [h2] at h1
  exact absurd (Nat.le_of_dvd hd h1) (by omega)

theorem add_mod_inj {a i j c : Nat} (hi : i < c) (hj : j < c)
    (h : (a + i) % c = (a + j) % c) : i = j := by
  rcases Nat.lt_trichotomy i j with hlt | heq | hgt
  · exfalso
    have := @add_mod_ne_self (a + i) (j - i) c (by omega) (by omega)
    apply this
    have e : a + i + (j - i) = a + j := by omega
    rw [e, h]
  · exact heq
  · exfalso
    have := @add_mod_ne_self (a + j) (i - j) c (by omega) (by omega)
    apply this
    have e : a + j + (i - j) = a + i := by omega
    rw [e, h]

theorem write_samples_data_new (rb : RingBuffer) (wp : Nat) (xi xq : Nat → Int) (x : Nat) :
    ∀ n j, n ≤ rb.size → j < n →
      (write_samples rb wp xi xq (x : Int) n).data ((wp + j) % rb.size)
        = (xi (x + j), xq (x + j)) := by
  intro n
  induction n with
  | zero => intro j _ hj; omega
  | succ n ih =>
    intro j hn hj
    simp only [write_samples, RingBuffer.store, write_samples_size]
    by_cases hjn : j = n
    · subst hjn
      simp only [if_true]
      have : ((x : Int) + (j : Int)).toNat = x + j := by omega
      rw [this]
    · have hne : (wp + j) % rb.size ≠ (wp + n) % rb.size := by
        intro h
        exact hjn (add_mod_inj (by omega) (by omega) h)
      rw [if_neg hne]
      exact ih j (by omega) (by omega)

theorem write_samples_data_old (rb : RingBuffer) (wp : Nat) (xi xq : Nat → Int) (x : Int)
    (p : Nat) :
    ∀ n, (∀ j, j < n → p ≠ (wp + j) % rb.size) →
      (write_samples rb wp xi xq x n).data p = rb.data p := by
  intro n
  induction n with
  | zero => intro _; rfl
  | succ n ih =>
    intro h
    simp only [write_samples, RingBuffer.store, write_samples_size]
    rw [if_neg (h n (by omega))]
    exact ih (fun j hj => h j (by omega))

theorem recent_write (rb rb1 : RingBuffer) (w0 : Nat) (xi xq : Nat → Int) (S : Nat → Sample)
    (off x n : Nat) (hS : ∀ j, (xi j, xq j) = S (off + j))
    (hn : n ≤ rb.size) (h : Recent rb w0 S (off + x)) (hsize : rb1.size = rb.size)
    (hwi : rb1.write_idx = (rb.write_idx + n) % rb.size)
    (hdata : rb1.data = (write_samples rb rb.write_idx xi xq (x : Int) n).data) :
    Recent rb1 w0 S (off + (x + n)) := by
  obtain ⟨hw, hd⟩ := h
  have hslot : ∀ j, (rb.write_idx + j) % rb.size = (w0 + (off + x + j)) % rb.size := by
    intro j
    rw [hw, Nat.mod_add_mod, Nat.add_assoc]
  refine ⟨?_, ?_⟩
  · rw [hwi, hsize, ← Nat.add_assoc off x n]
    exact hslot n
  · intro t ht hle
    rw [hsize] at hle ⊢
    rw [hdata]
    by_cases htx : off + x ≤ t
    · have e : (w0 + t) % rb.size = (rb.write_idx + (t - (off + x))) % rb.size := by
        rw [hslot]; congr 2; omega
      rw [e, write_samples_data_new rb rb.write_idx xi xq x n (t - (off + x)) hn (by omega), hS]
      congr 1; omega
    · rw [write_samples_data_old]
      · exact hd t (by omega) (by omega)
      · intro j hj heq
        rw [hslot] at heq
        have e : w0 + (off + x + j) = (w0 + t) + (off + x + j - t) := by omega
        rw [e] at heq
        exact add_mod_ne_self (by omega) (by omega) heq.symm

theorem write_samples_stopped (rb : RingBuffer) (wp : Nat) (xi xq : Nat → Int) (x : Int)
    (n : Nat) : (write_samples rb wp xi xq x n).stopped = rb.stopped := by
  induction n with
  | zero => rfl
  | succ n ih => simpa [write_samples, RingBuffer.store] using ih

theorem write_samples_max_read_size (rb : RingBuffer) (wp : Nat) (xi xq : Nat → Int) (x : Int)
    (n : Nat) : (write_samples rb wp xi xq x n).max_read_size = rb.max_read_size := by
  induction n with
  | zero => rfl
  | succ n ih => simpa [write_samples, RingBuffer.store] using ih

theorem stream_try_props (xi xq : Nat → Int) (N C : Nat) (st : StreamState) (x : Nat)
    (hx : st.xidx = (x : Int)) (hxN : x ≤ N) (hN : N ≤ 2147483647)
    (hsz : st.rb.size = C) (hC2 : 2 ≤ C) (hC : C ≤ 2147483648)
    (hw : st.rb.write_idx < C) (hwp : st.write_ptr = st.rb.write_idx) :
    (stream_try xi xq N st).xidx = ((x + min (C - 1) (N - x) : Nat) : Int) ∧
    (stream_try xi xq N st).rb.size = C ∧
    (stream_try xi xq N st).rb.write_idx = (st.rb.write_idx + min (C - 1) (N - x)) % C ∧
    (stream_try xi xq N st).write_ptr = (stream_try xi xq N st).rb.write_idx ∧
    (stream_try xi xq N st).rsp.total_samples
      = (st.rsp.total_samples + min (C - 1) (N - x)) % SIZE_MOD ∧
    (stream_try xi xq N st).rb.stopped = st.rb.stopped ∧
    (stream_try xi xq N st).rb.max_read_size = st.rb.max_read_size ∧
    (stream_try xi xq N st).rsp.run = st.rsp.run ∧
    (∀ w0 S off, (∀ j, (xi j, xq j) = S (off + j)) → Recent st.rb w0 S (off + x) →
      Recent (stream_try xi xq N st).rb w0 S (off + (x + min (C - 1) (N - x)))) := by
  have heq := stream_try_eq xi xq N st x hx hxN hN (by omega) (by omega) (by omega)
  rw [hsz] at heq
  rw [heq]
  refine ⟨rfl, ?_, rfl, rfl, rfl, ?_, ?_, rfl, ?_⟩
  · simp only [write_samples_size, hsz]
  · simp only [write_samples_stopped]
  · simp only [write_samples_max_read_size]
  · intro w0 S off hS h
    refine recent_write st.rb _ w0 xi xq S off x (min (C - 1) (N - x)) hS (by omega) h ?_ ?_ ?_
    · simp only [write_samples_size]
    · simp only [hsz]
    · simp only [hwp]

theorem stream_tries_spec (xi xq : Nat → Int) (N C : Nat) (hN : N ≤ 2147483647)
    (hC2 : 2 ≤ C) (hC : C ≤ 2147483648) :
    ∀ (t : Nat) (st : StreamState) (x : Nat), st.xidx = (x : Int) → x ≤ N →
      st.rb.size = C → st.rb.write_idx < C → st.write_ptr = st.rb.write_idx →
      (stream_tries xi xq N (t + 1) st).xidx = ((min N (x + (t + 1) * (C - 1)) : Nat) : Int) ∧
      (stream_tries xi xq N (t + 1) st).rb.size = C ∧
      (stream_tries xi xq N (t + 1) st).rb.write_idx
        = (st.rb.write_idx + (min N (x + (t + 1) * (C - 1)) - x)) % C ∧
      (stream_tries xi xq N (t + 1) st).rsp.total_samples
        = (st.rsp.total_samples + (min N (x + (t + 1) * (C - 1)) - x)) % SIZE_MOD ∧
      (stream_tries xi xq N (t + 1) st).dropped
        = (if min N (x + (t + 1) * (C - 1)) < N
            then some (N - min N (x + (t + 1) * (C - 1))) else none) ∧
      (stream_tries xi xq N (t + 1) st).rb.stopped = st.rb.stopped ∧
      (stream_tries xi xq N (t + 1) st).rb.max_read_size = st.rb.max_read_size ∧
      (stream_tries xi xq N (t + 1) st).rsp.run = st.rsp.run ∧
      (∀ w0 S off, (∀ j, (xi j, xq j) = S (off + j)) → Recent st.rb w0 S (off + x) →
        Recent (stream_tries xi xq N (t + 1) st).rb w0 S
          (off + min N (x + (t + 1) * (C - 1)))) := by
  intro t
  induction t with
  | zero =>
    intro st x hx hxN hsz hw hwp
    obtain ⟨p1, p2, p3, _, p5, p6, p7, p9, p8⟩ :=
      stream_try_props xi xq N C st x hx hxN hN hsz hC2 hC hw hwp
    have hmin : min N (x + (0 + 1) * (C - 1)) = x + min (C - 1) (N - x) := by
      simp only [Nat.zero_add, Nat.one_mul]; omega
    rw [hmin]
    simp only [stream_tries]
    generalize stream_try xi xq N st = st1 at *
    rw [p1, toUInt32_natCast (by omega)]
    by_cases hdone : x + min (C - 1) (N - x) = N
    · rw [if_pos hdone]
      refine ⟨rfl, p2, ?_, ?_, ?_, p6, p7, p9, p8⟩
      · rw [p3]; congr 2; omega
      · rw [p5]; congr 2; omega
      · rw [if_neg (by omega)]
    · rw [if_neg hdone]
      refine ⟨rfl, p2, ?_, ?_, ?_, p6, p7, p9, p8⟩
      · rw [p3]; congr 2; omega
      · rw [p5]; congr 2; omega
      · rw [if_pos (by omega)]
        have : ((N : Int) - ((x + min (C - 1) (N - x) : Nat) : Int))
            = ((N - (x + min (C - 1) (N - x)) : Nat) : Int) := by omega
        show some (toUInt32 _) = _
        rw [this, toUInt32_natCast (by omega)]
  | succ t ih =>
    intro st x hx hxN hsz hw hwp
    obtain ⟨p1, p2, p3, p4, p5, p6, p7, p9, p8⟩ :=
      stream_try_props xi xq N C st x hx hxN hN hsz hC2 hC hw hwp
    have hmul : (t + 1 + 1) * (C - 1) = (t + 1) * (C - 1) + (C - 1) :=
      Nat.succ_mul (t + 1) (C - 1)
    rw [stream_tries]
    generalize stream_try xi xq N st = st1 at *
    rw [p1, toUInt32_natCast (by omega)]
    by_cases hdone : x + min (C - 1) (N - x) = N
    · rw [if_pos hdone]
      have hmin : min N (x + (t + 1 + 1) * (C - 1)) = N := by rw [hmul]; omega
      rw [hmin]
      rw [hdone] at p8
      refine ⟨by rw [hdone], p2, ?_, ?_, by simp, p6, p7, p9, p8⟩
      · rw [p3]; congr 2; omega
      · rw [p5]; congr 2; omega
    · rw [if_neg hdone]
      have hn : min (C - 1) (N - x) = C - 1 := by omega
      rw [hn] at p1 p3 p5 p8
      have hr := ih st1 (x + (C - 1)) p1 (by omega) p2 (by rw [p3]; exact Nat.mod_lt _ (by omega)) p4
      have hmin : min N (x + (t + 1 + 1) * (C - 1)) = min N (x + (C - 1) + (t + 1) * (C - 1)) := by
        rw [hmul]; congr 1; omega
      rw [hmin]
      obtain ⟨h1, h2, h3, h4, h5, h6, h7, h9, h8⟩ := hr
      refine ⟨h1, h2, ?_, ?_, h5, h6.trans p6, h7.trans p7, h9.trans p9,
        fun w0 S off hS h => h8 w0 S off hS (p8 w0 S off hS h)⟩
      · rw [h3, p3, Nat.mod_add_mod]; congr 1; omega
      · rw [h4, p5, Nat.mod_add_mod]; congr 1; omega

theorem mod_of_lt_two_mul {a c : Nat} (h1 : c ≤ a) (h2 : a < 2 * c) : a % c = a - c := by
  rw [Nat.mod_eq_sub_mod h1]; exact Nat.mod_eq_of_lt (by omega)

theorem next_write_ptr_zero (rb : RingBuffer) (hw : rb.write_idx < SIZE_MOD) :
    (rb.next_write_ptr 0).1.size = rb.size ∧
    (rb.next_write_ptr 0).1.write_idx = rb.write_idx % rb.size ∧
    (rb.next_write_ptr 0).2 = rb.write_idx % rb.size ∧
    (rb.next_write_ptr 0).1.data = rb.data ∧
    (rb.next_write_ptr 0).1.stopped = rb.stopped ∧
    (rb.next_write_ptr 0).1.max_read_size = rb.max_read_size := by
  simp [RingBuffer.next_write_ptr, szAdd, Nat.mod_eq_of_lt hw]

theorem stream_callback_run (rsp : Rsp) (rb : RingBuffer) (xi xq : Nat → Int) (g : Int)
    (N : Nat) (hrun : rsp.run = true) :
    stream_callback rsp rb xi xq g N =
      stream_tries xi xq N 3
        { rsp := { rsp with gain_reduction_changed := Int.lor rsp.gain_reduction_changed g },
          rb := (rb.next_write_ptr 0).1, write_ptr := (rb.next_write_ptr 0).2, xidx := 0 } := by
  unfold stream_callback
  rw [if_neg (by simp [hrun])]
  rfl

theorem stream_callback_spec (rsp : Rsp) (rb : RingBuffer) (xi xq : Nat → Int) (g : Int)
    (N : Nat) (hrun : rsp.run = true) (hN : N ≤ 2147483647) (hC2 : 2 ≤ rb.size)
    (hC : rb.size ≤ 2147483648) (hw : rb.write_idx < SIZE_MOD) :
    (stream_callback rsp rb xi xq g N).xidx
      = ((min N (MAX_WRITE_TRIES * (rb.size - 1)) : Nat) : Int) ∧
    (stream_callback rsp rb xi xq g N).rb.size = rb.size ∧
    (stream_callback rsp rb xi xq g N).rb.write_idx
      = (rb.write_idx + min N (MAX_WRITE_TRIES * (rb.size - 1))) % rb.size ∧
    (stream_callback rsp rb xi xq g N).rsp.total_samples
      = (rsp.total_samples + min N (MAX_WRITE_TRIES * (rb.size - 1))) % SIZE_MOD ∧
    (stream_callback rsp rb xi xq g N).dropped
      = (if min N (MAX_WRITE_TRIES * (rb.size - 1)) < N
          then some (N - min N (MAX_WRITE_TRIES * (rb.size - 1))) else none) ∧
    (stream_callback rsp rb xi xq g N).rb.stopped = rb.stopped ∧
    (stream_callback rsp rb xi xq g N).rb.max_read_size = rb.max_read_size ∧
    (stream_callback rsp rb xi xq g N).rsp.run = rsp.run ∧
    (∀ w0 S off, (∀ j, (xi j, xq j) = S (off + j)) → Recent rb w0 S off →
      Recent (stream_callback rsp rb xi xq g N).rb w0 S
        (off + min N (MAX_WRITE_TRIES * (rb.size - 1)))) := by
  obtain ⟨z1, z2, z3, z4, z5, z6⟩ := next_write_ptr_zero rb hw
  have hs := stream_tries_spec xi xq N rb.size hN hC2 hC 2
    { rsp := { rsp with gain_reduction_changed := Int.lor rsp.gain_reduction_changed g },
      rb := (rb.next_write_ptr 0).1, write_ptr := (rb.next_write_ptr 0).2, xidx := 0 } 0
    rfl (Nat.zero_le N) z1 (by simp only; rw [z2]; exact Nat.mod_lt _ (by omega))
    (by simp only; rw [z2, z3])
  rw [Nat.zero_add, Nat.sub_zero] at hs
  have e3 : (2 + 1 : Nat) = 3 := rfl
  rw [e3] at hs
  rw [stream_callback_run rsp rb xi xq g N hrun]
  unfold MAX_WRITE_TRIES
  obtain ⟨h1, h2, h3, h4, h5, h6, h7, h9, h8⟩ := hs
  refine ⟨h1, h2, ?_, h4, h5, h6.trans z5, h7.trans z6, h9, ?_⟩
  · rw [h3, z2, Nat.mod_add_mod]
  · intro w0 S off hS h
    apply h8 w0 S off hS
    obtain ⟨r1, r2⟩ := h
    refine ⟨?_, ?_⟩
    · rw [z1, z2, r1, Nat.mod_mod, Nat.add_zero]
    · intro t ht hle
      rw [z1] at hle ⊢
      rw [z4]
      exact r2 t (by omega) (by omega)

theorem mapped_of_le (rb : RingBuffer) (hC : rb.size ≤ 2147483648) : rb.Mapped := by
  unfold RingBuffer.Mapped sizeof_T SIZE_MOD; omega

theorem read_size_after_write (C w m k : Nat) (hw : w < C) (hk : k < C) :
    (C + (w + (m * C + k)) % C - w) % C = k := by
  have e : (w + (m * C + k)) % C = (w + k) % C := by
    have : w + (m * C + k) = w + k + C * m := by rw [Nat.mul_comm]; omega
    rw [this, Nat.add_mul_mod_self_left]
  rw [e]
  by_cases h : w + k < C
  · rw [Nat.mod_eq_of_lt h]
    have : C + (w + k) - w = k + C := by omega
    rw [this, Nat.add_mod_right, Nat.mod_eq_of_lt hk]
  · rw [@mod_of_lt_two_mul (w + k) C (by omega) (by omega)]
    have : C + (w + k - C) - w = k := by omega
    rw [this, Nat.mod_eq_of_lt hk]

/-- C3 (amended): while running, with `numSamples <= INT_MAX` on a buffer of
capacity `2 <= size` with `size - 1 <= INT_MAX`, `stream_callback` writes
`min numSamples (MAX_WRITE_TRIES * (size - 1))` samples: `total_samples` grows
by that amount (as a `size_t`), `write_idx` advances by it modulo `size`, the
"dropped" line is printed exactly when fewer samples were written than given
and then reports the difference, and fewer are written only if
`numSamples > MAX_WRITE_TRIES * (size - 1)`. -/
theorem stream_callback_drop_accounting (rsp : Rsp) (rb : RingBuffer) (xi xq : Nat → Int)
    (g : Int) (N : Nat) (hrun : rsp.run = true) (hN : (N : Int) ≤ INT_MAX)
    (hC2 : 2 ≤ rb.size) (hC : ((rb.size - 1 : Nat) : Int) ≤ INT_MAX)
    (hw : rb.write_idx < SIZE_MOD) :
    (stream_callback rsp rb xi xq g N).xidx
      = ((min N (MAX_WRITE_TRIES * (rb.size - 1)) : Nat) : Int) ∧
    (stream_callback rsp rb xi xq g N).rsp.total_samples
      = (rsp.total_samples + min N (MAX_WRITE_TRIES * (rb.size - 1))) % SIZE_MOD ∧
    (stream_callback rsp rb xi xq g N).rb.write_idx
      = (rb.write_idx + min N (MAX_WRITE_TRIES * (rb.size - 1))) % rb.size ∧
    (stream_callback rsp rb xi xq g N).dropped
      = (if min N (MAX_WRITE_TRIES * (rb.size - 1)) < N
          then some (N - min N (MAX_WRITE_TRIES * (rb.size - 1))) else none) ∧
    ((stream_callback rsp rb xi xq g N).xidx < (N : Int) →
      MAX_WRITE_TRIES * (rb.size - 1) < N) := by
  unfold INT_MAX at hN hC
  obtain ⟨h1, _, h3, h4, h5, _, _, _, _⟩ :=
    stream_callback_spec rsp rb xi xq g N hrun (by omega) hC2 (by omega) hw
  refine ⟨h1, h4, h3, h5, ?_⟩
  rw [h1]; intro h; omega

/-- C3 (amended) at a buffer of four slots and ten samples: nine are written
and one is reported dropped. -/
theorem stream_callback_drop_accounting_witness :
    (stream_callback running_rsp small_buffer ramp_i ramp_q 0 10).xidx = 9 ∧
    (stream_callback running_rsp small_buffer ramp_i ramp_q 0 10).dropped = some 1 := by
  have h := stream_callback_drop_accounting running_rsp small_buffer ramp_i ramp_q 0 10
    (by decide) (by decide) (by decide) (by decide) (by decide)
  exact ⟨h.1, h.2.2.2.1⟩

/-- C3 (as stated) fails: on a buffer of `2 ^ 31 + 1024` slots, which the
constructor accepts for a page size of 4096, the `int` conversion of
`next_write_max_size()` is negative; a callback with one sample writes
nothing, reports one dropped sample, and moves `write_idx` and
`total_samples` by the converted negative amounts. -/
theorem stream_callback_large_buffer_writes_nothing :
    RingBuffer.ctor 2147484672 0 4096 true true true true = Except.ok large_buffer ∧
    running_rsp.run = true ∧ 2 ≤ large_buffer.size ∧ ((1 : Nat) : Int) ≤ INT_MAX ∧
    min 1 (MAX_WRITE_TRIES * (large_buffer.size - 1)) = 1 ∧
    (stream_callback running_rsp large_buffer ramp_i ramp_q 0 1).xidx = 0 ∧
    (stream_callback running_rsp large_buffer ramp_i ramp_q 0 1).dropped = some 1 ∧
    (stream_callback running_rsp large_buffer ramp_i ramp_q 0 1).rb.write_idx = 12589053 ∧
    (stream_callback running_rsp large_buffer ramp_i ramp_q 0 1).rsp.total_samples
      = 18446744067267103741 := by
  refine ⟨rfl, rfl, by decide, by decide, by decide, by decide, by decide, by decide, by decide⟩

theorem next_read_max_size_nonblocking (rb : RingBuffer) (r : Nat) :
    rb.next_read_max_size r false
      = some ({ rb with max_read_size := max rb.max_read_size (rb.read_size r) },
          rb.read_size r) := by
  unfold RingBuffer.next_read_max_size
  simp only [Bool.false_and, Bool.false_eq_true, if_false]

theorem deliver_spec (X Y : Nat → Int) (C : Nat) (hC2 : 2 ≤ C) (hC : C ≤ 2147483648) :
    ∀ (sizes : List Nat) (off : Nat) (rsp : Rsp) (rb : RingBuffer), rsp.run = true →
      rb.size = C → rb.write_idx < C →
      (∀ N ∈ sizes, N ≤ 2147483647 ∧ N ≤ MAX_WRITE_TRIES * (C - 1)) →
      (deliver X Y off rsp rb sizes).2.size = C ∧
      (deliver X Y off rsp rb sizes).2.write_idx = (rb.write_idx + sizes.sum) % C ∧
      (∀ w0, Recent rb w0 (fun t => (X t, Y t)) off →
        Recent (deliver X Y off rsp rb sizes).2 w0 (fun t => (X t, Y t)) (off + sizes.sum)) := by
  intro sizes
  induction sizes with
  | nil =>
    intro off rsp rb _ hsz hw _
    exact ⟨hsz, by simp [deliver, Nat.mod_eq_of_lt hw], fun w0 h => by simpa [deliver] using h⟩
  | cons N sizes ih =>
    intro off rsp rb hrun hsz hw hN
    obtain ⟨hN1, hN2⟩ := hN N (by simp)
    obtain ⟨_, h2, h3, _, _, _, _, h8, h9⟩ :=
      stream_callback_spec rsp rb (fun n => X (off + n)) (fun n => Y (off + n)) 0 N hrun hN1
        (by omega) (by omega) (by unfold SIZE_MOD; omega)
    rw [hsz] at h2 h3 h9
    have hW : min N (MAX_WRITE_TRIES * (C - 1)) = N := by omega
    rw [hW] at h3 h9
    obtain ⟨i1, i2, i3⟩ := ih (off + N) _ _ (h8.trans hrun) h2
      (by rw [h3]; exact Nat.mod_lt _ (by omega)) (fun M hM => hN M (by simp [hM]))
    refine ⟨i1, ?_, fun w0 h => ?_⟩
    · show (deliver X Y (off + N) _ _ sizes).2.write_idx = _
      rw [i2, h3, Nat.mod_add_mod, List.sum_cons, Nat.add_assoc]
    · show Recent (deliver X Y (off + N) _ _ sizes).2 w0 _ _
      rw [List.sum_cons, ← Nat.add_assoc]
      exact i3 w0 (h9 w0 (fun t => (X t, Y t)) off (fun j => rfl) h)

/-- C2 (amended): on a buffer of capacity `C` (`2 <= C`, `C - 1 <= INT_MAX`),
after the producer has written `C + k` samples (`k < C`) in callbacks none of
which is given more than `INT_MAX` or more than `MAX_WRITE_TRIES * (C - 1)`
samples (so that none drops a sample), a cursor taken with
`next_read_ptr(nullptr)` before these writes reads a span of exactly `k`
samples, which are the `k` most recent written samples in write order; a
cursor taken after the writes reads a span of length 0. -/
theorem cursor_span_after_wrap (rsp : Rsp) (rb : RingBuffer) (X Y : Nat → Int)
    (sizes : List Nat) (k : Nat) (hrun : rsp.run = true) (hC2 : 2 ≤ rb.size)
    (hC : ((rb.size - 1 : Nat) : Int) ≤ INT_MAX) (hw : rb.write_idx < rb.size)
    (hk : k < rb.size)
    (hsizes : ∀ N ∈ sizes, (N : Int) ≤ INT_MAX ∧ N ≤ MAX_WRITE_TRIES * (rb.size - 1))
    (hsum : sizes.sum = rb.size + k) :
    (∃ rb2, (deliver X Y 0 rsp rb sizes).2.next_read_max_size (rb.next_read_ptr none 0) false
        = some (rb2, k)) ∧
    (∀ i, i < k →
      (deliver X Y 0 rsp rb sizes).2.elem (rb.next_read_ptr none 0 + i)
        = (X (rb.size + i), Y (rb.size + i))) ∧
    (∃ rb3, (deliver X Y 0 rsp rb sizes).2.next_read_max_size
        ((deliver X Y 0 rsp rb sizes).2.next_read_ptr none 0) false = some (rb3, 0)) := by
  unfold INT_MAX at hC hsizes
  obtain ⟨h2, h3, h8⟩ := deliver_spec X Y rb.size hC2 (by omega) sizes 0 rsp rb hrun rfl hw
    (fun N hN => ⟨by have := (hsizes N hN).1; omega, (hsizes N hN).2⟩)
  have h8 := h8 rb.write_idx ⟨by simp [Nat.mod_eq_of_lt hw], fun t ht => by omega⟩
  rw [hsum] at h3
  rw [hsum, Nat.zero_add] at h8
  generalize (deliver X Y 0 rsp rb sizes).2 = r at *
  have hmap : r.Mapped := mapped_of_le r (by omega)
  have hw1 : r.write_idx < r.size := by
    rw [h3, h2]; exact Nat.mod_lt _ (by omega)
  have hr1 : r.read_size rb.write_idx = k := by
    rw [read_size_eq r rb.write_idx hmap hw1 (by omega), h3, h2]
    have e : rb.size + k = 1 * rb.size + k := by omega
    rw [e, read_size_after_write rb.size rb.write_idx 1 k hw hk]
  have hr2 : r.read_size r.write_idx = 0 := by
    rw [read_size_eq r r.write_idx hmap hw1 hw1]
    have e : r.size + r.write_idx - r.write_idx = r.size := by omega
    rw [e, Nat.mod_self]
  refine ⟨?_, ?_, ?_⟩
  · show ∃ rb2, r.next_read_max_size rb.write_idx false = some (rb2, k)
    rw [next_read_max_size_nonblocking, hr1]
    exact ⟨_, rfl⟩
  · intro i hi
    show r.data ((rb.write_idx + i) % r.size) = _
    have := h8.2 (rb.size + i) (by omega) (by omega)
    rw [h2] at this ⊢
    have e : rb.write_idx + (rb.size + i) = rb.write_idx + i + rb.size := by omega
    rw [e, Nat.add_mod_right] at this
    exact this
  · show ∃ rb3, r.next_read_max_size r.write_idx false = some (rb3, 0)
    rw [next_read_max_size_nonblocking, hr2]
    exact ⟨_, rfl⟩

/-- C2 (amended) at a buffer of four slots filled by callbacks of 3, 3 and 1
samples, `k = 3`. -/
theorem cursor_span_after_wrap_witness :
    ∃ rb2, (deliver ramp_i ramp_q 0 running_rsp small_buffer [3, 3, 1]).2.next_read_max_size
        (small_buffer.next_read_ptr none 0) false = some (rb2, 3) :=
  (cursor_span_after_wrap running_rsp small_buffer ramp_i ramp_q [3, 3, 1] 3
    (by decide) (by decide) (by decide) (by decide) (by decide) (by decide) (by decide)).1

/-- C2 (as stated) fails: with `C = 4` and `k = 1`, after five samples are
written by callbacks of 3 and 2 samples, a cursor obtained from
`next_read_ptr(nullptr)` reads 0 samples, and a cursor obtained before the
writes reads 1 sample; neither is `C - 1 = 3`. -/
theorem fresh_cursor_after_wrap_reads_less :
    (stream_callback running_rsp small_buffer ramp_i ramp_q 0 3).dropped = none ∧
    (stream_callback (stream_callback running_rsp small_buffer ramp_i ramp_q 0 3).rsp
      (stream_callback running_rsp small_buffer ramp_i ramp_q 0 3).rb
      (fun n => ramp_i (3 + n)) (fun n => ramp_q (3 + n)) 0 2).dropped = none ∧
    (deliver ramp_i ramp_q 0 running_rsp small_buffer [3, 2]).1.total_samples = 4 + 1 ∧
    ((deliver ramp_i ramp_q 0 running_rsp small_buffer [3, 2]).2.next_read_max_size
      ((deliver ramp_i ramp_q 0 running_rsp small_buffer [3, 2]).2.next_read_ptr none 0)
        false).map Prod.snd = some 0 ∧
    ((deliver ramp_i ramp_q 0 running_rsp small_buffer [3, 2]).2.next_read_max_size
      (small_buffer.next_read_ptr none 0) false).map Prod.snd = some 1 ∧
    small_buffer.size - 1 = 3 := by
  decide

/-! ## Properties of the AGC loop -/

/-- C4 fails on the code: a pass of the loop that issues a gain change (50 to
51) with three samples pending resets the cursor to the write index 5 and then
advances it by the span length 3, so the cursor carried into the next pass is
0, not 5, and the next read returns 5 slots instead of 0. -/
theorem agc_resync_overshoots :
    (agc_iteration test_api fast_agc running_rsp loud_buffer 2).result.map IterResult.calls
      = some [⟨51, true⟩] ∧
    (agc_iteration test_api fast_agc running_rsp loud_buffer 2).result.map
      (fun r => r.rb.write_idx) = some 5 ∧
    (agc_iteration test_api fast_agc running_rsp loud_buffer 2).result.map IterResult.read_ptr
      = some 0 ∧
    (agc_iteration test_api fast_agc running_rsp loud_buffer 2).result.map
      (fun r => (r.rb.next_read_max_size r.read_ptr true).map Prod.snd) = some (some 5) := by
  decide

namespace AgcGtw

theorem clock_frame (a : AgcGtw) :
    a.clock.config = a.config ∧ a.clock.gain_reduction = a.gain_reduction ∧
    a.clock.samples_per_millis = a.samples_per_millis ∧
    a.clock.iq2_increase_threshold = a.iq2_increase_threshold ∧
    a.clock.max_iq2 = a.max_iq2 ∧
    a.clock.millis_iq_above_threshold = a.millis_iq_above_threshold := by
  unfold clock config
  split <;> simp

theorem clock_tick (a : AgcGtw) (h : a.samples_left = 1) :
    a.clock.samples_left = a.samples_per_millis ∧
    a.clock.millis_since_last_agc_check = toInt32 (a.millis_since_last_agc_check + 1) ∧
    a.clock.millis_since_last_gain_change = toInt32 (a.millis_since_last_gain_change + 1) := by
  have e : toInt32 (a.samples_left - 1) = 0 := by rw [h]; decide
  unfold clock
  rw [if_pos e]
  simp

theorem clock_no_tick (a : AgcGtw) (h1 : 2 ≤ a.samples_left)
    (h2 : a.samples_left ≤ 2147483647) :
    a.clock.samples_left = a.samples_left - 1 ∧
    a.clock.millis_since_last_agc_check = a.millis_since_last_agc_check ∧
    a.clock.millis_since_last_gain_change = a.millis_since_last_gain_change := by
  have e : toInt32 (a.samples_left - 1) = a.samples_left - 1 :=
    toInt32_of_range (by omega) (by omega)
  unfold clock
  rw [e, if_neg (by omega)]
  simp

theorem clock_counters (a : AgcGtw) :
    (a.clock.millis_since_last_agc_check = a.millis_since_last_agc_check ∨
      a.clock.millis_since_last_agc_check = toInt32 (a.millis_since_last_agc_check + 1)) ∧
    (a.clock.millis_since_last_gain_change = a.millis_since_last_gain_change ∨
      a.clock.millis_since_last_gain_change
        = toInt32 (a.millis_since_last_gain_change + 1)) := by
  unfold clock
  split
  · exact ⟨Or.inr rfl, Or.inr rfl⟩
  · exact ⟨Or.inl rfl, Or.inl rfl⟩

theorem accumulate_frame (a : AgcGtw) (s : Sample) :
    (a.accumulate s).config = a.config ∧ (a.accumulate s).gain_reduction = a.gain_reduction ∧
    (a.accumulate s).samples_per_millis = a.samples_per_millis ∧
    (a.accumulate s).samples_left = a.samples_left ∧
    (a.accumulate s).iq2_increase_threshold = a.iq2_increase_threshold ∧
    (a.accumulate s).millis_since_last_agc_check = a.millis_since_last_agc_check ∧
    (a.accumulate s).millis_since_last_gain_change = a.millis_since_last_gain_change := by
  unfold accumulate config
  simp only
  split
  · split <;> simp
  · simp

theorem accumulate_max_iq2 (a : AgcGtw) (s : Sample) :
    (a.accumulate s).max_iq2 = max (iq2 s) a.max_iq2 := by
  unfold accumulate
  simp only
  split
  · split <;> rfl
  · rfl

theorem accumulate_quiet (a : AgcGtw) (s : Sample) (h : ¬ iq2 s > a.iq2_increase_threshold) :
    (a.accumulate s).millis_iq_above_threshold = a.millis_iq_above_threshold := by
  unfold accumulate
  simp only
  rw [if_neg h]

theorem decide_gain_frame (a : AgcGtw) :
    a.decide_gain.config = a.config ∧
    a.decide_gain.samples_per_millis = a.samples_per_millis ∧
    a.decide_gain.samples_left = a.samples_left ∧
    a.decide_gain.iq2_increase_threshold = a.iq2_increase_threshold ∧
    a.decide_gain.millis_since_last_agc_check = a.millis_since_last_agc_check ∧
    a.decide_gain.millis_since_last_gain_change = a.millis_since_last_gain_change := by
  unfold decide_gain config
  split
  · simp
  · split <;> simp

theorem decide_gain_attack (a : AgcGtw) (h : a.attack_cond) :
    a.decide_gain.gain_reduction
      = min a.max_gain_reduction (toInt32 (a.gain_reduction + a.gainstep_inc)) := by
  unfold decide_gain
  rw [if_pos h]

theorem decide_gain_decay (a : AgcGtw) (h1 : ¬ a.attack_cond) (h2 : a.decay_cond) :
    a.decide_gain.gain_reduction
      = max a.min_gain_reduction (toInt32 (a.gain_reduction - a.gainstep_dec)) := by
  unfold decide_gain
  rw [if_neg h1, if_pos h2]

theorem decide_gain_none (a : AgcGtw) (h1 : ¬ a.attack_cond) (h2 : ¬ a.decay_cond) :
    a.decide_gain = a := by
  unfold decide_gain
  rw [if_neg h1, if_neg h2]

theorem window_reset_frame (a : AgcGtw) :
    a.window_reset.config = a.config ∧ a.window_reset.gain_reduction = a.gain_reduction ∧
    a.window_reset.samples_per_millis = a.samples_per_millis ∧
    a.window_reset.samples_left = a.samples_left ∧
    a.window_reset.iq2_increase_threshold = a.iq2_increase_threshold ∧
    a.window_reset.millis_since_last_gain_change = a.millis_since_last_gain_change ∧
    a.window_reset.millis_since_last_agc_check = 0 ∧ a.window_reset.max_iq2 = 0 ∧
    a.window_reset.millis_iq_above_threshold = 0 := by
  unfold window_reset config
  simp

theorem agc_sample_gated (api : SdrplayApi) (a : AgcGtw) (rsp : Rsp) (s : Sample)
    (h : ¬ ((a.clock).accumulate s).decision_due) :
    a.agc_sample api rsp s
      = { agc := (a.clock).accumulate s, rsp := rsp, flow := Flow.next, calls := [] } := by
  unfold agc_sample
  simp only [h, not_false_eq_true, if_true]

theorem agc_sample_same (api : SdrplayApi) (a : AgcGtw) (rsp : Rsp) (s : Sample)
    (h : ((a.clock).accumulate s).decision_due)
    (hg : (((a.clock).accumulate s).decide_gain).gain_reduction = rsp.getIFGainReduction) :
    a.agc_sample api rsp s
      = { agc := (((a.clock).accumulate s).decide_gain).window_reset, rsp := rsp,
          flow := Flow.next, calls := [] } := by
  unfold agc_sample
  simp only [h, not_true_eq_false, if_false]
  rw [if_neg (by rw [(window_reset_frame _).2.1]; exact not_not.mpr hg)]

theorem agc_sample_change (api : SdrplayApi) (a : AgcGtw) (rsp : Rsp) (s : Sample)
    (h : ((a.clock).accumulate s).decision_due)
    (hg : (((a.clock).accumulate s).decide_gain).gain_reduction ≠ rsp.getIFGainReduction) :
    (a.agc_sample api rsp s).calls
      = [⟨(((a.clock).accumulate s).decide_gain).gain_reduction, true⟩] ∧
    (a.agc_sample api rsp s).rsp
      = (Rsp.setIFGainReduction api rsp
          (((a.clock).accumulate s).decide_gain).gain_reduction true).rsp ∧
    ((Rsp.setIFGainReduction api rsp
        (((a.clock).accumulate s).decide_gain).gain_reduction true).thrown = none →
      (a.agc_sample api rsp s).flow = Flow.brk ∧
      (a.agc_sample api rsp s).agc
        = { (((a.clock).accumulate s).decide_gain).window_reset with
            millis_since_last_gain_change := 0 }) ∧
    ((Rsp.setIFGainReduction api rsp
        (((a.clock).accumulate s).decide_gain).gain_reduction true).thrown ≠ none →
      (a.agc_sample api rsp s).flow = Flow.thrown ∧
      (a.agc_sample api rsp s).agc = (((a.clock).accumulate s).decide_gain).window_reset) := by
  have hw := (window_reset_frame (((a.clock).accumulate s).decide_gain)).2.1
  unfold agc_sample
  simp only [h, not_true_eq_false, if_false]
  rw [if_pos (by rw [hw]; exact hg), hw]
  cases hthr : (Rsp.setIFGainReduction api rsp
      (((a.clock).accumulate s).decide_gain).gain_reduction true).thrown with
  | none => simp
  | some e => simp

end AgcGtw

namespace AgcGtw

theorem config_fields {a b : AgcGtw} (h : a.config = b.config) :
    a.agc3_min_time_ms = b.agc3_min_time_ms ∧ a.min_gain_reduction = b.min_gain_reduction ∧
    a.max_gain_reduction = b.max_gain_reduction ∧ a.gainstep_dec = b.gainstep_dec ∧
    a.gainstep_inc = b.gainstep_inc ∧ a.agc4_a = b.agc4_a ∧ a.agc5_b = b.agc5_b ∧
    a.agc6_c = b.agc6_c := by
  unfold config at h
  injection h with h1 h2 h3 h4 h5 h6 h7 h8 h9 h10
  exact ⟨h3, h4, h5, h6, h7, h8, h9, h10⟩

theorem accumulated_frame (a : AgcGtw) (s : Sample) :
    ((a.clock).accumulate s).config = a.config ∧
    ((a.clock).accumulate s).gain_reduction = a.gain_reduction ∧
    ((a.clock).accumulate s).samples_per_millis = a.samples_per_millis ∧
    ((a.clock).accumulate s).samples_left = a.clock.samples_left ∧
    ((a.clock).accumulate s).iq2_increase_threshold = a.iq2_increase_threshold ∧
    ((a.clock).accumulate s).millis_since_last_agc_check = a.clock.millis_since_last_agc_check ∧
    ((a.clock).accumulate s).millis_since_last_gain_change
      = a.clock.millis_since_last_gain_change := by
  obtain ⟨c1, c2, c3, c4, _, _⟩ := clock_frame a
  obtain ⟨d1, d2, d3, d4, d5, d6, d7⟩ := accumulate_frame a.clock s
  exact ⟨d1.trans c1, d2.trans c2, d3.trans c3, d4, d5.trans c4, d6, d7⟩

theorem agc_sample_agc_cases (api : SdrplayApi) (a : AgcGtw) (rsp : Rsp) (s : Sample) :
    (¬ ((a.clock).accumulate s).decision_due ∧
      (a.agc_sample api rsp s).agc = (a.clock).accumulate s) ∨
    (((a.clock).accumulate s).decision_due ∧
      ((a.agc_sample api rsp s).agc = (((a.clock).accumulate s).decide_gain).window_reset ∨
       (a.agc_sample api rsp s).agc
        = { (((a.clock).accumulate s).decide_gain).window_reset with
            millis_since_last_gain_change := 0 })) := by
  by_cases h : ((a.clock).accumulate s).decision_due
  · right
    refine ⟨h, ?_⟩
    by_cases hg : (((a.clock).accumulate s).decide_gain).gain_reduction = rsp.getIFGainReduction
    · left; rw [agc_sample_same api a rsp s h hg]
    · obtain ⟨_, _, h3, h4⟩ := agc_sample_change api a rsp s h hg
      by_cases ht : (Rsp.setIFGainReduction api rsp
          (((a.clock).accumulate s).decide_gain).gain_reduction true).thrown = none
      · right; exact (h3 ht).2
      · left; exact (h4 ht).2
  · left
    refine ⟨h, ?_⟩
    rw [agc_sample_gated api a rsp s h]

theorem agc_sample_frame (api : SdrplayApi) (a : AgcGtw) (rsp : Rsp) (s : Sample) :
    (a.agc_sample api rsp s).agc.config = a.config ∧
    (a.agc_sample api rsp s).agc.samples_per_millis = a.samples_per_millis ∧
    (a.agc_sample api rsp s).agc.samples_left = a.clock.samples_left ∧
    (a.agc_sample api rsp s).agc.iq2_increase_threshold = a.iq2_increase_threshold := by
  obtain ⟨f1, _, f3, f4, f5, _, _⟩ := accumulated_frame a s
  obtain ⟨g1, g2, g3, g4, _, _⟩ := decide_gain_frame ((a.clock).accumulate s)
  obtain ⟨w1, _, w3, w4, w5, _, _, _, _⟩ :=
    window_reset_frame (((a.clock).accumulate s).decide_gain)
  rcases agc_sample_agc_cases api a rsp s with ⟨_, h⟩ | ⟨_, h | h⟩
  · rw [h]; exact ⟨f1, f3, f4, f5⟩
  · rw [h]; exact ⟨w1.trans (g1.trans f1), w3.trans (g2.trans f3), w4.trans (g3.trans f4),
      w5.trans (g4.trans f5)⟩
  · rw [h]; exact ⟨w1.trans (g1.trans f1), w3.trans (g2.trans f3), w4.trans (g3.trans f4),
      w5.trans (g4.trans f5)⟩

theorem agc_sample_gain (api : SdrplayApi) (a : AgcGtw) (rsp : Rsp) (s : Sample) :
    (¬ ((a.clock).accumulate s).decision_due →
      (a.agc_sample api rsp s).agc.gain_reduction = a.gain_reduction) ∧
    (((a.clock).accumulate s).decision_due →
      (a.agc_sample api rsp s).agc.gain_reduction
        = (((a.clock).accumulate s).decide_gain).gain_reduction) := by
  obtain ⟨_, f2, _⟩ := accumulated_frame a s
  obtain ⟨_, w2, _⟩ := window_reset_frame (((a.clock).accumulate s).decide_gain)
  rcases agc_sample_agc_cases api a rsp s with ⟨hd, h⟩ | ⟨hd, h | h⟩
  · exact ⟨fun _ => by rw [h, f2], fun h2 => absurd h2 hd⟩
  · exact ⟨fun h2 => absurd hd h2, fun _ => by rw [h, w2]⟩
  · exact ⟨fun h2 => absurd hd h2, fun _ => by rw [h]; exact w2⟩

theorem agc_sample_window (api : SdrplayApi) (a : AgcGtw) (rsp : Rsp) (s : Sample)
    (hd : ((a.clock).accumulate s).decision_due) :
    (a.agc_sample api rsp s).agc.millis_since_last_agc_check = 0 ∧
    (a.agc_sample api rsp s).agc.max_iq2 = 0 ∧
    (a.agc_sample api rsp s).agc.millis_iq_above_threshold = 0 := by
  obtain ⟨_, _, _, _, _, _, w7, w8, w9⟩ :=
    window_reset_frame (((a.clock).accumulate s).decide_gain)
  rcases agc_sample_agc_cases api a rsp s with ⟨hn, _⟩ | ⟨_, h | h⟩
  · exact absurd hd hn
  · rw [h]; exact ⟨w7, w8, w9⟩
  · rw [h]; exact ⟨w7, w8, w9⟩

end AgcGtw

theorem setIFGainReduction_returns (api : SdrplayApi) (rsp : Rsp) (g : Int) (wait : Bool)
    (h1 : api.sdrplay_api_NORMAL_MIN_GR ≤ g) (h2 : g ≤ api.MAX_BB_GR)
    (h3 : api.update_ok rsp.updates = true) :
    (Rsp.setIFGainReduction api rsp g wait).thrown = none := by
  unfold Rsp.setIFGainReduction
  rw [if_neg (by omega)]
  simp only [h3, Bool.not_true, Bool.false_eq_true, if_false]
  split
  · split
    · split <;> rfl
    · rfl
  · rfl

theorem agc_run_append (api : SdrplayApi) (st : AgcRun) (l : List Sample) (s : Sample) :
    agc_run api st (l ++ [s]) = agc_consume api (agc_run api st l) s := by
  simp [agc_run, List.foldl_append]

theorem agc_consume_thrown (api : SdrplayApi) (st : AgcRun) (s : Sample)
    (h : st.thrown = true) : agc_consume api st s = st := by
  unfold agc_consume; rw [if_pos h]

theorem agc_consume_live (api : SdrplayApi) (st : AgcRun) (s : Sample)
    (h : st.thrown = false) :
    agc_consume api st s =
      { agc := (st.agc.agc_sample api st.rsp s).agc, rsp := (st.agc.agc_sample api st.rsp s).rsp,
        calls := st.calls ++ (st.agc.agc_sample api st.rsp s).calls,
        thrown := decide ((st.agc.agc_sample api st.rsp s).flow = Flow.thrown) } := by
  unfold agc_consume; rw [if_neg (by simp [h])]

theorem agc_sample_no_call (api : SdrplayApi) (a : AgcGtw) (rsp : Rsp) (s : Sample)
    (h : (a.agc_sample api rsp s).calls = []) :
    (a.agc_sample api rsp s).flow = Flow.next ∧ (a.agc_sample api rsp s).rsp = rsp ∧
    (a.agc_sample api rsp s).agc.millis_since_last_gain_change
      = a.clock.millis_since_last_gain_change := by
  obtain ⟨_, _, _, _, _, _, f7⟩ := AgcGtw.accumulated_frame a s
  by_cases hd : ((a.clock).accumulate s).decision_due
  · by_cases hg : (((a.clock).accumulate s).decide_gain).gain_reduction = rsp.getIFGainReduction
    · rw [AgcGtw.agc_sample_same api a rsp s hd hg]
      refine ⟨rfl, rfl, ?_⟩
      simp only
      rw [(AgcGtw.window_reset_frame _).2.2.2.2.2.1, (AgcGtw.decide_gain_frame _).2.2.2.2.2, f7]
    · have := (AgcGtw.agc_sample_change api a rsp s hd hg).1
      rw [this] at h
      exact absurd h (by simp)
  · rw [AgcGtw.agc_sample_gated api a rsp s hd]
    exact ⟨rfl, rfl, f7⟩

theorem agc_sample_counters (api : SdrplayApi) (a : AgcGtw) (rsp : Rsp) (s : Sample) :
    ((a.agc_sample api rsp s).agc.millis_since_last_agc_check
        = a.clock.millis_since_last_agc_check ∨
      (a.agc_sample api rsp s).agc.millis_since_last_agc_check = 0) ∧
    ((a.agc_sample api rsp s).agc.millis_since_last_gain_change
        = a.clock.millis_since_last_gain_change ∨
      (a.agc_sample api rsp s).agc.millis_since_last_gain_change = 0) := by
  obtain ⟨_, _, _, _, _, f6, f7⟩ := AgcGtw.accumulated_frame a s
  obtain ⟨_, _, _, _, _, g6⟩ := AgcGtw.decide_gain_frame ((a.clock).accumulate s)
  obtain ⟨_, _, _, _, _, w6, w7, _, _⟩ :=
    AgcGtw.window_reset_frame (((a.clock).accumulate s).decide_gain)
  rcases AgcGtw.agc_sample_agc_cases api a rsp s with ⟨_, h⟩ | ⟨_, h | h⟩
  · rw [h]; exact ⟨Or.inl f6, Or.inl f7⟩
  · rw [h]; exact ⟨Or.inr w7, Or.inl (w6.trans (g6.trans f7))⟩
  · rw [h]; exact ⟨Or.inr w7, Or.inr rfl⟩

theorem agc_sample_counters_range (api : SdrplayApi) (a : AgcGtw) (rsp : Rsp) (s : Sample)
    (h1 : -2147483648 ≤ a.millis_since_last_agc_check ∧
      a.millis_since_last_agc_check ≤ 2147483647)
    (h2 : -2147483648 ≤ a.millis_since_last_gain_change ∧
      a.millis_since_last_gain_change ≤ 2147483647) :
    (-2147483648 ≤ (a.agc_sample api rsp s).agc.millis_since_last_agc_check ∧
      (a.agc_sample api rsp s).agc.millis_since_last_agc_check ≤ 2147483647) ∧
    (-2147483648 ≤ (a.agc_sample api rsp s).agc.millis_since_last_gain_change ∧
      (a.agc_sample api rsp s).agc.millis_since_last_gain_change ≤ 2147483647) := by
  obtain ⟨c1, c2⟩ := AgcGtw.clock_counters a
  obtain ⟨s1, s2⟩ := agc_sample_counters api a rsp s
  have b1 := toInt32_bounds (a.millis_since_last_agc_check + 1)
  have b2 := toInt32_bounds (a.millis_since_last_gain_change + 1)
  constructor
  · rcases s1 with e | e <;> rcases c1 with e1 | e1 <;> omega
  · rcases s2 with e | e <;> rcases c2 with e1 | e1 <;> omega

theorem run_clock_invariant (api : SdrplayApi) (a0 : AgcGtw) (rsp0 : Rsp) (m : Nat)
    (hm : 1 ≤ m) (hmax : (m : Int) ≤ 2147483647) (hspm : a0.samples_per_millis = (m : Int)) :
    ∀ l : List Sample,
      (agc_run api ⟨a0.start, rsp0, [], false⟩ l).agc.samples_per_millis = (m : Int) ∧
      (-2147483648 ≤ (agc_run api ⟨a0.start, rsp0, [], false⟩ l).agc.millis_since_last_agc_check ∧
        (agc_run api ⟨a0.start, rsp0, [], false⟩ l).agc.millis_since_last_agc_check
          ≤ 2147483647) ∧
      (-2147483648
          ≤ (agc_run api ⟨a0.start, rsp0, [], false⟩ l).agc.millis_since_last_gain_change ∧
        (agc_run api ⟨a0.start, rsp0, [], false⟩ l).agc.millis_since_last_gain_change
          ≤ 2147483647) ∧
      ∃ q r : Nat, l.length = q * m + r ∧ r < m ∧
        ((agc_run api ⟨a0.start, rsp0, [], false⟩ l).thrown = false →
          (agc_run api ⟨a0.start, rsp0, [], false⟩ l).agc.samples_left = (m : Int) - (r : Int)) ∧
        ((agc_run api ⟨a0.start, rsp0, [], false⟩ l).calls = [] →
          (agc_run api ⟨a0.start, rsp0, [], false⟩ l).thrown = false ∧
          (agc_run api ⟨a0.start, rsp0, [], false⟩ l).agc.millis_since_last_gain_change
            = toInt32 (q : Int)) := by
  intro l
  induction l using List.reverseRecOn with
  | nil =>
    refine ⟨?_, ?_, ?_, 0, 0, by simp, by omega, ?_, ?_⟩
    · simp [agc_run, AgcGtw.start, hspm]
    · simp [agc_run, AgcGtw.start]
    · simp [agc_run, AgcGtw.start]
    · intro _; simp [agc_run, AgcGtw.start, hspm]
    · intro _
      refine ⟨rfl, ?_⟩
      show (0 : Int) = toInt32 ((0 : Nat) : Int)
      decide
  | append_singleton l s ih =>
    rw [agc_run_append]
    generalize agc_run api ⟨a0.start, rsp0, [], false⟩ l = st at ih ⊢
    obtain ⟨hs, hk1, hk2, q, r, hlen, hr, hleft, hquiet⟩ := ih
    have hsucc : (q + 1) * m = q * m + m := Nat.succ_mul q m
    by_cases hth : st.thrown = true
    · rw [agc_consume_thrown api st s hth]
      refine ⟨hs, hk1, hk2, ?_⟩
      by_cases hr1 : r + 1 < m
      · refine ⟨q, r + 1, by simp [hlen]; omega, hr1, fun h => ?_, fun h => ?_⟩
        · rw [hth] at h; exact absurd h (by simp)
        · have := (hquiet h).1; rw [hth] at this; exact absurd this (by simp)
      · refine ⟨q + 1, 0, by simp [hlen]; omega, by omega, fun h => ?_, fun h => ?_⟩
        · rw [hth] at h; exact absurd h (by simp)
        · have := (hquiet h).1; rw [hth] at this; exact absurd this (by simp)
    · have hth : st.thrown = false := by simpa using hth
      rw [agc_consume_live api st s hth]
      obtain ⟨_, g2, g3, _⟩ := AgcGtw.agc_sample_frame api st.agc st.rsp s
      obtain ⟨b1, b2⟩ := agc_sample_counters_range api st.agc st.rsp s hk1 hk2
      have hl := hleft hth
      refine ⟨g2.trans hs, b1, b2, ?_⟩
      by_cases hr1 : r + 1 < m
      · obtain ⟨c1, _, c3⟩ := AgcGtw.clock_no_tick st.agc (by omega) (by omega)
        refine ⟨q, r + 1, by simp [hlen]; omega, hr1, fun _ => ?_, fun h => ?_⟩
        · simp only; rw [g3, c1, hl]; push_cast; omega
        · simp only at h
          obtain ⟨hc, hn⟩ := List.append_eq_nil.mp h
          obtain ⟨n1, _, n3⟩ := agc_sample_no_call api st.agc st.rsp s hn
          refine ⟨by simp [n1], ?_⟩
          simp only; rw [n3, c3, (hquiet hc).2]
      · obtain ⟨c1, _, c3⟩ := AgcGtw.clock_tick st.agc (by omega)
        refine ⟨q + 1, 0, by simp [hlen]; omega, by omega, fun _ => ?_, fun h => ?_⟩
        · simp only; rw [g3, c1, hs]; simp
        · simp only at h
          obtain ⟨hc, hn⟩ := List.append_eq_nil.mp h
          obtain ⟨n1, _, n3⟩ := agc_sample_no_call api st.agc st.rsp s hn
          refine ⟨by simp [n1], ?_⟩
          simp only; rw [n3, c3, (hquiet hc).2, toInt32_succ]; push_cast; rfl

theorem dvd_sample_number (m q r : Nat) (hr : r < m) : m ∣ q * m + r + 1 ↔ r + 1 = m := by
  constructor
  · intro h
    have h1 : m ∣ r + 1 := by
      have h2 : q * m + r + 1 = q * m + (r + 1) := by omega
      rw [h2] at h
      exact (Nat.dvd_add_right (Nat.dvd_mul_left m q)).mp h
    have := Nat.le_of_dvd (by omega) h1
    omega
  · intro h
    have h2 : q * m + r + 1 = (q + 1) * m := by rw [Nat.succ_mul]; omega
    rw [h2]
    exact Nat.dvd_mul_left m (q + 1)

theorem div_of_decomposition (m q r : Nat) (hr : r < m) : (q * m + r) / m = q := by
  have hm : 0 < m := by omega
  rw [Nat.add_comm, Nat.add_mul_div_right _ _ hm, Nat.div_eq_of_lt hr, Nat.zero_add]

/-- The millisecond clock within the range of `int`: from the state set by
`start()` with `samples_per_millis = m >= 1`, after the loop has consumed the
samples `l` (and is still running) the clock update of the next consumed
sample, number `l.length + 1`, adds one to `millis_since_last_agc_check` and
to `millis_since_last_gain_change` if `m` divides that number, provided the
counter is below `INT_MAX`, and nothing otherwise; if no gain change was
issued while consuming `l` then `millis_since_last_gain_change` is
`l.length / m` reduced to the range of `int`, which is `l.length / m` when
that is at most `INT_MAX`. -/
theorem agc_millisecond_clock (api : SdrplayApi) (a0 : AgcGtw) (rsp0 : Rsp) (m : Nat)
    (hm : 1 ≤ m) (hmax : (m : Int) ≤ 2147483647) (hspm : a0.samples_per_millis = (m : Int))
    (l : List Sample) :
    ((agc_run api ⟨a0.start, rsp0, [], false⟩ l).thrown = false →
      ((m ∣ l.length + 1 → (agc_run api ⟨a0.start, rsp0, [], false⟩ l).agc.millis_since_last_agc_check < 2147483647) →
        (agc_run api ⟨a0.start, rsp0, [], false⟩ l).agc.clock.millis_since_last_agc_check
          = (agc_run api ⟨a0.start, rsp0, [], false⟩ l).agc.millis_since_last_agc_check + (if m ∣ l.length + 1 then 1 else 0)) ∧
      ((m ∣ l.length + 1 → (agc_run api ⟨a0.start, rsp0, [], false⟩ l).agc.millis_since_last_gain_change < 2147483647) →
        (agc_run api ⟨a0.start, rsp0, [], false⟩ l).agc.clock.millis_since_last_gain_change
          = (agc_run api ⟨a0.start, rsp0, [], false⟩ l).agc.millis_since_last_gain_change + (if m ∣ l.length + 1 then 1 else 0))) ∧
    ((agc_run api ⟨a0.start, rsp0, [], false⟩ l).calls = [] →
      (agc_run api ⟨a0.start, rsp0, [], false⟩ l).agc.millis_since_last_gain_change = toInt32 ((l.length / m : Nat) : Int)) ∧
    ((agc_run api ⟨a0.start, rsp0, [], false⟩ l).calls = [] → ((l.length / m : Nat) : Int) ≤ 2147483647 →
      (agc_run api ⟨a0.start, rsp0, [], false⟩ l).agc.millis_since_last_gain_change = ((l.length / m : Nat) : Int)) := by
  obtain ⟨_, hk1, hk2, q, r, hlen, hr, hleft, hquiet⟩ :=
    run_clock_invariant api a0 rsp0 m hm hmax hspm l
  generalize agc_run api ⟨a0.start, rsp0, [], false⟩ l = st at *
  refine ⟨fun hth => ?_, fun hc => ?_, fun hc hb => ?_⟩
  · have hl := hleft hth
    rw [hlen]
    by_cases hr1 : r + 1 = m
    · obtain ⟨_, c2, c3⟩ := AgcGtw.clock_tick st.agc (by omega)
      have hd := (dvd_sample_number m q r hr).mpr hr1
      rw [if_pos hd, c2, c3]
      exact ⟨fun h => toInt32_of_range (by omega) (by have := h hd; omega),
        fun h => toInt32_of_range (by omega) (by have := h hd; omega)⟩
    · obtain ⟨_, c2, c3⟩ := AgcGtw.clock_no_tick st.agc (by omega) (by omega)
      rw [if_neg (fun h => hr1 ((dvd_sample_number m q r hr).mp h)), c2, c3]
      simp
  · rw [(hquiet hc).2, hlen, div_of_decomposition m q r hr]
  · rw [hlen, div_of_decomposition m q r hr] at hb
    rw [(hquiet hc).2, hlen, div_of_decomposition m q r hr]
    exact toInt32_of_range (by omega) hb

theorem run_before_first_decision (api : SdrplayApi) (a0 : AgcGtw) (rsp0 : Rsp) (m A : Nat)
    (hm : 1 ≤ m) (hmax : (m : Int) ≤ 2147483647) (hspm : a0.samples_per_millis = (m : Int))
    (hA : a0.agc3_min_time_ms = (A : Int)) (hA2 : (A : Int) < 2147483647) :
    ∀ l : List Sample, l.length < (A + 1) * m →
      (agc_run api ⟨a0.start, rsp0, [], false⟩ l).thrown = false ∧
      (agc_run api ⟨a0.start, rsp0, [], false⟩ l).calls = [] ∧
      (agc_run api ⟨a0.start, rsp0, [], false⟩ l).rsp = rsp0 ∧
      (agc_run api ⟨a0.start, rsp0, [], false⟩ l).agc.samples_per_millis = (m : Int) ∧
      (agc_run api ⟨a0.start, rsp0, [], false⟩ l).agc.agc3_min_time_ms = (A : Int) ∧
      (agc_run api ⟨a0.start, rsp0, [], false⟩ l).agc.gain_reduction = a0.gain_reduction ∧
      ∃ q r : Nat, l.length = q * m + r ∧ r < m ∧
        (agc_run api ⟨a0.start, rsp0, [], false⟩ l).agc.samples_left = (m : Int) - (r : Int) ∧
        (agc_run api ⟨a0.start, rsp0, [], false⟩ l).agc.millis_since_last_agc_check
          = (q : Int) := by
  intro l
  induction l using List.reverseRecOn with
  | nil =>
    intro _
    refine ⟨rfl, rfl, rfl, ?_, ?_, ?_, 0, 0, by simp, by omega, ?_, ?_⟩
    · simp [agc_run, AgcGtw.start, hspm]
    · simp [agc_run, AgcGtw.start, hA]
    · simp [agc_run, AgcGtw.start]
    · simp [agc_run, AgcGtw.start, hspm]
    · simp [agc_run, AgcGtw.start]
  | append_singleton l s ih =>
    intro hlt
    rw [List.length_append, List.length_singleton] at hlt
    rw [agc_run_append]
    generalize agc_run api ⟨a0.start, rsp0, [], false⟩ l = st at ih ⊢
    obtain ⟨hth, hcalls, hrsp, hs, h3, hgain, q, r, hlen, hr, hleft, hcheck⟩ := ih (by omega)
    have hsucc : (q + 1) * m = q * m + m := Nat.succ_mul q m
    rw [agc_consume_live api st s hth]
    obtain ⟨f1, f2, f3, f4, _, f6, _⟩ := AgcGtw.accumulated_frame st.agc s
    have f1a := (AgcGtw.config_fields f1).1
    have hq : q < A + 1 := by
      by_contra hge
      have : (A + 1) * m ≤ q * m := Nat.mul_le_mul_right m (by omega)
      omega
    by_cases hr1 : r + 1 < m
    · obtain ⟨c1, c2, _⟩ := AgcGtw.clock_no_tick st.agc (by omega) (by omega)
      have hnd : ¬ ((st.agc.clock).accumulate s).decision_due := by
        unfold AgcGtw.decision_due
        rw [f6, c2, f1a, h3, hcheck]; omega
      rw [AgcGtw.agc_sample_gated api st.agc st.rsp s hnd]
      refine ⟨by simp, by simpa using hcalls, hrsp, f3.trans hs, f1a.trans h3, f2.trans hgain,
        q, r + 1, by simp [hlen]; omega, hr1, ?_, ?_⟩
      · simp only; rw [f4, c1, hleft]; push_cast; omega
      · simp only; rw [f6, c2, hcheck]
    · obtain ⟨c1, c2, _⟩ := AgcGtw.clock_tick st.agc (by omega)
      rw [hcheck, toInt32_natCast_succ (by omega)] at c2
      have hq1 : q + 1 < A + 1 := by
        by_contra hge
        have : (A + 1) * m ≤ (q + 1) * m := Nat.mul_le_mul_right m (by omega)
        omega
      have hnd : ¬ ((st.agc.clock).accumulate s).decision_due := by
        unfold AgcGtw.decision_due
        rw [f6, c2, f1a, h3]; omega
      rw [AgcGtw.agc_sample_gated api st.agc st.rsp s hnd]
      refine ⟨by simp, by simpa using hcalls, hrsp, f3.trans hs, f1a.trans h3, f2.trans hgain,
        q + 1, 0, by simp [hlen]; omega, by omega, ?_, ?_⟩
      · simp only; rw [f4, c1, hs]; simp
      · simp only; rw [f6, c2]; push_cast; rfl

theorem first_decision_sample (api : SdrplayApi) (a0 : AgcGtw) (rsp0 : Rsp) (m A : Nat)
    (hm : 1 ≤ m) (hmax : (m : Int) ≤ 2147483647) (hspm : a0.samples_per_millis = (m : Int))
    (hA : a0.agc3_min_time_ms = (A : Int)) (hA2 : (A : Int) < 2147483647) (l : List Sample)
    (s : Sample) :
    (l.length + 1 < (A + 1) * m →
      ¬ (((agc_run api ⟨a0.start, rsp0, [], false⟩ l).agc.clock).accumulate s).decision_due) ∧
    (l.length + 1 = (A + 1) * m →
      (((agc_run api ⟨a0.start, rsp0, [], false⟩ l).agc.clock).accumulate s).decision_due) := by
  have key : l.length < (A + 1) * m →
      ((((agc_run api ⟨a0.start, rsp0, [], false⟩ l).agc.clock).accumulate s).decision_due ↔
        l.length + 1 = (A + 1) * m) := by
    intro hlt
    obtain ⟨_, _, _, hs, h3, _, q, r, hlen, hr, hleft, hcheck⟩ :=
      run_before_first_decision api a0 rsp0 m A hm hmax hspm hA hA2 l hlt
    generalize agc_run api ⟨a0.start, rsp0, [], false⟩ l = st at *
    obtain ⟨f1, _, _, _, _, f6, _⟩ := AgcGtw.accumulated_frame st.agc s
    have f1a := (AgcGtw.config_fields f1).1
    have hsucc : (q + 1) * m = q * m + m := Nat.succ_mul q m
    have hq : q < A + 1 := by
      by_contra hge
      have : (A + 1) * m ≤ q * m := Nat.mul_le_mul_right m (by omega)
      omega
    unfold AgcGtw.decision_due
    by_cases hr1 : r + 1 < m
    · obtain ⟨_, c2, _⟩ := AgcGtw.clock_no_tick st.agc (by omega) (by omega)
      rw [f6, c2, f1a, h3, hcheck]
      have hne : l.length + 1 ≠ (A + 1) * m := by
        intro he
        have : (q + 1) * m ≤ (A + 1) * m := Nat.mul_le_mul_right m (by omega)
        omega
      constructor
      · intro h; omega
      · intro h; exact absurd h hne
    · obtain ⟨_, c2, _⟩ := AgcGtw.clock_tick st.agc (by omega)
      rw [hcheck, toInt32_natCast_succ (by omega)] at c2
      rw [f6, c2, f1a, h3]
      constructor
      · intro h
        have hqA : q = A := by omega
        subst hqA
        rw [hlen]; omega
      · intro h
        have hqA : q = A := by
          by_contra hne
          have : (q + 1 + 1) * m ≤ (A + 1) * m := Nat.mul_le_mul_right m (by omega)
          have h2 : (q + 1 + 1) * m = (q + 1) * m + m := Nat.succ_mul (q + 1) m
          omega
        omega
  refine ⟨fun h => ?_, fun h => ?_⟩
  · intro hd
    have := (key (by omega)).mp hd
    omega
  · exact (key (by omega)).mpr h

theorem start_frame (a : AgcGtw) :
    a.start.config = a.config ∧ a.start.gain_reduction = a.gain_reduction ∧
    a.start.samples_per_millis = a.samples_per_millis ∧
    a.start.samples_left = a.samples_per_millis ∧
    a.start.millis_since_last_agc_check = 0 ∧ a.start.millis_since_last_gain_change = 0 ∧
    a.start.max_iq2 = 0 ∧ a.start.millis_iq_above_threshold = 0 := by
  unfold AgcGtw.start AgcGtw.config
  simp

theorem decide_gain_in_range (a : AgcGtw)
    (h1 : a.min_gain_reduction ≤ a.gain_reduction) (h2 : a.gain_reduction ≤ a.max_gain_reduction)
    (hinc : 0 ≤ a.gainstep_inc) (hdec : 0 ≤ a.gainstep_dec)
    (hhi : a.gain_reduction + a.gainstep_inc ≤ 2147483647)
    (hlo : -2147483648 ≤ a.gain_reduction - a.gainstep_dec) :
    a.min_gain_reduction ≤ a.decide_gain.gain_reduction ∧
    a.decide_gain.gain_reduction ≤ a.max_gain_reduction := by
  by_cases ha : a.attack_cond
  · rw [AgcGtw.decide_gain_attack a ha, toInt32_of_range (by omega) (by omega)]; omega
  · by_cases hd : a.decay_cond
    · rw [AgcGtw.decide_gain_decay a ha hd, toInt32_of_range (by omega) (by omega)]; omega
    · rw [AgcGtw.decide_gain_none a ha hd]; exact ⟨h1, h2⟩

theorem agc_sample_in_range (api : SdrplayApi) (a : AgcGtw) (rsp : Rsp) (s : Sample)
    (h1 : a.min_gain_reduction ≤ a.gain_reduction) (h2 : a.gain_reduction ≤ a.max_gain_reduction)
    (hinc : 0 ≤ a.gainstep_inc) (hdec : 0 ≤ a.gainstep_dec)
    (hhi : a.gain_reduction + a.gainstep_inc ≤ 2147483647)
    (hlo : -2147483648 ≤ a.gain_reduction - a.gainstep_dec) :
    a.min_gain_reduction ≤ (a.agc_sample api rsp s).agc.gain_reduction ∧
    (a.agc_sample api rsp s).agc.gain_reduction ≤ a.max_gain_reduction := by
  obtain ⟨f1, f2, _⟩ := AgcGtw.accumulated_frame a s
  obtain ⟨_, k2, k3, k4, k5, _⟩ := AgcGtw.config_fields f1
  obtain ⟨g1, g2⟩ := AgcGtw.agc_sample_gain api a rsp s
  by_cases hd : ((a.clock).accumulate s).decision_due
  · rw [g2 hd]
    have := decide_gain_in_range ((a.clock).accumulate s) (by rw [k2, f2]; exact h1)
      (by rw [k3, f2]; exact h2) (by rw [k5]; exact hinc) (by rw [k4]; exact hdec)
      (by rw [f2, k5]; exact hhi) (by rw [f2, k4]; exact hlo)
    rw [k2, k3] at this
    exact this
  · rw [g1 hd]; exact ⟨h1, h2⟩

theorem run_gain_in_range (api : SdrplayApi) (st0 : AgcRun)
    (h1 : st0.agc.min_gain_reduction ≤ st0.agc.gain_reduction)
    (h2 : st0.agc.gain_reduction ≤ st0.agc.max_gain_reduction)
    (hinc : 0 ≤ st0.agc.gainstep_inc) (hdec : 0 ≤ st0.agc.gainstep_dec)
    (hhi : st0.agc.max_gain_reduction + st0.agc.gainstep_inc ≤ 2147483647)
    (hlo : -2147483648 ≤ st0.agc.min_gain_reduction - st0.agc.gainstep_dec) :
    ∀ l : List Sample,
      (agc_run api st0 l).agc.config = st0.agc.config ∧
      st0.agc.min_gain_reduction ≤ (agc_run api st0 l).agc.gain_reduction ∧
      (agc_run api st0 l).agc.gain_reduction ≤ st0.agc.max_gain_reduction := by
  intro l
  induction l using List.reverseRecOn with
  | nil => exact ⟨rfl, h1, h2⟩
  | append_singleton l s ih =>
    rw [agc_run_append]
    generalize agc_run api st0 l = st at ih ⊢
    obtain ⟨hc, i1, i2⟩ := ih
    obtain ⟨_, k2, k3, k4, k5, _⟩ := AgcGtw.config_fields hc
    by_cases hth : st.thrown = true
    · rw [agc_consume_thrown api st s hth]; exact ⟨hc, i1, i2⟩
    · have hth : st.thrown = false := by simpa using hth
      rw [agc_consume_live api st s hth]
      have hr := agc_sample_in_range api st.agc st.rsp s (by rw [k2]; exact i1)
        (by rw [k3]; exact i2) (by rw [k5]; exact hinc) (by rw [k4]; exact hdec)
        (by rw [k5]; omega) (by rw [k4]; omega)
      rw [k2, k3] at hr
      exact ⟨(AgcGtw.agc_sample_frame api st.agc st.rsp s).1.trans hc, hr.1, hr.2⟩

/-- C6 (amended): at a decision tick where the attack condition holds and the
sum `old + gainstep_inc` lies in the range of `int`, `gain_reduction` becomes
`min max_gain_reduction (old + gainstep_inc)`; if that
value differs from the source's current gain reduction exactly one call
`setIFGainReduction(value, true)` is made, and `millis_since_last_gain_change`
is reset to 0 whenever that call returns without throwing, which it does when
the value is within the bounds the source accepts and the hardware update
succeeds; if the value equals the source's current gain reduction no call is
made. -/
theorem agc_attack (api : SdrplayApi) (a : AgcGtw) (rsp : Rsp) (s : Sample)
    (hdue : ((a.clock).accumulate s).decision_due)
    (hatt : ((a.clock).accumulate s).attack_cond)
    (hlo : -2147483648 ≤ a.gain_reduction + a.gainstep_inc)
    (hhi : a.gain_reduction + a.gainstep_inc ≤ 2147483647) :
    (a.agc_sample api rsp s).agc.gain_reduction
      = min a.max_gain_reduction (a.gain_reduction + a.gainstep_inc) ∧
    (min a.max_gain_reduction (a.gain_reduction + a.gainstep_inc) ≠ rsp.getIFGainReduction →
      (a.agc_sample api rsp s).calls
        = [⟨min a.max_gain_reduction (a.gain_reduction + a.gainstep_inc), true⟩] ∧
      ((Rsp.setIFGainReduction api rsp
          (min a.max_gain_reduction (a.gain_reduction + a.gainstep_inc)) true).thrown = none →
        (a.agc_sample api rsp s).agc.millis_since_last_gain_change = 0) ∧
      (api.sdrplay_api_NORMAL_MIN_GR
          ≤ min a.max_gain_reduction (a.gain_reduction + a.gainstep_inc) →
        min a.max_gain_reduction (a.gain_reduction + a.gainstep_inc) ≤ api.MAX_BB_GR →
        api.update_ok rsp.updates = true →
        (a.agc_sample api rsp s).agc.millis_since_last_gain_change = 0)) ∧
    (min a.max_gain_reduction (a.gain_reduction + a.gainstep_inc) = rsp.getIFGainReduction →
      (a.agc_sample api rsp s).calls = []) := by
  obtain ⟨f1, f2, _⟩ := AgcGtw.accumulated_frame a s
  obtain ⟨_, _, k3, _, k5, _⟩ := AgcGtw.config_fields f1
  have hdg := AgcGtw.decide_gain_attack _ hatt
  rw [f2, k3, k5, toInt32_of_range hlo hhi] at hdg
  refine ⟨by rw [(AgcGtw.agc_sample_gain api a rsp s).2 hdue, hdg], fun hne => ?_, fun he => ?_⟩
  · obtain ⟨c1, _, c3, _⟩ := AgcGtw.agc_sample_change api a rsp s hdue (by rw [hdg]; exact hne)
    rw [hdg] at c1 c3
    have key : (Rsp.setIFGainReduction api rsp
        (min a.max_gain_reduction (a.gain_reduction + a.gainstep_inc)) true).thrown = none →
        (a.agc_sample api rsp s).agc.millis_since_last_gain_change = 0 := by
      intro ht
      rw [(c3 ht).2]
    exact ⟨c1, key, fun h1 h2 h3 => key (setIFGainReduction_returns api rsp _ true h1 h2 h3)⟩
  · rw [AgcGtw.agc_sample_same api a rsp s hdue (by rw [hdg]; exact he)]

/-- C9 (amended): at a decision tick, if both the attack and the decay condition
hold the attack step is applied and the decay step is not: `gain_reduction`
becomes `min max_gain_reduction` of the `int` sum `old + gainstep_inc`, which
is `min max_gain_reduction (old + gainstep_inc)` when `old + gainstep_inc`
lies in the range of `int`; if neither holds `gain_reduction` is unchanged. -/
theorem agc_tie_break (api : SdrplayApi) (a : AgcGtw) (rsp : Rsp) (s : Sample)
    (hdue : ((a.clock).accumulate s).decision_due) :
    (((a.clock).accumulate s).attack_cond → ((a.clock).accumulate s).decay_cond →
      (a.agc_sample api rsp s).agc.gain_reduction
        = min a.max_gain_reduction (toInt32 (a.gain_reduction + a.gainstep_inc))) ∧
    (((a.clock).accumulate s).attack_cond → ((a.clock).accumulate s).decay_cond →
      -2147483648 ≤ a.gain_reduction + a.gainstep_inc →
      a.gain_reduction + a.gainstep_inc ≤ 2147483647 →
      (a.agc_sample api rsp s).agc.gain_reduction
        = min a.max_gain_reduction (a.gain_reduction + a.gainstep_inc)) ∧
    (¬ ((a.clock).accumulate s).attack_cond → ¬ ((a.clock).accumulate s).decay_cond →
      (a.agc_sample api rsp s).agc.gain_reduction = a.gain_reduction) := by
  obtain ⟨f1, f2, _⟩ := AgcGtw.accumulated_frame a s
  obtain ⟨_, _, k3, _, k5, _⟩ := AgcGtw.config_fields f1
  refine ⟨fun hatt _ => ?_, fun hatt _ hlo hhi => ?_, fun h1 h2 => ?_⟩
  · rw [(AgcGtw.agc_sample_gain api a rsp s).2 hdue, AgcGtw.decide_gain_attack _ hatt, f2, k3, k5]
  · rw [(AgcGtw.agc_sample_gain api a rsp s).2 hdue, AgcGtw.decide_gain_attack _ hatt, f2, k3, k5,
      toInt32_of_range hlo hhi]
  · rw [(AgcGtw.agc_sample_gain api a rsp s).2 hdue, AgcGtw.decide_gain_none _ h1 h2, f2]

/-- C5 (amended): if the source's gain reduction read by `setup()` lies within
`[min_gain_reduction, max_gain_reduction]`, both step sizes are non-negative
and `max_gain_reduction + gainstep_inc` and `min_gain_reduction - gainstep_dec`
lie in the range of `int`, then after `setup()`, `start()` and any stream of consumed
samples `gain_reduction` lies within `[min_gain_reduction,
max_gain_reduction]`. -/
theorem agc_gain_stays_in_range (api : SdrplayApi) (cfg : AgcGtwConfig) (verbose : Int)
    (uninit : AgcGtw) (rsp : Rsp) (m : Int) (samples : List Sample)
    (hlo : cfg.min_gain_reduction ≤ rsp.getIFGainReduction)
    (hhi : rsp.getIFGainReduction ≤ cfg.max_gain_reduction)
    (hinc : 0 ≤ cfg.gainstep_inc) (hdec : 0 ≤ cfg.gainstep_dec)
    (hsi : cfg.max_gain_reduction + cfg.gainstep_inc ≤ 2147483647)
    (hsd : -2147483648 ≤ cfg.min_gain_reduction - cfg.gainstep_dec) :
    cfg.min_gain_reduction
      ≤ (agc_run api ⟨((AgcGtw.ctor cfg verbose uninit).setup rsp m).start, rsp, [], false⟩
          samples).agc.gain_reduction ∧
    (agc_run api ⟨((AgcGtw.ctor cfg verbose uninit).setup rsp m).start, rsp, [], false⟩
        samples).agc.gain_reduction ≤ cfg.max_gain_reduction ∧
    (agc_run api ⟨((AgcGtw.ctor cfg verbose uninit).setup rsp m).start, rsp, [], false⟩
        samples).agc.min_gain_reduction = cfg.min_gain_reduction ∧
    (agc_run api ⟨((AgcGtw.ctor cfg verbose uninit).setup rsp m).start, rsp, [], false⟩
        samples).agc.max_gain_reduction = cfg.max_gain_reduction := by
  obtain ⟨h1, h2, h3⟩ := run_gain_in_range api
    ⟨((AgcGtw.ctor cfg verbose uninit).setup rsp m).start, rsp, [], false⟩ hlo hhi hinc hdec hsi hsd samples
  obtain ⟨_, k2, k3, _⟩ := AgcGtw.config_fields h1
  exact ⟨h2, h3, k2, k3⟩

/-- C8 (amended): if after the clock update `millis_since_last_agc_check <=
agc3_min_time_ms`, the sample leaves `gain_reduction` and the source unchanged,
issues no call and keeps the window accumulators; otherwise
`millis_since_last_agc_check`, `max_iq2` and `millis_iq_above_threshold` are 0
afterwards.  From `start()` with `samples_per_millis = m >= 1` and
`0 <= agc3_min_time_ms < INT_MAX`, no decision fires on a sample whose number
is below `(agc3_min_time_ms + 1) * m` and one fires on the sample with that
number. -/
theorem agc_decision_gating (api : SdrplayApi) :
    (∀ (a : AgcGtw) (rsp : Rsp) (s : Sample),
      (¬ ((a.clock).accumulate s).decision_due →
        (a.agc_sample api rsp s).agc.gain_reduction = a.gain_reduction ∧
        (a.agc_sample api rsp s).calls = [] ∧
        (a.agc_sample api rsp s).rsp = rsp ∧
        (a.agc_sample api rsp s).agc.millis_since_last_agc_check
          = ((a.clock).accumulate s).millis_since_last_agc_check ∧
        (a.agc_sample api rsp s).agc.max_iq2 = ((a.clock).accumulate s).max_iq2 ∧
        (a.agc_sample api rsp s).agc.millis_iq_above_threshold
          = ((a.clock).accumulate s).millis_iq_above_threshold) ∧
      (((a.clock).accumulate s).decision_due →
        (a.agc_sample api rsp s).agc.millis_since_last_agc_check = 0 ∧
        (a.agc_sample api rsp s).agc.max_iq2 = 0 ∧
        (a.agc_sample api rsp s).agc.millis_iq_above_threshold = 0)) ∧
    (∀ (a0 : AgcGtw) (rsp0 : Rsp) (m : Nat) (l : List Sample) (s : Sample),
      1 ≤ m → (m : Int) ≤ 2147483647 → a0.samples_per_millis = (m : Int) →
      0 ≤ a0.agc3_min_time_ms → a0.agc3_min_time_ms < 2147483647 →
      (((l.length + 1 : Nat) : Int) < (a0.agc3_min_time_ms + 1) * (m : Int) →
        ¬ (((agc_run api ⟨a0.start, rsp0, [], false⟩ l).agc.clock).accumulate s).decision_due) ∧
      (((l.length + 1 : Nat) : Int) = (a0.agc3_min_time_ms + 1) * (m : Int) →
        (((agc_run api ⟨a0.start, rsp0, [], false⟩ l).agc.clock).accumulate s).decision_due)) := by
  refine ⟨fun a rsp s => ⟨fun hnd => ?_, fun hd => AgcGtw.agc_sample_window api a rsp s hd⟩,
    fun a0 rsp0 m l s hm hmax hspm h3 h3b => ?_⟩
  · rw [AgcGtw.agc_sample_gated api a rsp s hnd]
    exact ⟨(AgcGtw.accumulated_frame a s).2.1, rfl, rfl, rfl, rfl, rfl⟩
  · obtain ⟨A, hA⟩ := Int.eq_ofNat_of_zero_le h3
    obtain ⟨p1, p2⟩ := first_decision_sample api a0 rsp0 m A hm hmax hspm hA (by omega) l s
    rw [hA]
    constructor
    · intro h; apply p1; exact_mod_cast h
    · intro h; apply p2; exact_mod_cast h

theorem pinned_step (api : SdrplayApi) (a : AgcGtw) (rsp : Rsp) (s : Sample)
    (hquiet : ¬ AgcGtw.iq2 s > a.iq2_increase_threshold)
    (habove : a.millis_iq_above_threshold = 0) (h4 : 0 ≤ a.agc4_a)
    (hgain : a.gain_reduction = rsp.getIFGainReduction)
    (hpin : max a.min_gain_reduction (toInt32 (a.gain_reduction - a.gainstep_dec))
      = a.gain_reduction) :
    (a.agc_sample api rsp s).calls = [] ∧ (a.agc_sample api rsp s).flow = Flow.next ∧
    (a.agc_sample api rsp s).rsp = rsp ∧
    (a.agc_sample api rsp s).agc.gain_reduction = a.gain_reduction ∧
    (a.agc_sample api rsp s).agc.millis_iq_above_threshold = 0 := by
  obtain ⟨_, _, _, c4, _, c6⟩ := AgcGtw.clock_frame a
  obtain ⟨f1, f2, _, _, _, _, _⟩ := AgcGtw.accumulated_frame a s
  obtain ⟨_, k2, _, k4, _, k6, _, _⟩ := AgcGtw.config_fields f1
  have hab : ((a.clock).accumulate s).millis_iq_above_threshold = 0 := by
    rw [AgcGtw.accumulate_quiet a.clock s (by rw [c4]; exact hquiet), c6, habove]
  have hna : ¬ ((a.clock).accumulate s).attack_cond := by
    unfold AgcGtw.attack_cond
    rw [hab, k6]; omega
  by_cases hd : ((a.clock).accumulate s).decision_due
  · have hg : (((a.clock).accumulate s).decide_gain).gain_reduction
        = rsp.getIFGainReduction := by
      by_cases hdc : ((a.clock).accumulate s).decay_cond
      · rw [AgcGtw.decide_gain_decay _ hna hdc, f2, k2, k4, hpin, hgain]
      · rw [AgcGtw.decide_gain_none _ hna hdc, f2, hgain]
    rw [AgcGtw.agc_sample_same api a rsp s hd hg]
    refine ⟨rfl, rfl, rfl, ?_, ?_⟩
    · show (((a.clock).accumulate s).decide_gain).window_reset.gain_reduction = _
      rw [(AgcGtw.window_reset_frame _).2.1, hg, hgain]
    · exact (AgcGtw.window_reset_frame _).2.2.2.2.2.2.2.2
  · rw [AgcGtw.agc_sample_gated api a rsp s hd]
    exact ⟨rfl, rfl, rfl, f2, hab⟩

theorem pinned_run (api : SdrplayApi) (a0 : AgcGtw) (rsp0 : Rsp)
    (habove : a0.millis_iq_above_threshold = 0) (h4 : 0 ≤ a0.agc4_a)
    (hgain : a0.gain_reduction = rsp0.getIFGainReduction)
    (hpin : max a0.min_gain_reduction (toInt32 (a0.gain_reduction - a0.gainstep_dec))
      = a0.gain_reduction) :
    ∀ l : List Sample, (∀ s ∈ l, ¬ AgcGtw.iq2 s > a0.iq2_increase_threshold) →
      (agc_run api ⟨a0, rsp0, [], false⟩ l).thrown = false ∧
      (agc_run api ⟨a0, rsp0, [], false⟩ l).calls = [] ∧
      (agc_run api ⟨a0, rsp0, [], false⟩ l).rsp = rsp0 ∧
      (agc_run api ⟨a0, rsp0, [], false⟩ l).agc.config = a0.config ∧
      (agc_run api ⟨a0, rsp0, [], false⟩ l).agc.iq2_increase_threshold
        = a0.iq2_increase_threshold ∧
      (agc_run api ⟨a0, rsp0, [], false⟩ l).agc.gain_reduction = a0.gain_reduction ∧
      (agc_run api ⟨a0, rsp0, [], false⟩ l).agc.millis_iq_above_threshold = 0 := by
  intro l
  induction l using List.reverseRecOn with
  | nil => intro _; exact ⟨rfl, rfl, rfl, rfl, rfl, rfl, habove⟩
  | append_singleton l s ih =>
    intro hq
    rw [agc_run_append]
    have ih1 := ih (fun x hx => hq x (by simp [hx]))
    have hqs := hq s (by simp)
    clear ih
    generalize agc_run api ⟨a0, rsp0, [], false⟩ l = st at ih1 ⊢
    obtain ⟨hth, hcalls, hrsp, hcfg, hthr, hg, hab⟩ := ih1
    obtain ⟨_, k2, _, k4, _, k6, _, _⟩ := AgcGtw.config_fields hcfg
    rw [agc_consume_live api st s hth]
    obtain ⟨p1, p2, p3, p4, p5⟩ := pinned_step api st.agc st.rsp s (by rw [hthr]; exact hqs) hab
      (by rw [k6]; exact h4) (by rw [hg, hrsp]; exact hgain) (by rw [k2, hg, k4]; exact hpin)
    obtain ⟨g1, _, _, g4⟩ := AgcGtw.agc_sample_frame api st.agc st.rsp s
    exact ⟨by simp [p2], by simp [hcalls, p1], p3.trans hrsp, g1.trans hcfg, g4.trans hthr,
      p4.trans hg, p5⟩

theorem patient_not_due (a : AgcGtw) (s : Sample) (h3 : 2147483647 ≤ a.agc3_min_time_ms)
    (hc : a.millis_since_last_agc_check ≤ 2147483647) :
    ¬ ((a.clock).accumulate s).decision_due := by
  obtain ⟨f1, _, _, _, _, f6, _⟩ := AgcGtw.accumulated_frame a s
  have f1a := (AgcGtw.config_fields f1).1
  have b := toInt32_bounds (a.millis_since_last_agc_check + 1)
  unfold AgcGtw.decision_due
  rw [f6, f1a]
  rcases (AgcGtw.clock_counters a).1 with e | e <;> rw [e] <;> omega

theorem patient_run (api : SdrplayApi) (a0 : AgcGtw) (rsp0 : Rsp)
    (h3 : 2147483647 ≤ a0.agc3_min_time_ms)
    (hc : a0.millis_since_last_agc_check ≤ 2147483647) :
    ∀ l : List Sample,
      (agc_run api ⟨a0, rsp0, [], false⟩ l).thrown = false ∧
      (agc_run api ⟨a0, rsp0, [], false⟩ l).calls = [] ∧
      (agc_run api ⟨a0, rsp0, [], false⟩ l).agc.agc3_min_time_ms = a0.agc3_min_time_ms ∧
      (agc_run api ⟨a0, rsp0, [], false⟩ l).agc.millis_since_last_agc_check ≤ 2147483647 := by
  intro l
  induction l using List.reverseRecOn with
  | nil => exact ⟨rfl, rfl, rfl, hc⟩
  | append_singleton l s ih =>
    rw [agc_run_append]
    generalize agc_run api ⟨a0, rsp0, [], false⟩ l = st at ih ⊢
    obtain ⟨hth, hcalls, h3s, hcs⟩ := ih
    rw [agc_consume_live api st s hth]
    have hnd := patient_not_due st.agc s (by rw [h3s]; exact h3) hcs
    rw [AgcGtw.agc_sample_gated api st.agc st.rsp s hnd]
    obtain ⟨f1, _, _, _, _, f6, _⟩ := AgcGtw.accumulated_frame st.agc s
    have b := toInt32_bounds (st.agc.millis_since_last_agc_check + 1)
    refine ⟨by simp, by simpa using hcalls, ((AgcGtw.config_fields f1).1).trans h3s, ?_⟩
    show ((st.agc.clock).accumulate s).millis_since_last_agc_check ≤ 2147483647
    rw [f6]
    rcases (AgcGtw.clock_counters st.agc).1 with e | e <;> rw [e] <;> omega

/-! ## The cursor after a gain change -/


theorem agc_sample_flow_calls (api : SdrplayApi) (a : AgcGtw) (rsp : Rsp) (s : Sample) :
    ((a.agc_sample api rsp s).flow = Flow.next → (a.agc_sample api rsp s).calls = []) ∧
    ((a.agc_sample api rsp s).flow ≠ Flow.next →
      ∃ c, (a.agc_sample api rsp s).calls = [c]) := by
  by_cases hd : ((a.clock).accumulate s).decision_due
  · by_cases hg : (((a.clock).accumulate s).decide_gain).gain_reduction = rsp.getIFGainReduction
    · rw [AgcGtw.agc_sample_same api a rsp s hd hg]
      exact ⟨fun _ => rfl, fun h => absurd rfl h⟩
    · obtain ⟨c1, _, c3, c4⟩ := AgcGtw.agc_sample_change api a rsp s hd hg
      refine ⟨fun h => ?_, fun _ => ⟨_, c1⟩⟩
      by_cases ht : (Rsp.setIFGainReduction api rsp
          (((a.clock).accumulate s).decide_gain).gain_reduction true).thrown = none
      · rw [(c3 ht).1] at h; exact absurd h (by decide)
      · rw [(c4 ht).1] at h; exact absurd h (by decide)
  · rw [AgcGtw.agc_sample_gated api a rsp s hd]
    exact ⟨fun _ => rfl, fun h => absurd rfl h⟩

theorem agc_for_spec (api : SdrplayApi) (rb : RingBuffer) (read_ptr : Nat) :
    ∀ (n i : Nat) (a : AgcGtw) (rsp : Rsp) (calls : List GainCall),
      ((agc_for api rb read_ptr n i a rsp calls).calls = calls ∧
        (agc_for api rb read_ptr n i a rsp calls).read_ptr = read_ptr ∧
        (agc_for api rb read_ptr n i a rsp calls).thrown = false) ∨
      (0 < n ∧ ∃ c, (agc_for api rb read_ptr n i a rsp calls).calls = calls ++ [c] ∧
        ((agc_for api rb read_ptr n i a rsp calls).thrown = false →
          (agc_for api rb read_ptr n i a rsp calls).read_ptr = rb.next_read_ptr none 0)) := by
  intro n
  induction n with
  | zero => intro i a rsp calls; left; exact ⟨rfl, rfl, rfl⟩
  | succ n ih =>
    intro i a rsp calls
    obtain ⟨f1, f2⟩ := agc_sample_flow_calls api a rsp (rb.elem (read_ptr + i))
    rw [agc_for]
    cases hf : (a.agc_sample api rsp (rb.elem (read_ptr + i))).flow with
    | next =>
      simp only
      rw [f1 hf, List.append_nil]
      rcases ih (i + 1) (a.agc_sample api rsp (rb.elem (read_ptr + i))).agc
          (a.agc_sample api rsp (rb.elem (read_ptr + i))).rsp calls with h | ⟨_, h⟩
      · left; exact h
      · right; exact ⟨Nat.succ_pos n, h⟩
    | brk =>
      simp only
      obtain ⟨c, hc⟩ := f2 (by rw [hf]; decide)
      right
      exact ⟨Nat.succ_pos n, c, by rw [hc], by simp⟩
    | thrown =>
      simp only
      obtain ⟨c, hc⟩ := f2 (by rw [hf]; decide)
      right
      exact ⟨Nat.succ_pos n, c, by rw [hc], by simp⟩

/-- Whenever a pass of the loop `while (run)` issues a gain change and goes on,
the cursor it carries into the next pass is the write index advanced by the
length of the span just read, which is not the write index. -/
theorem agc_iteration_after_gain_change (api : SdrplayApi) (a : AgcGtw) (rsp : Rsp)
    (rb : RingBuffer) (read_ptr : Nat) (r : IterResult)
    (h : agc_iteration api a rsp rb read_ptr = LoopStep.done r) (hth : r.thrown = false)
    (hcalls : r.calls ≠ []) (hmap : rb.Mapped) (hw : rb.write_idx < rb.size)
    (hr : read_ptr < rb.size) :
    r.rb.write_idx = rb.write_idx ∧ 0 < rb.read_size read_ptr ∧
    r.read_ptr = (rb.write_idx + rb.read_size read_ptr) % rb.size ∧
    r.read_ptr ≠ rb.write_idx := by
  have hlt : rb.read_size read_ptr < rb.size := by
    rw [read_size_eq rb read_ptr hmap hw hr]; exact Nat.mod_lt _ (by omega)
  have hadd : szAdd rb.write_idx (rb.read_size read_ptr) = rb.write_idx + rb.read_size read_ptr :=
    szAdd_of_lt (by unfold RingBuffer.Mapped sizeof_T at hmap; omega)
  unfold agc_iteration at h
  split at h
  · exact absurd h (by simp)
  · split at h
    · exact absurd h (by simp)
    · rename_i rb1 m hm
      unfold RingBuffer.next_read_max_size at hm
      split at hm
      · exact absurd hm (by simp)
      · simp only [Option.some.injEq, Prod.mk.injEq] at hm
        obtain ⟨hrb, hmm⟩ := hm
        subst hmm
        simp only at h
        by_cases hnt : (agc_for api rb1 read_ptr (rb.read_size read_ptr) 0 a rsp []).thrown = true
        · rw [if_pos hnt] at h
          simp only [LoopStep.done.injEq] at h
          rw [← h] at hth
          exact absurd hth (by simp)
        · rw [if_neg hnt] at h
          simp only [LoopStep.done.injEq] at h
          rw [← h] at hcalls ⊢
          simp only at hcalls ⊢
          rcases agc_for_spec api rb1 read_ptr (rb.read_size read_ptr) 0 a rsp [] with
            ⟨h1, _, _⟩ | ⟨hpos, c, _, h2⟩
          · exact absurd h1 hcalls
          · have hrp := h2 (by simpa using hnt)
            rw [hrp, ← hrb]
            simp only [RingBuffer.next_read_ptr]
            rw [hadd]
            refine ⟨trivial, hpos, rfl, ?_⟩
            have := @add_mod_ne_self rb.write_idx (rb.read_size read_ptr) rb.size hpos hlt
            rw [Nat.mod_eq_of_lt hw] at this
            exact this

/-! ## Scenarios -/

/-- C5 (as stated) fails: with `min_gain_reduction = 55` and a source at gain
reduction 50, `gain_reduction` is 50 after `setup()` and `start()` and still
after two consumed samples; with the increase step -100, the bounds 30 and 59
and a source at gain reduction 50, the first attack leaves `gain_reduction` at
-50; and with the increase step 2147483647 of option `-S 2147483647`, the same
bounds and source, the `int` sum `50 + 2147483647` of the first attack wraps
and `gain_reduction` is -2147483599. -/
theorem agc_gain_leaves_range :
    (high_min_config.min_gain_reduction = 55 ∧ high_min_config.max_gain_reduction = 59 ∧
      (started_agc high_min_config running_rsp 768).gain_reduction = 50 ∧
      (agc_run test_api ⟨started_agc high_min_config running_rsp 768, running_rsp, [], false⟩
        [(0, 0), (0, 0)]).agc.gain_reduction = 50) ∧
    (negative_inc_config.min_gain_reduction = 30 ∧ negative_inc_config.max_gain_reduction = 59 ∧
      negative_inc_config.gainstep_inc = -100 ∧
      (started_agc negative_inc_config running_rsp 1).gain_reduction = 50 ∧
      (agc_run test_api ⟨started_agc negative_inc_config running_rsp 1, running_rsp, [], false⟩
        [(1000, 1000)]).agc.gain_reduction = -50) ∧
    (huge_inc_config.min_gain_reduction = 30 ∧ huge_inc_config.max_gain_reduction = 59 ∧
      huge_inc_config.gainstep_inc = 2147483647 ∧ huge_inc_config.gainstep_dec = 1 ∧
      (started_agc huge_inc_config running_rsp 1).gain_reduction = 50 ∧
      (agc_run test_api ⟨started_agc huge_inc_config running_rsp 1, running_rsp, [], false⟩
        [(1000, 1000)]).agc.gain_reduction = -2147483599) := by
  decide

/-- C5 (amended) at `fast_config` with a source at gain reduction 50. -/
theorem agc_gain_stays_in_range_witness :
    (30 : Int) ≤ (agc_run test_api ⟨started_agc fast_config running_rsp 1, running_rsp, [], false⟩
      [(1000, 1000), (0, 0)]).agc.gain_reduction ∧
    (agc_run test_api ⟨started_agc fast_config running_rsp 1, running_rsp, [], false⟩
      [(1000, 1000), (0, 0)]).agc.gain_reduction ≤ 59 :=
  ⟨(agc_gain_stays_in_range test_api fast_config 0 blank_agc running_rsp 1 [(1000, 1000), (0, 0)]
      (by decide) (by decide) (by decide) (by decide) (by decide) (by decide)).1,
   (agc_gain_stays_in_range test_api fast_config 0 blank_agc running_rsp 1 [(1000, 1000), (0, 0)]
      (by decide) (by decide) (by decide) (by decide) (by decide) (by decide)).2.1⟩

/-- C6 (as stated) fails: at an attack tick whose new value differs from the
source's, the call is made but throws (the hardware update fails, or the value
60 exceeds the largest gain reduction the source accepts), and
`millis_since_last_gain_change` is left at 1; and at an attack tick with the
increase step 2147483647 and `gain_reduction = 50` the `int` sum wraps, so that
`gain_reduction` becomes -2147483599 and the call is made with that value,
while `min max_gain_reduction (old + gainstep_inc)` is 59. -/
theorem attack_call_throws_or_sum_wraps :
    (((fast_agc.clock).accumulate (1000, 1000)).decision_due ∧
      ((fast_agc.clock).accumulate (1000, 1000)).attack_cond ∧
      min fast_agc.max_gain_reduction (fast_agc.gain_reduction + fast_agc.gainstep_inc) = 51 ∧
      running_rsp.getIFGainReduction = 50 ∧
      (fast_agc.agc_sample failing_api running_rsp (1000, 1000)).calls = [⟨51, true⟩] ∧
      (fast_agc.agc_sample failing_api running_rsp (1000, 1000)).flow = Flow.thrown ∧
      (fast_agc.agc_sample failing_api running_rsp (1000, 1000)).agc.millis_since_last_gain_change
        = 1 ∧
      (((started_agc wide_config ceiling_rsp 1).clock).accumulate (1000, 1000)).decision_due ∧
      (((started_agc wide_config ceiling_rsp 1).clock).accumulate (1000, 1000)).attack_cond ∧
      ((started_agc wide_config ceiling_rsp 1).agc_sample test_api ceiling_rsp (1000, 1000)).calls
        = [⟨60, true⟩] ∧
      ((started_agc wide_config ceiling_rsp 1).agc_sample test_api ceiling_rsp (1000, 1000)).flow
        = Flow.thrown ∧
      ((started_agc wide_config ceiling_rsp 1).agc_sample test_api ceiling_rsp
        (1000, 1000)).agc.millis_since_last_gain_change = 1) ∧
    ((((started_agc huge_inc_config running_rsp 1).clock).accumulate (1000, 1000)).decision_due ∧
      (((started_agc huge_inc_config running_rsp 1).clock).accumulate (1000, 1000)).attack_cond ∧
      (started_agc huge_inc_config running_rsp 1).gain_reduction = 50 ∧
      (started_agc huge_inc_config running_rsp 1).gainstep_inc = 2147483647 ∧
      min (started_agc huge_inc_config running_rsp 1).max_gain_reduction
        ((started_agc huge_inc_config running_rsp 1).gain_reduction
          + (started_agc huge_inc_config running_rsp 1).gainstep_inc) = 59 ∧
      ((started_agc huge_inc_config running_rsp 1).agc_sample test_api running_rsp
        (1000, 1000)).agc.gain_reduction = -2147483599 ∧
      ((started_agc huge_inc_config running_rsp 1).agc_sample test_api running_rsp
        (1000, 1000)).calls = [⟨-2147483599, true⟩]) := by
  decide

/-- C6 (amended) at an attack tick of `fast_agc`: 50 becomes 51 with one call. -/
theorem agc_attack_witness :
    (fast_agc.agc_sample test_api running_rsp (1000, 1000)).agc.gain_reduction = 51 ∧
    (fast_agc.agc_sample test_api running_rsp (1000, 1000)).calls = [⟨51, true⟩] ∧
    (fast_agc.agc_sample test_api running_rsp (1000, 1000)).agc.millis_since_last_gain_change
      = 0 :=
  ⟨(agc_attack test_api fast_agc running_rsp (1000, 1000) (by decide) (by decide) (by decide)
      (by decide)).1,
   ((agc_attack test_api fast_agc running_rsp (1000, 1000) (by decide) (by decide) (by decide)
      (by decide)).2.1 (by decide)).1,
   ((agc_attack test_api fast_agc running_rsp (1000, 1000) (by decide) (by decide) (by decide)
      (by decide)).2.1 (by decide)).2.2 (by decide) (by decide) (by decide)⟩

/-- C8 (as stated) fails: with `agc3_min_time_ms = -1` and two samples per
millisecond a decision fires on the first sample, while
`(agc3_min_time_ms + 1) * m = 0`; and with `agc3_min_time_ms = 2147483647` and
768 samples per millisecond no decision fires on sample number
`(agc3_min_time_ms + 1) * m = 2147483648 * 768`. -/
theorem agc_first_decision_elsewhere :
    ((started_agc early_config running_rsp 2).samples_per_millis = 2 ∧
      ((started_agc early_config running_rsp 2).agc3_min_time_ms + 1) * 2 = 0 ∧
      (((started_agc early_config running_rsp 2).clock).accumulate (0, 0)).decision_due) ∧
    ((started_agc patient_config running_rsp 768).samples_per_millis = 768 ∧
      ((started_agc patient_config running_rsp 768).agc3_min_time_ms + 1) * 768
        = 2147483648 * 768 ∧
      (List.replicate (2147483648 * 768 - 1) ((0 : Int), (0 : Int))).length + 1
        = 2147483648 * 768) ∧
    ¬ (((agc_run test_api ⟨started_agc patient_config running_rsp 768, running_rsp, [], false⟩
        (List.replicate (2147483648 * 768 - 1) (0, 0))).agc.clock).accumulate
          (0, 0)).decision_due :=
  ⟨by decide,
   ⟨by decide, by decide, by rw [List.length_replicate]⟩,
   patient_not_due _ _
     (by
      rw [(patient_run test_api (started_agc patient_config running_rsp 768) running_rsp
        (by decide) (by decide) (List.replicate (2147483648 * 768 - 1) (0, 0))).2.2.1]
      decide)
     (patient_run test_api (started_agc patient_config running_rsp 768) running_rsp
        (by decide) (by decide) (List.replicate (2147483648 * 768 - 1) (0, 0))).2.2.2⟩

/-- C8 (amended) at a decision tick of `fast_agc`, and on the third sample of a
run with a minimum check interval of 500 ms. -/
theorem agc_decision_gating_witness :
    (fast_agc.agc_sample test_api running_rsp (0, 0)).agc.millis_since_last_agc_check = 0 ∧
    ¬ (((agc_run test_api
        ⟨((AgcGtw.ctor high_min_config 0 blank_agc).setup running_rsp 2).start, running_rsp, [],
          false⟩ [(0, 0), (0, 0)]).agc.clock).accumulate (0, 0)).decision_due :=
  ⟨(((agc_decision_gating test_api).1 fast_agc running_rsp (0, 0)).2 (by decide)).1,
   ((agc_decision_gating test_api).2 ((AgcGtw.ctor high_min_config 0 blank_agc).setup
      running_rsp 2) running_rsp 2 [(0, 0), (0, 0)] (0, 0) (by decide) (by decide) (by decide)
      (by decide) (by decide)).1 (by decide)⟩

/-- C9 (as stated) fails: at a tick of `tie_huge_inc_config` where both
conditions hold, with `gain_reduction = 50` and the increase step 2147483647,
the attack step is applied but the `int` sum wraps: `gain_reduction` becomes
-2147483599, while `min max_gain_reduction (old + gainstep_inc)` is 59. -/
theorem tie_break_sum_wraps :
    (((started_agc tie_huge_inc_config running_rsp 1).clock).accumulate (0, 0)).decision_due ∧
    (((started_agc tie_huge_inc_config running_rsp 1).clock).accumulate (0, 0)).attack_cond ∧
    (((started_agc tie_huge_inc_config running_rsp 1).clock).accumulate (0, 0)).decay_cond ∧
    (started_agc tie_huge_inc_config running_rsp 1).gain_reduction = 50 ∧
    (started_agc tie_huge_inc_config running_rsp 1).gainstep_inc = 2147483647 ∧
    min (started_agc tie_huge_inc_config running_rsp 1).max_gain_reduction
      ((started_agc tie_huge_inc_config running_rsp 1).gain_reduction
        + (started_agc tie_huge_inc_config running_rsp 1).gainstep_inc) = 59 ∧
    ((started_agc tie_huge_inc_config running_rsp 1).agc_sample test_api running_rsp
      (0, 0)).agc.gain_reduction = -2147483599 := by
  decide

/-- C9 (amended) at a tick of `tie_config` where both conditions hold. -/
theorem agc_tie_break_witness :
    ((((started_agc tie_config running_rsp 1).clock).accumulate (0, 0)).attack_cond ∧
      (((started_agc tie_config running_rsp 1).clock).accumulate (0, 0)).decay_cond) ∧
    ((started_agc tie_config running_rsp 1).agc_sample test_api running_rsp
      (0, 0)).agc.gain_reduction = min 59 (50 + 1) :=
  ⟨by decide,
   (agc_tie_break test_api (started_agc tie_config running_rsp 1) running_rsp (0, 0)
      (by decide)).2.1 (by decide) (by decide) (by decide) (by decide)⟩

/-- C10 fails on the code: with the default configuration, a source at the
minimum gain reduction 30, 768 samples per millisecond and a stream of
`2147483648 * 768` samples of power 0, no gain change is issued and
`millis_since_last_gain_change` is -2147483648 after the last sample, while
`floor(n / m)` is 2147483648: the increment of the counter at millisecond
2147483648 wraps. -/
theorem gain_change_counter_wraps :
    (agc_run test_api
      ⟨started_agc set_agc_gtw_config_defaults floor_rsp 768, floor_rsp, [], false⟩
      (List.replicate (2147483648 * 768) (0, 0))).calls = [] ∧
    (agc_run test_api
      ⟨started_agc set_agc_gtw_config_defaults floor_rsp 768, floor_rsp, [], false⟩
      (List.replicate (2147483648 * 768) (0, 0))).agc.millis_since_last_gain_change
      = -2147483648 ∧
    (List.replicate (2147483648 * 768) (0, 0) : List Sample).length / 768 = 2147483648 := by
  unfold started_agc
  have hc := (pinned_run test_api
    ((AgcGtw.ctor set_agc_gtw_config_defaults 0 blank_agc).setup floor_rsp 768).start
    floor_rsp (by decide) (by decide) (by decide) (by decide)
    (List.replicate (2147483648 * 768) (0, 0))
    (fun s hs => by rw [List.eq_of_mem_replicate hs]; decide)).2.1
  have hlen : (List.replicate (2147483648 * 768) (0, 0) : List Sample).length / 768
      = 2147483648 := by
    rw [List.length_replicate]
  refine ⟨hc, ?_, hlen⟩
  have h := (agc_millisecond_clock test_api
    ((AgcGtw.ctor set_agc_gtw_config_defaults 0 blank_agc).setup floor_rsp 768) floor_rsp 768
    (by decide) (by decide) (by decide) (List.replicate (2147483648 * 768) (0, 0))).2.1 hc
  exact h.trans ((congrArg (fun n : Nat => toInt32 (n : Int)) hlen).trans (by decide))

/-- The millisecond clock after three samples at two samples per millisecond. -/
theorem agc_millisecond_clock_witness :
    (agc_run test_api
      ⟨((AgcGtw.ctor high_min_config 0 blank_agc).setup running_rsp 2).start, running_rsp, [],
        false⟩ [(0, 0), (0, 0), (0, 0)]).agc.millis_since_last_gain_change
      = ((3 / 2 : Nat) : Int) :=
  (agc_millisecond_clock test_api ((AgcGtw.ctor high_min_config 0 blank_agc).setup running_rsp 2)
    running_rsp 2 (by decide) (by decide) (by decide) [(0, 0), (0, 0), (0, 0)]).2.2 (by decide)
    (by decide)

/-! ## Signal power and the overload counter -/

theorem iq2_of_short (s : Sample) (h1 : IsShort s.1) (h2 : IsShort s.2)
    (hne : s ≠ (-32768, -32768)) : AgcGtw.iq2 s = s.1 * s.1 + s.2 * s.2 := by
  obtain ⟨i, q⟩ := s
  unfold IsShort at h1 h2
  simp only at h1 h2 ⊢
  unfold AgcGtw.iq2
  simp only
  apply toInt32_of_range
  · nlinarith [mul_self_nonneg i, mul_self_nonneg q]
  · have hi : i * i ≤ 1073741824 := by nlinarith
    have hq : q * q ≤ 1073741824 := by nlinarith
    by_cases hi2 : i = -32768
    · have hq2 : q ≠ -32768 := by
        intro h; apply hne; rw [hi2, h]
      have hq3 : -32767 ≤ q := by omega
      have : q * q ≤ 1073676289 := by
        nlinarith [mul_nonneg (show (0 : Int) ≤ q + 32767 by omega)
          (show (0 : Int) ≤ 32767 - q by omega)]
      omega
    · have hi3 : -32767 ≤ i := by omega
      have : i * i ≤ 1073676289 := by
        nlinarith [mul_nonneg (show (0 : Int) ≤ i + 32767 by omega)
          (show (0 : Int) ≤ 32767 - i by omega)]
      omega

theorem accumulate_count (a : AgcGtw) (s : Sample) :
    (a.accumulate s).millis_iq_above_threshold =
      if AgcGtw.iq2 s > a.iq2_increase_threshold ∧ a.millis_iq_above_threshold < INT_MAX then
        a.millis_iq_above_threshold + 1
      else a.millis_iq_above_threshold := by
  unfold AgcGtw.accumulate
  simp only
  by_cases h1 : AgcGtw.iq2 s > a.iq2_increase_threshold
  · by_cases h2 : a.millis_iq_above_threshold < INT_MAX
    · rw [if_pos h1, if_pos h2, if_pos ⟨h1, h2⟩]
    · rw [if_pos h1, if_neg h2, if_neg (fun h => h2 h.2)]
  · rw [if_neg h1, if_neg (fun h => h1 h.1)]

/-- For every sample of signed 16-bit values other than `(-32768, -32768)` the
value `iq2` is `i * i + q * q`; the update of the high water mark sets `max_iq2`
to the maximum of its previous value and that power, which is its value after
the sample unless the decision is taken on that sample, where it is reset
to 0. -/
theorem agc_instantaneous_power (api : SdrplayApi) (a : AgcGtw) (rsp : Rsp) (s : Sample)
    (h1 : IsShort s.1) (h2 : IsShort s.2) (hne : s ≠ (-32768, -32768)) :
    AgcGtw.iq2 s = s.1 * s.1 + s.2 * s.2 ∧
    ((a.clock).accumulate s).max_iq2 = max (s.1 * s.1 + s.2 * s.2) a.max_iq2 ∧
    (¬ ((a.clock).accumulate s).decision_due →
      (a.agc_sample api rsp s).agc.max_iq2 = max (s.1 * s.1 + s.2 * s.2) a.max_iq2) ∧
    (((a.clock).accumulate s).decision_due → (a.agc_sample api rsp s).agc.max_iq2 = 0) := by
  have hp := iq2_of_short s h1 h2 hne
  have hm : ((a.clock).accumulate s).max_iq2 = max (s.1 * s.1 + s.2 * s.2) a.max_iq2 := by
    rw [AgcGtw.accumulate_max_iq2, hp, (AgcGtw.clock_frame a).2.2.2.2.1]
  refine ⟨hp, hm, ?_, ?_⟩
  · intro hd
    rw [AgcGtw.agc_sample_gated api a rsp s hd]
    exact hm
  · intro hd
    exact (AgcGtw.agc_sample_window api a rsp s hd).2.1

/-- The power of the sample `(300, -400)`, the first one after `start()` with
the default configuration and 2000 samples per millisecond. -/
theorem agc_instantaneous_power_witness :
    AgcGtw.iq2 (300, -400) = 250000 ∧
    (((started_agc set_agc_gtw_config_defaults running_rsp 2000).clock).accumulate (300, -400)).max_iq2
      = 250000 ∧
    ((started_agc set_agc_gtw_config_defaults running_rsp 2000).agc_sample test_api running_rsp
      (300, -400)).agc.max_iq2 = 250000 := by
  obtain ⟨p1, p2, p3, _⟩ :=
    agc_instantaneous_power test_api (started_agc set_agc_gtw_config_defaults running_rsp 2000) running_rsp
      (300, -400) (by decide) (by decide) (by decide)
  exact ⟨p1, p2, p3 (by decide)⟩

/-- C11 fails on the code at the sample `(-32768, -32768)`: its power `2 ^ 31`
is above `INT_MAX`, the value `iq2` is `-2 ^ 31` in two's complement, and after
the sample `max_iq2` is still 0 and the sample is not counted as above the
threshold `16384 * 16384`. -/
theorem power_of_most_negative_sample_overflows :
    IsShort (-32768) ∧
    (-32768 : Int) * (-32768) + (-32768) * (-32768) = 2147483648 ∧
    INT_MAX < 2147483648 ∧
    AgcGtw.iq2 (-32768, -32768) = -2147483648 ∧
    (started_agc set_agc_gtw_config_defaults running_rsp 2000).max_iq2 = 0 ∧
    ((started_agc set_agc_gtw_config_defaults running_rsp 2000).agc_sample test_api running_rsp
      (-32768, -32768)).agc.max_iq2 = 0 ∧
    (started_agc set_agc_gtw_config_defaults running_rsp 2000).iq2_increase_threshold = 268435456 ∧
    ((started_agc set_agc_gtw_config_defaults running_rsp 2000).agc_sample test_api running_rsp
      (-32768, -32768)).agc.millis_iq_above_threshold = 0 := by
  decide

theorem next_read_max_size_some (rb : RingBuffer) (r : Nat) (b : Bool) (rb1 : RingBuffer)
    (n : Nat) (h : rb.next_read_max_size r b = some (rb1, n)) :
    rb1 = { rb with max_read_size := max rb.max_read_size (rb.read_size r) } ∧
    n = rb.read_size r := by
  unfold RingBuffer.next_read_max_size at h
  split at h
  · exact absurd h (by simp)
  · simp only [Option.some.injEq, Prod.mk.injEq] at h
    exact ⟨h.1.symm, h.2.symm⟩

theorem read_size_lt (rb : RingBuffer) (r : Nat) (hsize : 1 ≤ rb.size) :
    rb.read_size r < rb.size := by
  unfold RingBuffer.read_size
  exact Nat.mod_lt _ (by omega)

theorem next_read_max_size_blocking_ready (rb : RingBuffer) (r : Nat)
    (h : rb.wait_done r = true) :
    rb.next_read_max_size r true
      = some ({ rb with max_read_size := max rb.max_read_size (rb.read_size r) },
          rb.read_size r) := by
  unfold RingBuffer.next_read_max_size
  simp [h]

theorem blocking_read_after_stop (rb : RingBuffer) (r : Nat) :
    (rb.stop).next_read_max_size r true
      = some ({ rb.stop with max_read_size := max rb.max_read_size (rb.read_size r) },
          rb.read_size r) := by
  rw [next_read_max_size_blocking_ready]
  · rfl
  · unfold RingBuffer.wait_done RingBuffer.stop
    simp

/-- C16: `stop()` called twice leaves the state `stop()` called once leaves:
`stopped` is true, `write_idx`, `size`, the stored samples and `max_read_size`
are those before the calls, and `next_read_max_size` returns the same in both
states. -/
theorem stop_idempotent (rb : RingBuffer) :
    (rb.stop).stop = rb.stop ∧ (rb.stop).stopped = true ∧
    (rb.stop).write_idx = rb.write_idx ∧ (rb.stop).size = rb.size ∧
    (rb.stop).data = rb.data ∧ (rb.stop).max_read_size = rb.max_read_size ∧
    (rb.stop).verbose = rb.verbose ∧
    (∀ (r : Nat) (b : Bool),
      ((rb.stop).stop).next_read_max_size r b = (rb.stop).next_read_max_size r b) ∧
    (∀ (r : Nat) (b : Bool),
      ((rb.stop).stop).next_read_max_size r b
        = some ({ rb.stop with max_read_size := max rb.max_read_size (rb.read_size r) },
            rb.read_size r)) := by
  refine ⟨rfl, rfl, rfl, rfl, rfl, rfl, rfl, fun _ _ => rfl, ?_⟩
  intro r b
  cases b
  · rw [next_read_max_size_nonblocking]; rfl
  · exact blocking_read_after_stop rb r

/-! ## Spans, construction and the write index -/

theorem ctor_ok (size : Nat) (verbose : Int) (pagesize : Nat)
    (mmap_ok mremap1_ok mremap2_ok same_addr : Bool) (rb : RingBuffer)
    (h : RingBuffer.ctor size verbose pagesize mmap_ok mremap1_ok mremap2_ok same_addr
      = Except.ok rb) :
    szMul size sizeof_T % pagesize = 0 ∧ mmap_ok = true ∧ mremap1_ok = true ∧
    mremap2_ok = true ∧ same_addr = true ∧
    rb = { data := fun _ => (0, 0), size := size, write_idx := 0, verbose := verbose,
           stopped := false, max_read_size := 0 } := by
  unfold RingBuffer.ctor at h
  simp only at h
  split at h
  · exact absurd h (by simp)
  · rename_i h1
    split at h
    · exact absurd h (by simp)
    · rename_i h2
      split at h
      · exact absurd h (by simp)
      · rename_i h3
        split at h
        · exact absurd h (by simp)
        · rename_i h4
          split at h
          · exact absurd h (by simp)
          · rename_i h5
            simp only [Except.ok.injEq] at h
            refine ⟨by simpa using h1, by simpa using h2, by simpa using h3, by simpa using h4,
              by simpa using h5, h.symm⟩

/-- C19 (amended): the constructor throws whenever the byte size
`size * sizeof(T)`, reduced modulo `2 ^ 64`, is not a multiple of the page size
(for `size * 4 < 2 ^ 64`: whenever `size * 4` is not), and then produces no
buffer; a buffer it produces has the requested size, a byte size that is a
multiple of the page size, `write_idx = 0` and `stopped = false`. -/
theorem ctor_rejects_unaligned_byte_size (size : Nat) (verbose : Int) (pagesize : Nat)
    (mmap_ok mremap1_ok mremap2_ok same_addr : Bool) :
    (szMul size sizeof_T % pagesize ≠ 0 →
      RingBuffer.ctor size verbose pagesize mmap_ok mremap1_ok mremap2_ok same_addr
        = Except.error "invalid ring buffer size (not a multiple of PAGE_SIZE)" ∧
      ∀ rb, RingBuffer.ctor size verbose pagesize mmap_ok mremap1_ok mremap2_ok same_addr
        ≠ Except.ok rb) ∧
    (size * 4 < SIZE_MOD → (size * 4) % pagesize ≠ 0 →
      RingBuffer.ctor size verbose pagesize mmap_ok mremap1_ok mremap2_ok same_addr
        = Except.error "invalid ring buffer size (not a multiple of PAGE_SIZE)") ∧
    (∀ rb, RingBuffer.ctor size verbose pagesize mmap_ok mremap1_ok mremap2_ok same_addr
        = Except.ok rb →
      szMul size sizeof_T % pagesize = 0 ∧ rb.size = size ∧ rb.write_idx = 0 ∧
      rb.stopped = false ∧ rb.max_read_size = 0) := by
  have key : szMul size sizeof_T % pagesize ≠ 0 →
      RingBuffer.ctor size verbose pagesize mmap_ok mremap1_ok mremap2_ok same_addr
        = Except.error "invalid ring buffer size (not a multiple of PAGE_SIZE)" := by
    intro h
    unfold RingBuffer.ctor
    simp only
    rw [if_pos h]
  refine ⟨?_, ?_, ?_⟩
  · intro h
    refine ⟨key h, ?_⟩
    intro rb hrb
    rw [key h] at hrb
    exact absurd hrb (by simp)
  · intro hlt h
    apply key
    unfold szMul sizeof_T
    rw [Nat.mod_eq_of_lt hlt]
    exact h
  · intro rb hrb
    obtain ⟨c1, _, _, _, _, c6⟩ := ctor_ok size verbose pagesize _ _ _ _ rb hrb
    rw [c6]
    exact ⟨c1, rfl, rfl, rfl, rfl⟩

/-- C19 for 1000 slots and pages of 4096 bytes: 4000 bytes are not a whole
number of pages. -/
theorem ctor_rejects_unaligned_byte_size_witness :
    RingBuffer.ctor 1000 0 4096 true true true true
      = Except.error "invalid ring buffer size (not a multiple of PAGE_SIZE)" :=
  ((ctor_rejects_unaligned_byte_size 1000 0 4096 true true true true).1 (by decide)).1

/-- C19 fails for the capacity 1024 and pages of 4096 bytes: 1024 is not a
multiple of 4096, and the constructor produces a buffer of 1024 slots. -/
theorem ctor_accepts_one_page_of_samples :
    1024 % 4096 ≠ 0 ∧
    ∃ rb, RingBuffer.ctor 1024 0 4096 true true true true = Except.ok rb ∧ rb.size = 1024 :=
  ⟨by decide, _, rfl, rfl⟩

theorem agc_iteration_rb (api : SdrplayApi) (a : AgcGtw) (rsp : Rsp) (rb : RingBuffer)
    (read_ptr : Nat) (r : IterResult) (h : agc_iteration api a rsp rb read_ptr = LoopStep.done r) :
    r.rb = { rb with max_read_size := max rb.max_read_size (rb.read_size read_ptr) } := by
  unfold agc_iteration at h
  split at h
  · exact LoopStep.noConfusion h
  · split at h
    · exact LoopStep.noConfusion h
    · rename_i rb1 n heq
      obtain ⟨e1, _⟩ := next_read_max_size_some rb read_ptr true rb1 n heq
      simp only at h
      split at h
      · injection h with h
        rw [← h, ← e1]
      · injection h with h
        rw [← h, ← e1]

theorem next_write_ptr_changes_iff (rb : RingBuffer) (adv : Nat) (hw : rb.write_idx < rb.size)
    (hsum : rb.write_idx + adv < SIZE_MOD) :
    (rb.next_write_ptr adv).1.write_idx ≠ rb.write_idx ↔ adv % rb.size ≠ 0 := by
  have e : (rb.next_write_ptr adv).1.write_idx = (rb.write_idx + adv % rb.size) % rb.size := by
    show szAdd rb.write_idx adv % rb.size = _
    rw [szAdd_of_lt hsum, Nat.add_mod_mod]
  rw [e]
  have hlt : adv % rb.size < rb.size := Nat.mod_lt _ (by omega)
  constructor
  · intro h h0
    apply h
    rw [h0, Nat.add_zero, Nat.mod_eq_of_lt hw]
  · intro h
    have := @add_mod_ne_self rb.write_idx (adv % rb.size) rb.size (by omega) hlt
    rw [Nat.mod_eq_of_lt hw] at this
    exact this

/-- C20 (amended): `next_read_max_size` and `stop()` leave `write_idx`, the
stored samples and `size` as they are, for every state and argument
(`next_read_ptr` assigns no member); for `write_idx < size < 2 ^ 64`,
`next_write_ptr(0)` leaves `write_idx` as it is and `next_write_ptr(advance)`
with `write_idx + advance < 2 ^ 64` changes it exactly when `advance` is not a
multiple of `size`; a pass of the AGC loop, resync included, leaves `write_idx`
and the stored samples as they are. -/
theorem write_idx_frame (api : SdrplayApi) (rb : RingBuffer) :
    (∀ (r : Nat) (b : Bool) (rb1 : RingBuffer) (n : Nat),
      rb.next_read_max_size r b = some (rb1, n) →
      rb1.write_idx = rb.write_idx ∧ rb1.data = rb.data ∧ rb1.size = rb.size ∧
      rb1.stopped = rb.stopped) ∧
    ((rb.stop).write_idx = rb.write_idx ∧ (rb.stop).data = rb.data ∧
      (rb.stop).size = rb.size) ∧
    (∀ adv, (rb.next_write_ptr adv).1.data = rb.data ∧
      (rb.next_write_ptr adv).1.size = rb.size) ∧
    (rb.write_idx < rb.size → rb.size < SIZE_MOD →
      (rb.next_write_ptr 0).1.write_idx = rb.write_idx ∧
      ∀ adv, rb.write_idx + adv < SIZE_MOD →
        ((rb.next_write_ptr adv).1.write_idx ≠ rb.write_idx ↔ adv % rb.size ≠ 0)) ∧
    (∀ (a : AgcGtw) (rsp : Rsp) (read_ptr : Nat) (r : IterResult),
      agc_iteration api a rsp rb read_ptr = LoopStep.done r →
      r.rb.write_idx = rb.write_idx ∧ r.rb.data = rb.data ∧ r.rb.size = rb.size) := by
  refine ⟨?_, ⟨rfl, rfl, rfl⟩, fun _ => ⟨rfl, rfl⟩, ?_, ?_⟩
  · intro r b rb1 n h
    rw [(next_read_max_size_some rb r b rb1 n h).1]
    exact ⟨rfl, rfl, rfl, rfl⟩
  · intro hw hsz
    refine ⟨?_, fun adv h => next_write_ptr_changes_iff rb adv hw h⟩
    rw [(next_write_ptr_zero rb (by omega)).2.1, Nat.mod_eq_of_lt hw]
  · intro a rsp read_ptr r h
    rw [agc_iteration_rb api a rsp rb read_ptr r h]
    exact ⟨rfl, rfl, rfl⟩

/-- C20 at the buffer of 3072 slots: advancing by 0 and by 6144 leaves
`write_idx` at 2047, advancing by 100 does not. -/
theorem write_idx_frame_witness :
    (three_page_buffer.next_write_ptr 0).1.write_idx = 2047 ∧
    ((three_page_buffer.next_write_ptr 100).1.write_idx ≠ 2047 ↔ 100 % 3072 ≠ 0) ∧
    ((three_page_buffer.next_write_ptr 6144).1.write_idx ≠ 2047 ↔ 6144 % 3072 ≠ 0) :=
  ⟨((write_idx_frame test_api three_page_buffer).2.2.2.1 (by decide) (by decide)).1,
   ((write_idx_frame test_api three_page_buffer).2.2.2.1 (by decide) (by decide)).2 100
     (by decide),
   ((write_idx_frame test_api three_page_buffer).2.2.2.1 (by decide) (by decide)).2 6144
     (by decide)⟩

/-- C20 fails for an amount that makes `write_idx + advance` wrap: on the
buffer of 3072 slots with `write_idx = 2047`, the amount `2 ^ 64 - 1024` is a
multiple of 3072 and `next_write_ptr` moves `write_idx` to 1023. -/
theorem next_write_ptr_multiple_of_size_moves_write_idx :
    three_page_buffer.write_idx = 2047 ∧
    18446744073709550592 % three_page_buffer.size = 0 ∧
    (three_page_buffer.next_write_ptr 18446744073709550592).1.write_idx = 1023 := by
  decide

/-! ## Sequences of ring buffer calls -/

theorem rb_run_append (t : RbTrace) (ops : List RbOp) (op : RbOp) :
    rb_run t (ops ++ [op]) = rb_step (rb_run t ops) op := by
  simp [rb_run, List.foldl_append]

theorem rb_step_read_none (t : RbTrace) (r : Nat) (b : Bool)
    (h : t.rb.next_read_max_size r b = none) :
    rb_step t (RbOp.next_read_max_size r b) = t := by
  show (match t.rb.next_read_max_size r b with
    | none => t
    | some (rb1, n) => { rb := rb1, returned := t.returned ++ [n] }) = t
  rw [h]

theorem rb_step_read_some (t : RbTrace) (r : Nat) (b : Bool) (rb1 : RingBuffer) (n : Nat)
    (h : t.rb.next_read_max_size r b = some (rb1, n)) :
    rb_step t (RbOp.next_read_max_size r b)
      = { rb := { t.rb with max_read_size := max t.rb.max_read_size (t.rb.read_size r) },
          returned := t.returned ++ [t.rb.read_size r] } := by
  show (match t.rb.next_read_max_size r b with
    | none => t
    | some (rb1, n) => { rb := rb1, returned := t.returned ++ [n] }) = _
  rw [h]
  obtain ⟨e1, e2⟩ := next_read_max_size_some t.rb r b rb1 n h
  simp only [e1, e2]

theorem rb_step_spec (t : RbTrace) (op : RbOp) (hsize : 1 ≤ t.rb.size) :
    (rb_step t op).rb.size = t.rb.size ∧
    (rb_step t op).rb.write_idx < t.rb.size ∨
      ((rb_step t op).rb.size = t.rb.size ∧ (rb_step t op).rb.write_idx = t.rb.write_idx) := by
  cases op with
  | next_write_ptr advance =>
    left
    refine ⟨rfl, ?_⟩
    show szAdd t.rb.write_idx advance % t.rb.size < t.rb.size
    exact Nat.mod_lt _ (by omega)
  | next_read_ptr c a => right; exact ⟨rfl, rfl⟩
  | next_read_max_size r b =>
    right
    cases h : t.rb.next_read_max_size r b with
    | none => rw [rb_step_read_none t r b h]; exact ⟨rfl, rfl⟩
    | some p =>
      obtain ⟨rb1, n⟩ := p
      rw [rb_step_read_some t r b rb1 n h]
      exact ⟨rfl, rfl⟩
  | stop => right; exact ⟨rfl, rfl⟩

theorem rb_step_max_read_size (t : RbTrace) (op : RbOp) :
    ((rb_step t op).returned = t.returned ∧
      (rb_step t op).rb.max_read_size = t.rb.max_read_size) ∨
    (∃ r b, op = RbOp.next_read_max_size r b ∧
      (rb_step t op).returned = t.returned ++ [t.rb.read_size r] ∧
      (rb_step t op).rb.max_read_size = max t.rb.max_read_size (t.rb.read_size r)) := by
  cases op with
  | next_write_ptr advance => left; exact ⟨rfl, rfl⟩
  | next_read_ptr c a => left; exact ⟨rfl, rfl⟩
  | next_read_max_size r b =>
    cases h : t.rb.next_read_max_size r b with
    | none => left; rw [rb_step_read_none t r b h]; exact ⟨rfl, rfl⟩
    | some p =>
      obtain ⟨rb1, n⟩ := p
      right
      refine ⟨r, b, rfl, ?_, ?_⟩
      · rw [rb_step_read_some t r b rb1 n h]
      · rw [rb_step_read_some t r b rb1 n h]
  | stop => left; exact ⟨rfl, rfl⟩

theorem rb_run_size (t : RbTrace) (ops : List RbOp) (hsize : 1 ≤ t.rb.size) :
    (rb_run t ops).rb.size = t.rb.size ∧
    (t.rb.write_idx < t.rb.size → (rb_run t ops).rb.write_idx < t.rb.size) := by
  induction ops using List.reverseRecOn with
  | nil => exact ⟨rfl, fun h => h⟩
  | append_singleton ops op ih =>
    rw [rb_run_append]
    obtain ⟨i1, i2⟩ := ih
    rcases rb_step_spec (rb_run t ops) op (by omega) with ⟨h1, h2⟩ | ⟨h1, h2⟩
    · exact ⟨h1.trans i1, fun _ => by rw [i1] at h2; exact h2⟩
    · exact ⟨h1.trans i1, fun hw => by rw [h2]; exact i2 hw⟩

theorem rb_run_high_water (t : RbTrace) (ops : List RbOp) (hsize : 1 ≤ t.rb.size)
    (h0 : t.rb.max_read_size = t.returned.foldl max 0)
    (hle : t.rb.max_read_size ≤ t.rb.size - 1) :
    (rb_run t ops).rb.max_read_size = (rb_run t ops).returned.foldl max 0 ∧
    (rb_run t ops).rb.max_read_size ≤ t.rb.size - 1 ∧
    t.rb.max_read_size ≤ (rb_run t ops).rb.max_read_size := by
  induction ops using List.reverseRecOn with
  | nil => exact ⟨h0, hle, le_refl _⟩
  | append_singleton ops op ih =>
    rw [rb_run_append]
    obtain ⟨i1, i2, i3⟩ := ih
    have hs := (rb_run_size t ops hsize).1
    rcases rb_step_max_read_size (rb_run t ops) op with ⟨h1, h2⟩ | ⟨r, b, _, h1, h2⟩
    · rw [h1, h2]; exact ⟨i1, i2, i3⟩
    · rw [h1, h2, List.foldl_append, ← i1]
      have hlt := read_size_lt (rb_run t ops).rb r (by omega)
      rw [hs] at hlt
      refine ⟨rfl, ?_, ?_⟩
      · exact max_le i2 (by omega)
      · exact le_trans i3 (le_max_left _ _)

theorem rb_run_mono (t : RbTrace) (ops : List RbOp) :
    t.rb.max_read_size ≤ (rb_run t ops).rb.max_read_size := by
  induction ops using List.reverseRecOn with
  | nil => exact le_refl _
  | append_singleton ops op ih =>
    rw [rb_run_append]
    rcases rb_step_max_read_size (rb_run t ops) op with ⟨_, h2⟩ | ⟨r, b, _, _, h2⟩
    · rw [h2]; exact ih
    · rw [h2]; exact le_trans ih (le_max_left _ _)

/-- C24: on a buffer the constructor has produced, of size at least 1, after
any sequence of calls `max_read_size` is the maximum of the values
`next_read_max_size` has returned so far (0 if none) and is at most
`size - 1`; further calls do not decrease it, and `next_write_ptr` and `stop()`
leave it as it is (`next_read_ptr` assigns no member). -/
theorem max_read_size_high_water (size : Nat) (verbose : Int) (pagesize : Nat)
    (mmap_ok mremap1_ok mremap2_ok same_addr : Bool) (rb0 : RingBuffer)
    (hctor : RingBuffer.ctor size verbose pagesize mmap_ok mremap1_ok mremap2_ok same_addr
      = Except.ok rb0)
    (hsize : 1 ≤ size) (ops : List RbOp) :
    (rb_run ⟨rb0, []⟩ ops).rb.max_read_size = (rb_run ⟨rb0, []⟩ ops).returned.foldl max 0 ∧
    (rb_run ⟨rb0, []⟩ ops).rb.max_read_size ≤ size - 1 ∧
    (rb_run ⟨rb0, []⟩ ops).rb.size = size ∧
    (∀ more : List RbOp,
      (rb_run ⟨rb0, []⟩ ops).rb.max_read_size
        ≤ (rb_run ⟨rb0, []⟩ (ops ++ more)).rb.max_read_size) ∧
    (∀ (rb : RingBuffer) (advance : Nat),
      (rb.next_write_ptr advance).1.max_read_size = rb.max_read_size ∧
      (rb.stop).max_read_size = rb.max_read_size) := by
  obtain ⟨_, _, _, _, _, c6⟩ := ctor_ok size verbose pagesize _ _ _ _ rb0 hctor
  have hs0 : rb0.size = size := by rw [c6]
  have hm0 : rb0.max_read_size = 0 := by rw [c6]
  obtain ⟨p1, p2, _⟩ := rb_run_high_water ⟨rb0, []⟩ ops (by simp only [hs0]; exact hsize)
    (by simp only [hm0]; rfl) (by simp only [hm0]; exact Nat.zero_le _)
  simp only [hs0] at p2
  refine ⟨p1, p2, ?_, ?_, fun _ _ => ⟨rfl, rfl⟩⟩
  · rw [(rb_run_size ⟨rb0, []⟩ ops (by simp only [hs0]; exact hsize)).1]
    exact hs0
  · intro more
    have e : rb_run ⟨rb0, []⟩ (ops ++ more) = rb_run (rb_run ⟨rb0, []⟩ ops) more := by
      simp [rb_run, List.foldl_append]
    rw [e]
    exact rb_run_mono _ more

/-- C24 on a buffer of 1024 slots: two reads returning 100 and 40 leave
`max_read_size = 100`. -/
theorem max_read_size_high_water_witness :
    ∃ rb0, RingBuffer.ctor 1024 0 4096 true true true true = Except.ok rb0 ∧
      (rb_run ⟨rb0, []⟩ [RbOp.next_write_ptr 100, RbOp.next_read_max_size 0 false,
        RbOp.next_write_ptr 40, RbOp.next_read_max_size 100 true, RbOp.stop]).returned
        = [100, 40] ∧
      (rb_run ⟨rb0, []⟩ [RbOp.next_write_ptr 100, RbOp.next_read_max_size 0 false,
        RbOp.next_write_ptr 40, RbOp.next_read_max_size 100 true,
        RbOp.stop]).rb.max_read_size = 100 :=
  ⟨_, rfl, by decide,
    (max_read_size_high_water 1024 0 4096 true true true true _ rfl (by decide)
      [RbOp.next_write_ptr 100, RbOp.next_read_max_size 0 false,
        RbOp.next_write_ptr 40, RbOp.next_read_max_size 100 true, RbOp.stop]).1.trans
      (by decide)⟩

/-- C25: on a buffer the constructor has produced, of size at least 1,
`write_idx < size` holds at once and after any sequence of calls;
`next_write_ptr` leaves `write_idx < size` for every state of size at least 1
and every amount; and `next_read_ptr` yields an index below `size`, from
`nullptr` and from any cursor and amount. -/
theorem index_range_invariant (size : Nat) (verbose : Int) (pagesize : Nat)
    (mmap_ok mremap1_ok mremap2_ok same_addr : Bool) (rb0 : RingBuffer)
    (hctor : RingBuffer.ctor size verbose pagesize mmap_ok mremap1_ok mremap2_ok same_addr
      = Except.ok rb0)
    (hsize : 1 ≤ size) (ops : List RbOp) :
    rb0.size = size ∧ rb0.write_idx < size ∧
    (rb_run ⟨rb0, []⟩ ops).rb.size = size ∧
    (rb_run ⟨rb0, []⟩ ops).rb.write_idx < size ∧
    (∀ advance, (rb_run ⟨rb0, []⟩ ops).rb.next_read_ptr none advance < size) ∧
    (∀ (rb : RingBuffer) (advance : Nat), 1 ≤ rb.size →
      (rb.next_write_ptr advance).1.size = rb.size ∧
      (rb.next_write_ptr advance).1.write_idx < rb.size ∧
      (rb.next_write_ptr advance).2 < rb.size) ∧
    (∀ (rb : RingBuffer) (advance : Nat), rb.write_idx < rb.size →
      rb.next_read_ptr none advance < rb.size) ∧
    (∀ (rb : RingBuffer) (r advance : Nat), 1 ≤ rb.size →
      rb.next_read_ptr (some r) advance < rb.size) := by
  obtain ⟨_, _, _, _, _, c6⟩ := ctor_ok size verbose pagesize _ _ _ _ rb0 hctor
  have hs0 : rb0.size = size := by rw [c6]
  have hw0 : rb0.write_idx = 0 := by rw [c6]
  obtain ⟨r1, r2⟩ := rb_run_size ⟨rb0, []⟩ ops (by simp only [hs0]; exact hsize)
  simp only [hs0, hw0] at r1 r2
  have hw := r2 (by omega)
  refine ⟨hs0, by omega, r1, hw, fun _ => hw, ?_, fun _ _ h => h, ?_⟩
  · intro rb advance h
    have : szAdd rb.write_idx advance % rb.size < rb.size := Nat.mod_lt _ (by omega)
    exact ⟨rfl, this, this⟩
  · intro rb r advance h
    show szAdd r advance % rb.size < rb.size
    exact Nat.mod_lt _ (by omega)

/-- C25 on a buffer of 1024 slots after the amounts 1000 and `2 ^ 64 - 1`. -/
theorem index_range_invariant_witness :
    ∃ rb0, RingBuffer.ctor 1024 0 4096 true true true true = Except.ok rb0 ∧
      (rb_run ⟨rb0, []⟩ [RbOp.next_write_ptr 1000,
        RbOp.next_write_ptr 18446744073709551615]).rb.write_idx < 1024 :=
  ⟨_, rfl,
    (index_range_invariant 1024 0 4096 true true true true _ rfl (by decide)
      [RbOp.next_write_ptr 1000, RbOp.next_write_ptr 18446744073709551615]).2.2.2.1⟩

theorem setIFGainReduction_wait (api : SdrplayApi) (rsp : Rsp) (g : Int)
    (h1 : api.sdrplay_api_NORMAL_MIN_GR ≤ g) (h2 : g ≤ api.MAX_BB_GR)
    (hrun : rsp.run = true) (hok : api.update_ok rsp.updates = true) (hne : g ≠ rsp.gRdB) :
    Rsp.setIFGainReduction api rsp g true =
      match api.gr_confirm rsp.updates with
      | none =>
        { rsp := { rsp with agc_enable := false, gRdB := g, gain_reduction_changed := 0,
                            updates := rsp.updates + 1 },
          thrown := none, polls := UpdateTimeout, timeout := true }
      | some d =>
        { rsp := { rsp with agc_enable := false, gRdB := g,
                            gain_reduction_changed := if d ≤ UpdateTimeout then 1 else 0,
                            updates := rsp.updates + 1 },
          thrown := none, polls := min d UpdateTimeout, timeout := decide (UpdateTimeout < d) } := by
  unfold Rsp.setIFGainReduction
  rw [if_neg (by omega)]
  simp only [hrun, hok, hne, ne_eq, not_false_eq_true, decide_True, Bool.or_true, Bool.and_self,
    Bool.not_true, Bool.false_eq_true, if_false, if_true]

theorem setIFGainReduction_gRdB (api : SdrplayApi) (rsp : Rsp) (g : Int) (wait : Bool)
    (h1 : api.sdrplay_api_NORMAL_MIN_GR ≤ g) (h2 : g ≤ api.MAX_BB_GR) :
    (Rsp.setIFGainReduction api rsp g wait).rsp.getIFGainReduction = g ∧
    (Rsp.setIFGainReduction api rsp g wait).polls ≤ UpdateTimeout := by
  unfold Rsp.setIFGainReduction Rsp.getIFGainReduction
  rw [if_neg (by omega)]
  simp only
  split
  · split
    · exact ⟨rfl, Nat.zero_le _⟩
    · split
      · split
        · exact ⟨rfl, le_refl _⟩
        · exact ⟨rfl, min_le_right _ _⟩
      · exact ⟨rfl, Nat.zero_le _⟩
  · exact ⟨rfl, Nat.zero_le _⟩

/-- C21: `setIFGainReduction(g, true)` with `g` in the accepted range, called
while streaming with the update succeeding, does not throw, sleeps at most
`UpdateTimeout = 500` times and leaves `getIFGainReduction() = g`; when no
confirmation arrives it prints the timeout line after 500 sleeps and still
returns; and a following pass of the AGC body whose decision arrives at `g`
makes no call. -/
theorem gain_confirmation_bounded (api : SdrplayApi) (rsp : Rsp) (g : Int)
    (h1 : api.sdrplay_api_NORMAL_MIN_GR ≤ g) (h2 : g ≤ api.MAX_BB_GR)
    (hrun : rsp.run = true) (hok : api.update_ok rsp.updates = true) :
    (Rsp.setIFGainReduction api rsp g true).thrown = none ∧
    (Rsp.setIFGainReduction api rsp g true).polls ≤ UpdateTimeout ∧ UpdateTimeout = 500 ∧
    (Rsp.setIFGainReduction api rsp g true).rsp.getIFGainReduction = g ∧
    (g ≠ rsp.gRdB → api.gr_confirm rsp.updates = none →
      (Rsp.setIFGainReduction api rsp g true).timeout = true ∧
      (Rsp.setIFGainReduction api rsp g true).polls = UpdateTimeout ∧
      (Rsp.setIFGainReduction api rsp g true).rsp.gain_reduction_changed = 0) ∧
    (∀ (a : AgcGtw) (s : Sample), (((a.clock).accumulate s).decide_gain).gain_reduction = g →
      (a.agc_sample api (Rsp.setIFGainReduction api rsp g true).rsp s).calls = [] ∧
      (a.agc_sample api (Rsp.setIFGainReduction api rsp g true).rsp s).rsp
        = (Rsp.setIFGainReduction api rsp g true).rsp) := by
  obtain ⟨p1, p2⟩ := setIFGainReduction_gRdB api rsp g true h1 h2
  refine ⟨setIFGainReduction_returns api rsp g true h1 h2 hok, p2, rfl, p1, ?_, ?_⟩
  · intro hne hc
    rw [setIFGainReduction_wait api rsp g h1 h2 hrun hok hne, hc]
    exact ⟨rfl, rfl, rfl⟩
  · intro a s hg
    by_cases hd : ((a.clock).accumulate s).decision_due
    · rw [AgcGtw.agc_sample_same api a _ s hd (hg.trans p1.symm)]
      exact ⟨rfl, rfl⟩
    · rw [AgcGtw.agc_sample_gated api a _ s hd]
      exact ⟨rfl, rfl⟩

/-- C21 for the change from 50 to 51 on a service that never confirms. -/
theorem gain_confirmation_bounded_witness :
    (Rsp.setIFGainReduction unconfirmed_api running_rsp 51 true).thrown = none ∧
    (Rsp.setIFGainReduction unconfirmed_api running_rsp 51 true).polls = 500 ∧
    (Rsp.setIFGainReduction unconfirmed_api running_rsp 51 true).timeout = true ∧
    (Rsp.setIFGainReduction unconfirmed_api running_rsp 51 true).rsp.getIFGainReduction = 51 :=
  ⟨(gain_confirmation_bounded unconfirmed_api running_rsp 51 (by decide) (by decide) rfl rfl).1,
   ((gain_confirmation_bounded unconfirmed_api running_rsp 51 (by decide) (by decide) rfl
      rfl).2.2.2.2.1 (by decide) rfl).2.1,
   ((gain_confirmation_bounded unconfirmed_api running_rsp 51 (by decide) (by decide) rfl
      rfl).2.2.2.2.1 (by decide) rfl).1,
   (gain_confirmation_bounded unconfirmed_api running_rsp 51 (by decide) (by decide) rfl
      rfl).2.2.2.1⟩

/-! ## One decision of the AGC -/

/-- C29 (amended): at a decision tick reached with `gain_reduction` inside
`[min_gain_reduction, max_gain_reduction]`, steps that are not negative and
`gain_reduction + gainstep_inc` and `gain_reduction - gainstep_dec` in the
range of `int`, `gain_reduction` stays inside the interval, the attack branch
does not lower it and the decay branch does not raise it; the same holds for
the value the loop body leaves when the decision is taken on the sample. -/
theorem decision_preserves_bounds (api : SdrplayApi) (a : AgcGtw) (rsp : Rsp) (s : Sample)
    (h1 : a.min_gain_reduction ≤ a.gain_reduction) (h2 : a.gain_reduction ≤ a.max_gain_reduction)
    (hinc : 0 ≤ a.gainstep_inc) (hdec : 0 ≤ a.gainstep_dec)
    (hhi : a.gain_reduction + a.gainstep_inc ≤ 2147483647)
    (hlo : -2147483648 ≤ a.gain_reduction - a.gainstep_dec) :
    (a.min_gain_reduction ≤ a.decide_gain.gain_reduction ∧
      a.decide_gain.gain_reduction ≤ a.max_gain_reduction) ∧
    (a.attack_cond → a.gain_reduction ≤ a.decide_gain.gain_reduction) ∧
    (¬ a.attack_cond → a.decay_cond → a.decide_gain.gain_reduction ≤ a.gain_reduction) ∧
    (¬ a.attack_cond → ¬ a.decay_cond → a.decide_gain.gain_reduction = a.gain_reduction) ∧
    (((a.clock).accumulate s).decision_due →
      (a.min_gain_reduction ≤ (a.agc_sample api rsp s).agc.gain_reduction ∧
        (a.agc_sample api rsp s).agc.gain_reduction ≤ a.max_gain_reduction) ∧
      (((a.clock).accumulate s).attack_cond →
        a.gain_reduction ≤ (a.agc_sample api rsp s).agc.gain_reduction) ∧
      (¬ ((a.clock).accumulate s).attack_cond → ((a.clock).accumulate s).decay_cond →
        (a.agc_sample api rsp s).agc.gain_reduction ≤ a.gain_reduction)) := by
  have ea : toInt32 (a.gain_reduction + a.gainstep_inc) = a.gain_reduction + a.gainstep_inc :=
    toInt32_of_range (by omega) hhi
  have ed : toInt32 (a.gain_reduction - a.gainstep_dec) = a.gain_reduction - a.gainstep_dec :=
    toInt32_of_range hlo (by omega)
  refine ⟨decide_gain_in_range a h1 h2 hinc hdec hhi hlo, ?_, ?_, ?_, ?_⟩
  · intro ha
    rw [AgcGtw.decide_gain_attack a ha, ea]; omega
  · intro ha hd
    rw [AgcGtw.decide_gain_decay a ha hd, ed]; omega
  · intro ha hd
    rw [AgcGtw.decide_gain_none a ha hd]
  · intro hdue
    obtain ⟨f1, f2, _⟩ := AgcGtw.accumulated_frame a s
    obtain ⟨_, k2, k3, k4, k5, _⟩ := AgcGtw.config_fields f1
    refine ⟨agc_sample_in_range api a rsp s h1 h2 hinc hdec hhi hlo, ?_, ?_⟩
    · intro ha
      rw [(AgcGtw.agc_sample_gain api a rsp s).2 hdue, AgcGtw.decide_gain_attack _ ha, f2, k3, k5,
        ea]
      omega
    · intro ha hd
      rw [(AgcGtw.agc_sample_gain api a rsp s).2 hdue, AgcGtw.decide_gain_decay _ ha hd, f2, k2,
        k4, ed]
      omega

/-- C29 (as stated) fails: at an attack tick with the bounds 30 and 59,
`gain_reduction = 50` and the steps 2147483647 and 1, none of them negative, the
`int` sum `50 + 2147483647` wraps: the decision leaves -2147483599, below
`min_gain_reduction` and below the value before the attack. -/
theorem decision_sum_wraps :
    (((started_agc huge_inc_config running_rsp 1).clock).accumulate
      (1000, 1000)).min_gain_reduction = 30 ∧
    (((started_agc huge_inc_config running_rsp 1).clock).accumulate
      (1000, 1000)).max_gain_reduction = 59 ∧
    (((started_agc huge_inc_config running_rsp 1).clock).accumulate
      (1000, 1000)).gain_reduction = 50 ∧
    (((started_agc huge_inc_config running_rsp 1).clock).accumulate
      (1000, 1000)).gainstep_inc = 2147483647 ∧
    (((started_agc huge_inc_config running_rsp 1).clock).accumulate
      (1000, 1000)).gainstep_dec = 1 ∧
    (((started_agc huge_inc_config running_rsp 1).clock).accumulate (1000, 1000)).decision_due ∧
    (((started_agc huge_inc_config running_rsp 1).clock).accumulate (1000, 1000)).attack_cond ∧
    ((((started_agc huge_inc_config running_rsp 1).clock).accumulate
      (1000, 1000)).decide_gain).gain_reduction = -2147483599 ∧
    ((started_agc huge_inc_config running_rsp 1).agc_sample test_api running_rsp
      (1000, 1000)).agc.gain_reduction = -2147483599 := by
  decide

/-- C29 (amended) for the AGC of `fast_config` at gain reduction 50 and a strong
sample: the attack raises the gain reduction to 51. -/
theorem decision_preserves_bounds_witness :
    (30 : Int) ≤ (fast_agc.agc_sample test_api running_rsp (1000, 1000)).agc.gain_reduction ∧
    (fast_agc.agc_sample test_api running_rsp (1000, 1000)).agc.gain_reduction ≤ 59 ∧
    (50 : Int) ≤ (fast_agc.agc_sample test_api running_rsp (1000, 1000)).agc.gain_reduction :=
  ⟨((decision_preserves_bounds test_api fast_agc running_rsp (1000, 1000) (by decide)
      (by decide) (by decide) (by decide) (by decide) (by decide)).2.2.2.2
      (by decide)).1.1,
   ((decision_preserves_bounds test_api fast_agc running_rsp (1000, 1000) (by decide)
      (by decide) (by decide) (by decide) (by decide) (by decide)).2.2.2.2
      (by decide)).1.2,
   ((decision_preserves_bounds test_api fast_agc running_rsp (1000, 1000) (by decide)
      (by decide) (by decide) (by decide) (by decide) (by decide)).2.2.2.2
      (by decide)).2.1 (by decide)⟩

/-! ## The window of the AGC -/

theorem accumulate_window_inv (a : AgcGtw) (s : Sample) (h : a.WindowInv) :
    (a.accumulate s).WindowInv := by
  unfold AgcGtw.WindowInv at h ⊢
  rw [AgcGtw.accumulate_max_iq2, accumulate_count, (AgcGtw.accumulate_frame a s).2.2.2.2.1]
  intro hpos
  by_cases hc : AgcGtw.iq2 s > a.iq2_increase_threshold
  · exact lt_of_lt_of_le hc (le_max_left _ _)
  · rw [if_neg (fun hh => hc hh.1)] at hpos
    exact lt_of_lt_of_le (h hpos) (le_max_right _ _)

theorem clock_window_inv (a : AgcGtw) (h : a.WindowInv) : a.clock.WindowInv := by
  unfold AgcGtw.WindowInv at h ⊢
  obtain ⟨_, _, _, c4, c5, c6⟩ := AgcGtw.clock_frame a
  rw [c4, c5, c6]
  exact h

theorem agc_sample_window_inv (api : SdrplayApi) (a : AgcGtw) (rsp : Rsp) (s : Sample)
    (h : a.WindowInv) : (a.agc_sample api rsp s).agc.WindowInv := by
  by_cases hd : ((a.clock).accumulate s).decision_due
  · unfold AgcGtw.WindowInv
    rw [(AgcGtw.agc_sample_window api a rsp s hd).2.2]
    intro h0
    exact absurd h0 (by decide)
  · rw [AgcGtw.agc_sample_gated api a rsp s hd]
    exact accumulate_window_inv _ s (clock_window_inv a h)

theorem run_window_inv (api : SdrplayApi) (st0 : AgcRun) (h0 : st0.agc.WindowInv)
    (l : List Sample) :
    (agc_run api st0 l).agc.WindowInv ∧ (agc_run api st0 l).agc.config = st0.agc.config := by
  induction l using List.reverseRecOn with
  | nil => exact ⟨h0, rfl⟩
  | append_singleton l s ih =>
    rw [agc_run_append]
    generalize agc_run api st0 l = st at ih ⊢
    by_cases ht : st.thrown = true
    · rw [agc_consume_thrown api st s ht]; exact ih
    · have hl : st.thrown = false := by simpa using ht
      rw [agc_consume_live api st s hl]
      exact ⟨agc_sample_window_inv api st.agc st.rsp s ih.1,
        (AgcGtw.agc_sample_frame api st.agc st.rsp s).1.trans ih.2⟩

theorem attack_excludes_decay (a : AgcGtw) (h : a.WindowInv) (h4 : 0 ≤ a.agc4_a) :
    ¬ (a.attack_cond ∧ a.decay_cond) := by
  unfold AgcGtw.WindowInv at h
  unfold AgcGtw.attack_cond AgcGtw.decay_cond
  rintro ⟨⟨_, ha⟩, ⟨_, hd⟩⟩
  have := h (by omega)
  omega

/-- C27: in every state the AGC reaches from `start()`, between samples and at
the decision of the next sample, `millis_iq_above_threshold > 0` implies
`max_iq2 > iq2_increase_threshold`; hence with `agc4_a >= 0` the attack
condition and the decay condition do not hold together at a decision. -/
theorem agc_power_threshold_exclusive (api : SdrplayApi) (a0 : AgcGtw) (rsp0 : Rsp)
    (l : List Sample) (s : Sample) :
    ((agc_run api ⟨a0.start, rsp0, [], false⟩ l).agc.millis_iq_above_threshold > 0 →
      (agc_run api ⟨a0.start, rsp0, [], false⟩ l).agc.max_iq2
        > (agc_run api ⟨a0.start, rsp0, [], false⟩ l).agc.iq2_increase_threshold) ∧
    ((((agc_run api ⟨a0.start, rsp0, [], false⟩ l).agc.clock).accumulate s).millis_iq_above_threshold
        > 0 →
      (((agc_run api ⟨a0.start, rsp0, [], false⟩ l).agc.clock).accumulate s).max_iq2
        > (((agc_run api ⟨a0.start, rsp0, [], false⟩ l).agc.clock).accumulate
            s).iq2_increase_threshold) ∧
    (0 ≤ a0.agc4_a →
      ¬ ((((agc_run api ⟨a0.start, rsp0, [], false⟩ l).agc.clock).accumulate s).attack_cond ∧
         (((agc_run api ⟨a0.start, rsp0, [], false⟩ l).agc.clock).accumulate s).decay_cond)) := by
  have hs : (a0.start).WindowInv := by
    unfold AgcGtw.WindowInv
    rw [(start_frame a0).2.2.2.2.2.2.2]
    intro h; exact absurd h (by decide)
  obtain ⟨hinv, hcfg⟩ := run_window_inv api ⟨a0.start, rsp0, [], false⟩ hs l
  have htick := accumulate_window_inv _ s (clock_window_inv _ hinv)
  refine ⟨hinv, htick, ?_⟩
  intro h4
  apply attack_excludes_decay _ htick
  have e1 := (AgcGtw.config_fields
    (AgcGtw.accumulated_frame (agc_run api ⟨a0.start, rsp0, [], false⟩ l).agc s).1).2.2.2.2.2.1
  have e2 := (AgcGtw.config_fields hcfg).2.2.2.2.2.1
  have e3 := (AgcGtw.config_fields (start_frame a0).1).2.2.2.2.2.1
  rw [e1, e2]
  exact e3 ▸ h4

/-- C27 on the AGC of `fast_config` (`agc4_a = 0`) at its third strong sample. -/
theorem agc_power_threshold_exclusive_witness :
    ¬ ((((agc_run test_api ⟨fast_agc, running_rsp, [], false⟩
            [(1000, 1000), (1000, 1000)]).agc.clock).accumulate (1000, 1000)).attack_cond ∧
       (((agc_run test_api ⟨fast_agc, running_rsp, [], false⟩
            [(1000, 1000), (1000, 1000)]).agc.clock).accumulate (1000, 1000)).decay_cond) :=
  (agc_power_threshold_exclusive test_api
    ((AgcGtw.ctor fast_config 0 blank_agc).setup running_rsp 1) running_rsp
    [(1000, 1000), (1000, 1000)] (1000, 1000)).2.2 (by decide)

/-! ## The decrease threshold -/

theorem with_decrease_clock (a : AgcGtw) (d d2 : Int) :
    (a.with_decrease d d2).clock = (a.clock).with_decrease d d2 := by
  unfold AgcGtw.clock AgcGtw.with_decrease
  simp only
  split <;> rfl

theorem with_decrease_accumulate (a : AgcGtw) (d d2 : Int) (s : Sample) :
    (a.with_decrease d d2).accumulate s = (a.accumulate s).with_decrease d d2 := by
  unfold AgcGtw.accumulate AgcGtw.with_decrease
  simp only
  split
  · split <;> rfl
  · rfl

theorem with_decrease_decide_gain (a : AgcGtw) (d d2 : Int) :
    (a.with_decrease d d2).decide_gain = (a.decide_gain).with_decrease d d2 := by
  unfold AgcGtw.decide_gain AgcGtw.attack_cond AgcGtw.decay_cond AgcGtw.with_decrease
  simp only
  split
  · rfl
  · split <;> rfl

theorem with_decrease_window_reset (a : AgcGtw) (d d2 : Int) :
    (a.with_decrease d d2).window_reset = (a.window_reset).with_decrease d d2 := rfl

theorem with_decrease_agc_sample (api : SdrplayApi) (a : AgcGtw) (rsp : Rsp) (s : Sample)
    (d d2 : Int) :
    (a.with_decrease d d2).agc_sample api rsp s
      = { agc := ((a.agc_sample api rsp s).agc).with_decrease d d2,
          rsp := (a.agc_sample api rsp s).rsp, flow := (a.agc_sample api rsp s).flow,
          calls := (a.agc_sample api rsp s).calls } := by
  unfold AgcGtw.agc_sample
  simp only [with_decrease_clock, with_decrease_accumulate, with_decrease_decide_gain,
    with_decrease_window_reset]
  have hdue : (((a.clock).accumulate s).with_decrease d d2).decision_due
      ↔ ((a.clock).accumulate s).decision_due := Iff.rfl
  by_cases hd : ((a.clock).accumulate s).decision_due
  · rw [if_neg (not_not.2 (hdue.2 hd)), if_neg (not_not.2 hd)]
    have hg : (((((a.clock).accumulate s).decide_gain).window_reset).with_decrease d
        d2).gain_reduction
        = ((((a.clock).accumulate s).decide_gain).window_reset).gain_reduction := rfl
    rw [hg]
    split
    · split <;> rfl
    · rfl
  · rw [if_pos (fun h => hd (hdue.1 h)), if_pos hd]

theorem with_decrease_run (api : SdrplayApi) (d d2 : Int) (l : List Sample) (st : AgcRun) :
    agc_run api { st with agc := st.agc.with_decrease d d2 } l
      = { agc_run api st l with agc := (agc_run api st l).agc.with_decrease d d2 } := by
  induction l using List.reverseRecOn with
  | nil => rfl
  | append_singleton l s ih =>
    rw [agc_run_append, agc_run_append, ih]
    generalize agc_run api st l = t
    unfold agc_consume
    simp only
    split
    · rfl
    · rw [with_decrease_agc_sample]

/-- C28: two AGCs built from configurations that differ only in
`agc2_decrease_threshold`, set up on the same source and fed the same samples,
hold the same `gain_reduction`, have made the same calls of
`setIFGainReduction` and have left the same source state, after every prefix
of the stream; their states differ only in the threshold and its square. -/
theorem decrease_threshold_has_no_effect (api : SdrplayApi) (c : AgcGtwConfig) (d : Int)
    (verbose : Int) (uninit : AgcGtw) (rsp0 : Rsp) (m : Int) (l : List Sample) :
    (agc_run api ⟨((AgcGtw.ctor { c with agc2_decrease_threshold := d } verbose uninit).setup
        rsp0 m).start, rsp0, [], false⟩ l).agc.gain_reduction
      = (agc_run api ⟨((AgcGtw.ctor c verbose uninit).setup rsp0 m).start, rsp0, [],
          false⟩ l).agc.gain_reduction ∧
    (agc_run api ⟨((AgcGtw.ctor { c with agc2_decrease_threshold := d } verbose uninit).setup
        rsp0 m).start, rsp0, [], false⟩ l).calls
      = (agc_run api ⟨((AgcGtw.ctor c verbose uninit).setup rsp0 m).start, rsp0, [],
          false⟩ l).calls ∧
    (agc_run api ⟨((AgcGtw.ctor { c with agc2_decrease_threshold := d } verbose uninit).setup
        rsp0 m).start, rsp0, [], false⟩ l).rsp
      = (agc_run api ⟨((AgcGtw.ctor c verbose uninit).setup rsp0 m).start, rsp0, [],
          false⟩ l).rsp ∧
    (agc_run api ⟨((AgcGtw.ctor { c with agc2_decrease_threshold := d } verbose uninit).setup
        rsp0 m).start, rsp0, [], false⟩ l).thrown
      = (agc_run api ⟨((AgcGtw.ctor c verbose uninit).setup rsp0 m).start, rsp0, [],
          false⟩ l).thrown ∧
    (agc_run api ⟨((AgcGtw.ctor { c with agc2_decrease_threshold := d } verbose uninit).setup
        rsp0 m).start, rsp0, [], false⟩ l).agc
      = ((agc_run api ⟨((AgcGtw.ctor c verbose uninit).setup rsp0 m).start, rsp0, [],
          false⟩ l).agc).with_decrease d (toInt32 (d * d)) := by
  have h := with_decrease_run api d (toInt32 (d * d)) l
    ⟨((AgcGtw.ctor c verbose uninit).setup rsp0 m).start, rsp0, [], false⟩
  have e : ((AgcGtw.ctor { c with agc2_decrease_threshold := d } verbose uninit).setup
      rsp0 m).start
      = (((AgcGtw.ctor c verbose uninit).setup rsp0 m).start).with_decrease d
          (toInt32 (d * d)) := rfl
  rw [e]
  simp only at h
  rw [h]
  exact ⟨rfl, rfl, rfl, rfl, rfl⟩

/-! ## Configuration -/

theorem get_config_no_options (env : Libc) (progname : String) (cfg0 : Config) (bw_type0 : Int) :
    get_config env progname [] cfg0 bw_type0
      = GetConfig.returned
          { global_config := { verbose := 0, isOutFile := true, agcModel := AgcModel.AGC_NONE }
            rsp_config := set_rsp_config_defaults cfg0.rsp_config
            snd_config := { name := "", sample_rate := ⟨4694844281859342336⟩, latency := 30000 }
            file_config := { name := "" }
            agc_rsp_config := set_agc_rsp_config_defaults env cfg0.agc_rsp_config
            agc_gtw_config := set_agc_gtw_config_defaults
            cerr := cfg0.cerr } := rfl

/-- C22 fails on the code: after `get_config` with no option `agc5_b` is 1000,
while the line of `usage()` for option `-y` gives the default 100; the other
nine parameters of the GTW AGC and the LNA state have the values `usage()`
prints. -/
theorem default_agc5_b_is_not_the_documented (env : Libc) (progname : String) (cfg0 : Config)
    (bw_type0 : Int) :
    ∃ cfg, get_config env progname [] cfg0 bw_type0 = GetConfig.returned cfg ∧
      cfg.agc_gtw_config.agc5_b = 1000 ∧
      "    -y B     (AGC GTW model) gain decrease event time (ms), default 100"
        ∈ usage progname ∧
      cfg.agc_gtw_config.agc1_increase_threshold = 16384 ∧
      cfg.agc_gtw_config.agc2_decrease_threshold = 8192 ∧
      cfg.agc_gtw_config.agc3_min_time_ms = 500 ∧
      cfg.agc_gtw_config.min_gain_reduction = 30 ∧
      cfg.agc_gtw_config.max_gain_reduction = 59 ∧
      cfg.agc_gtw_config.gainstep_dec = 1 ∧ cfg.agc_gtw_config.gainstep_inc = 1 ∧
      cfg.agc_gtw_config.agc4_a = 4096 ∧ cfg.agc_gtw_config.agc6_c = 5000 ∧
      cfg.rsp_config.lna_state = 3 := by
  refine ⟨_, get_config_no_options env progname cfg0 bw_type0, rfl, ?_, rfl, rfl, rfl, rfl, rfl,
    rfl, rfl, rfl, rfl, rfl⟩
  simp [usage]

theorem get_config_bandwidth (env : Libc) (progname optarg : String) (cfg0 : Config)
    (bw_type0 : Int) :
    (∀ x, env.sscanf_d optarg = some x →
      ∃ cfg, get_config env progname [('B', optarg)] cfg0 bw_type0 = GetConfig.returned cfg ∧
        cfg.rsp_config.bw_type = x ∧ cfg.cerr = cfg0.cerr) ∧
    (env.sscanf_d optarg = none →
      (bw_type0 = 200 ∨ bw_type0 = 300 ∨ bw_type0 = 600 ∨ bw_type0 = 1536 ∨ bw_type0 = 5000) →
      ∃ cfg, get_config env progname [('B', optarg)] cfg0 bw_type0 = GetConfig.returned cfg ∧
        cfg.rsp_config.bw_type = bw_type0 ∧ cfg.cerr = cfg0.cerr) ∧
    (env.sscanf_d optarg = none →
      ¬ (bw_type0 = 200 ∨ bw_type0 = 300 ∨ bw_type0 = 600 ∨ bw_type0 = 1536 ∨ bw_type0 = 5000) →
      ∃ cfg, get_config env progname [('B', optarg)] cfg0 bw_type0 = GetConfig.exited 1 cfg ∧
        cfg.rsp_config.bw_type = 1536 ∧
        cfg.cerr = cfg0.cerr ++ ["invalid bandwidth: " ++ optarg]) := by
  refine ⟨?_, ?_, ?_⟩
  · intro x hx
    simp [get_config, get_config_loop, get_config_option, hx]
  · intro hx hv
    simp [get_config, get_config_loop, get_config_option, hx, hv]
  · intro hx hv
    simp [get_config, get_config_loop, get_config_option, hx, hv, Config.log,
      set_rsp_config_defaults]

/-- C23 fails on the code: option `-B 42` is accepted, `get_config` returns
with `bw_type = 42` and writes nothing to `std::cerr`; so is `-B -7`; and
`-B abc` is accepted when the local `bw_type`, which has no initialiser,
happens to hold 300. -/
theorem bandwidth_option_accepts_any_integer :
    ((get_config (test_libc []) "rsp_snd" [('B', "42")] blank_config 0).result.map
      (fun cfg => (cfg.rsp_config.bw_type, cfg.cerr))) = some (42, []) ∧
    ((get_config (test_libc []) "rsp_snd" [('B', "-7")] blank_config 0).result.map
      (fun cfg => (cfg.rsp_config.bw_type, cfg.cerr))) = some (-7, []) ∧
    ((get_config (test_libc []) "rsp_snd" [('B', "abc")] blank_config 300).result.map
      (fun cfg => (cfg.rsp_config.bw_type, cfg.cerr))) = some (300, []) ∧
    (get_config (test_libc []) "rsp_snd" [('B', "abc")] blank_config 0).result.isNone = true := by
  decide

theorem set_rsp_parameter_fields (env : Libc) (value : String) (rsp_config : RspConfig) :
    set_rsp_parameter env "serial" value rsp_config
      = ({ rsp_config with serial := value }, []) ∧
    set_rsp_parameter env "frequency" value rsp_config
      = ({ rsp_config with frequency := env.strtod value }, []) ∧
    set_rsp_parameter env "sample_rate" value rsp_config
      = ({ rsp_config with sample_rate := env.strtod value }, []) ∧
    set_rsp_parameter env "bw_type" value rsp_config
      = ({ rsp_config with bw_type := toInt32 (env.strtol value) }, []) ∧
    set_rsp_parameter env "gRdB" value rsp_config
      = ({ rsp_config with gRdB := toInt32 (env.strtol value) }, []) ∧
    set_rsp_parameter env "lna_state" value rsp_config
      = ({ rsp_config with bw_type := toInt32 (env.strtol value) }, []) ∧
    set_rsp_parameter env "wide_band_signal" value rsp_config
      = ({ rsp_config with wide_band_signal := decide (value = "true" ∨ value = "TRUE") }, []) ∧
    set_rsp_parameter env "antenna" value rsp_config
      = ({ rsp_config with antenna := value }, []) ∧
    set_rsp_parameter env "gain_file" value rsp_config
      = ({ rsp_config with gain_file := value }, []) ∧
    set_rsp_parameter env "grdb" value rsp_config
      = (rsp_config, ["invalid rsp parameter grdb"]) :=
  ⟨rfl, rfl, rfl, rfl, rfl, rfl, rfl, rfl, rfl, rfl⟩

/-- C30 fails on the code: the lines `[rsp]` and `lna_state = 5` leave
`lna_state` at its default 3 and set `bw_type` to 5; the lines `[rsp]` and
`gRdB = 40` leave `gRdB` at its default 50 and write a line to `std::cerr`,
the key being compared in lower case; the lines `[rsp]` and `bw_type = 600`
set `bw_type` to 600. -/
theorem config_key_lna_state_sets_bw_type :
    ((get_config (test_libc ["[rsp]", "lna_state = 5"]) "rsp_snd" [('C', "rsp_snd.conf")]
        blank_config 0).result.map
      (fun cfg => (cfg.rsp_config.lna_state, cfg.rsp_config.bw_type, cfg.cerr)))
      = some (3, 5, []) ∧
    ((get_config (test_libc ["[rsp]", "gRdB = 40"]) "rsp_snd" [('C', "rsp_snd.conf")]
        blank_config 0).result.map
      (fun cfg => (cfg.rsp_config.gRdB, cfg.cerr)))
      = some (50, ["invalid rsp parameter grdb"]) ∧
    ((get_config (test_libc ["[rsp]", "bw_type = 600"]) "rsp_snd" [('C', "rsp_snd.conf")]
        blank_config 0).result.map
      (fun cfg => (cfg.rsp_config.lna_state, cfg.rsp_config.bw_type, cfg.cerr)))
      = some (3, 600, []) := by
  decide

end RspSnd
